import Mathlib

/-!
# ResCor: bias tracking and derived observables

A shallow embedding of the parts of `dev/apps/Rinextools/ResCor.cpp` that keep the
per-(observation type, satellite) bias state (`setBiasLimit`, `removeBias`), the
per-epoch cache of raw data (`SaveData`, `BeforeEditObs`) and the computation of the
derived observation types (`ComputeNewOTs`).

Conventions of the embedding:
* a C++ `double` is a rational number, so arithmetic is exact;
* a `std::map` is an association list kept in key order, `find` is `mapFind`,
  `m[k] = v` is `mapSet`;
* program-wide variables are passed explicitly; log output is left out.
-/

namespace ResCor

/-! ## Maps -/

/-- The `find` of a `std::map`: the value stored under the key, if any. -/
def mapFind {κ α : Type} [DecidableEq κ] (m : List (κ × α)) (k : κ) : Option α :=
  match m with
  | [] => none
  | (k', v) :: r => if k = k' then some v else mapFind r k

/-- The assignment `m[k] = v` of a `std::map` ordered by `lt`: the value of an
existing key is overwritten, a new key is inserted at its place in the order. -/
def mapSet {κ α : Type} [DecidableEq κ] (lt : κ → κ → Bool) (m : List (κ × α))
    (k : κ) (v : α) : List (κ × α) :=
  match m with
  | [] => [(k, v)]
  | (k', v') :: r =>
    if k = k' then (k', v) :: r
    else if lt k k' then (k, v) :: (k', v') :: r
    else (k', v') :: mapSet lt r k v

/-! ## Identifiers -/

/-- Modelled from the spec: the satellite systems of `SatID` (the header `SatID.hpp`
is not among the sources; the program names `SatID::systemGPS`). -/
inductive SatelliteSystem where
  | systemGPS
  | systemGalileo
  | systemGlonass
  | systemGeosync
  | systemLEO
  | systemTransit
  | systemMixed
deriving DecidableEq

/-- The position of a system in the enumeration, which orders the systems. -/
def SatelliteSystem.toNat : SatelliteSystem → Nat
  | .systemGPS => 1
  | .systemGalileo => 2
  | .systemGlonass => 3
  | .systemGeosync => 4
  | .systemLEO => 5
  | .systemTransit => 6
  | .systemMixed => 7

/-- Modelled from the spec: the satellite identifier `RinexSatID` (declared in a header
that is not among the sources): an integer id and a satellite system. -/
structure RinexSatID where
  id : Int
  system : SatelliteSystem
deriving DecidableEq

/-- The default-constructed `RinexSatID p;` of the program: the invalid satellite
`(-1, GPS)`, under which `setBiasLimit` stores the limit. -/
def RinexSatID.invalid : RinexSatID := ⟨-1, .systemGPS⟩

/-- The order of satellite identifiers in a map: by system, then by id. -/
def RinexSatID.lt (a b : RinexSatID) : Bool :=
  if a.system = b.system then decide (a.id < b.id)
  else decide (a.system.toNat < b.system.toNat)

/-- Modelled from the spec: the observation type `RinexObsHeader::RinexObsType` (declared
in a header that is not among the sources): a two-letter type string and a dependency
mask. Maps order observation types by the type string. -/
structure RinexObsType where
  type : String
  depend : Nat
deriving DecidableEq

/-- Modelled from the spec: `RinexObsHeader::convertObsType` applied to an observation
type gives its type string; the unknown type has the string `UN`. -/
def convertObsType (ot : RinexObsType) : String := ot.type

/-- The order of type strings in a map. -/
def strLt (a b : String) : Bool := decide (a < b)

/-! ## Bias state -/

/-- The program variable `AllBiases`: for each observation type (keyed by its type
string) the map from satellite to bias; the entry of the invalid satellite holds the
limit of the type. -/
abbrev BiasState := List (String × List (RinexSatID × ℚ))

/-- What `removeBias` returns: the value, the flag `rset` passed by reference, and the
program variable `AllBiases` after the call. -/
structure BiasResult where
  value : ℚ
  rset : Bool
  AllBiases : BiasState

/-- The function `setBiasLimit`: the return code and `AllBiases` after the call. -/
def setBiasLimit (AllBiases : BiasState) (ot : RinexObsType) (lim : ℚ) :
    Int × BiasState :=
  if convertObsType ot = "UN" ∨ lim ≤ 0 then (-1, AllBiases)
  else
    match mapFind AllBiases ot.type with
    | none =>
      (0, mapSet strLt AllBiases ot.type (mapSet RinexSatID.lt [] RinexSatID.invalid lim))
    | some bm =>
      (0, mapSet strLt AllBiases ot.type (mapSet RinexSatID.lt bm RinexSatID.invalid lim))

/-- The function `removeBias` (its time argument is only logged and is left out). The
values are rational numbers: the bias `raw - 0.001` and the distance `|raw - bias|` that
is compared with the limit are exact, where the program rounds to a `double`. -/
def removeBias (AllBiases : BiasState) (ot : RinexObsType) (sv : RinexSatID) (raw : ℚ) :
    BiasResult :=
  if convertObsType ot = "UN" ∨ sv.id = -1 then ⟨raw, false, AllBiases⟩
  else
    match mapFind AllBiases ot.type with
    | none => ⟨raw, false, AllBiases⟩
    | some bm =>
      match mapFind bm RinexSatID.invalid with
      | none => ⟨raw, false, AllBiases⟩
      | some limit =>
        match mapFind bm sv with
        | none =>
          ⟨raw - (raw - 1 / 1000), true,
            mapSet strLt AllBiases ot.type (mapSet RinexSatID.lt bm sv (raw - 1 / 1000))⟩
        | some b =>
          if |raw - b| > limit then
            ⟨raw - (raw - 1 / 1000), true,
              mapSet strLt AllBiases ot.type (mapSet RinexSatID.lt bm sv (raw - 1 / 1000))⟩
          else ⟨raw - b, false, AllBiases⟩

/-- The limit configured for an observation type: the entry of the invalid satellite. -/
def limitOf (AllBiases : BiasState) (ot : RinexObsType) : Option ℚ :=
  (mapFind AllBiases ot.type).bind fun bm => mapFind bm RinexSatID.invalid

/-- The bias stored for an observation type and a satellite; the entry of the invalid
satellite is the limit of the type and not a bias. -/
def biasOf (AllBiases : BiasState) (ot : RinexObsType) (sv : RinexSatID) : Option ℚ :=
  if sv = RinexSatID.invalid then none
  else (mapFind AllBiases ot.type).bind fun bm => mapFind bm sv

/-- Bias states the program can be in: reached from the empty map by calls of
`setBiasLimit` and `removeBias`. -/
inductive Reachable : BiasState → Prop where
  | empty : Reachable []
  | setLimit (s : BiasState) (ot : RinexObsType) (lim : ℚ) :
      Reachable s → Reachable (setBiasLimit s ot lim).2
  | remove (s : BiasState) (ot : RinexObsType) (sv : RinexSatID) (raw : ℚ) :
      Reachable s → Reachable (removeBias s ot sv raw).AllBiases

/-! ## Observation records and the cache of raw data -/

/-- The struct `RCData`: raw range and phase data of a satellite, with the
loss-of-lock indicators of the two phases. The value 0 stands for absent data. -/
structure RCData where
  L1 : ℚ
  L2 : ℚ
  P1 : ℚ
  P2 : ℚ
  LL1 : Nat
  LL2 : Nat
deriving DecidableEq

/-- Modelled from the spec: the datum `RinexDatum` of one observation type in a record
(declared in a header that is not among the sources): the value, the loss-of-lock
indicator and the signal strength. -/
structure RinexDatum where
  data : ℚ
  lli : Nat
  ssi : Nat
deriving DecidableEq

/-- The map `RinexObsTypeMap` from observation type (keyed by its type string) to datum. -/
abbrev RinexObsTypeMap := List (String × RinexDatum)

/-- The map `RinexSatMap` from satellite to the data of its observation types. -/
abbrev RinexSatMap := List (RinexSatID × RinexObsTypeMap)

/-- A word of an in-line header comment after the first, as the program reads it with
`asDouble` and with `asInt` (string utilities that are not among the sources). -/
structure CommentWord where
  asDouble : ℚ
  asInt : Int
deriving DecidableEq

/-- A comment of an in-line header: its first word and the words after it. -/
structure HeaderComment where
  first : String
  rest : List CommentWord
deriving DecidableEq

/-- Modelled from the spec: the part of an observation record `RinexObsData` that the
program uses (declared in a header that is not among the sources): time tag in seconds,
epoch flag, number of satellites, the data of the satellites, and the comments of the
in-line header. -/
structure RinexObsData where
  time : ℚ
  epochFlag : Int
  numSvs : Int
  obs : RinexSatMap
  commentList : List HeaderComment

/-- The ECEF coordinates of a `Position`. -/
structure Position where
  X : ℚ
  Y : ℚ
  Z : ℚ
deriving DecidableEq

/-- The struct `RefPosData`: a reference position with its diagnostics. -/
structure RefPosData where
  RxPos : Position
  valid : Bool
  NPRN : Int
  clk : ℚ
  PDOP : ℚ
  GDOP : ℚ
  RMS : ℚ
deriving DecidableEq

/-- The program variables that are fixed when the observations are processed: the
indexes of the raw types in the input header (`inL1`, ...) and in the output header
(`otL1`, ...), -1 when absent, the flags, and the type list of the input header. -/
structure Config where
  inC1 : Int
  inP1 : Int
  inP2 : Int
  inL1 : Int
  inL2 : Int
  otC1 : Int
  otP1 : Int
  otP2 : Int
  otL1 : Int
  otL2 : Int
  Cforce : Bool
  RefPosInput : Bool
  rhead : List RinexObsType
  rheadout : List RinexObsType

/-- The program variables that change from record to record. -/
structure Globals where
  CurrentTime : ℚ
  DataStore : RCData
  DataStoreMap : List (RinexSatID × RCData)
  CurrRef : RefPosData
  AllBiases : BiasState

/-- The lookup `otmap.find(rhd.obsTypeList[x])` guarded by `x > -1`. The index is a
position found in the same list; an index outside the list finds nothing. -/
def findObs (otmap : RinexObsTypeMap) (obsTypeList : List RinexObsType) (x : Int) :
    Option RinexDatum :=
  if x > -1 then
    match obsTypeList.get? x.toNat with
    | some ot => mapFind otmap ot.type
    | none => none
  else none

/-- The body of the loop of `SaveData` for one satellite of the record: the program
variables `DataStore` and `DataStoreMap` after it. -/
def saveSat (obsTypeList : List RinexObsType) (xL1 xL2 xP1 xP2 : Int)
    (st : RCData × List (RinexSatID × RCData)) (entry : RinexSatID × RinexObsTypeMap) :
    RCData × List (RinexSatID × RCData) :=
  let sat : RinexSatID := ⟨entry.1.id, .systemGPS⟩
  let otmap := entry.2
  let d0 := match mapFind st.2 sat with
    | some d => d
    | none => st.1
  let d1 := match findObs otmap obsTypeList xL1 with
    | some x => { d0 with L1 := x.data, LL1 := x.lli }
    | none => d0
  let d2 := match findObs otmap obsTypeList xL2 with
    | some x => { d1 with L2 := x.data, LL2 := x.lli }
    | none => d1
  let d3 := match findObs otmap obsTypeList xP1 with
    | some x => { d2 with P1 := x.data }
    | none => d2
  let d4 := match findObs otmap obsTypeList xP2 with
    | some x => { d3 with P2 := x.data }
    | none => d3
  (d4, mapSet RinexSatID.lt st.2 sat d4)

/-- The function `SaveData`: the loop over the satellites of the record. -/
def SaveData (g : Globals) (rod : RinexObsData) (obsTypeList : List RinexObsType)
    (xL1 xL2 xP1 xP2 : Int) : Globals :=
  let r := rod.obs.foldl (saveSat obsTypeList xL1 xL2 xP1 xP2) (g.DataStore, g.DataStoreMap)
  { g with DataStore := r.1, DataStoreMap := r.2 }

/-- The reading of one comment of an in-line header in `BeforeEditObs`: the program
variable `CurrRef` after it. The words are consumed in order; a missing word reads as 0. -/
def readComment (RefPosInput : Bool) (ref : RefPosData) (c : HeaderComment) : RefPosData :=
  if RefPosInput then
    if c.first = "XYZT" then
      { ref with
        RxPos := ⟨(c.rest.getD 0 ⟨0, 0⟩).asDouble, (c.rest.getD 1 ⟨0, 0⟩).asDouble,
          (c.rest.getD 2 ⟨0, 0⟩).asDouble⟩
        clk := (c.rest.getD 3 ⟨0, 0⟩).asDouble }
    else if c.first = "DIAG" then
      { ref with
        NPRN := (c.rest.getD 0 ⟨0, 0⟩).asInt
        PDOP := (c.rest.getD 1 ⟨0, 0⟩).asDouble
        GDOP := (c.rest.getD 2 ⟨0, 0⟩).asDouble
        RMS := (c.rest.getD 3 ⟨0, 0⟩).asDouble
        valid := true }
    else ref
  else ref

/-- The callback `RCRinexEditor::BeforeEditObs` (it always returns 0): the program
variables after it. A record that is an in-line header only updates the reference
position; any other record sets the time tag, clears the cache of raw data and saves
the raw data that will not be in the output. -/
def BeforeEditObs (cfg : Config) (g : Globals) (roin : RinexObsData) : Globals :=
  if roin.epochFlag ≠ 0 ∧ roin.epochFlag ≠ 1 then
    { g with CurrRef := roin.commentList.foldl (readComment cfg.RefPosInput) g.CurrRef }
  else
    let g1 : Globals := { g with CurrentTime := roin.time, DataStoreMap := [] }
    if (cfg.inL1 > -1 ∧ cfg.otL1 = -1) ∨ (cfg.inL2 > -1 ∧ cfg.otL2 = -1) ∨
        (cfg.inP1 > -1 ∧ (cfg.otP1 = -1 ∨ (cfg.Cforce = true ∧ cfg.otC1 = -1))) ∨
        (cfg.inP2 > -1 ∧ cfg.otP2 = -1) then
      SaveData g1 roin cfg.rhead cfg.inL1 cfg.inL2 cfg.inP1 cfg.inP2
    else g1

/-! ## Constants of the program -/

/-- Modelled from the spec: the speed of light in m/s, a constant of
`icd_200_constants.hpp` (a header that is not among the sources). -/
def C_GPS_M : ℚ := 299792458

/-- Modelled from the spec: the oscillator frequency in Hz, a constant of
`icd_200_constants.hpp`; the program itself writes it as `10.23e6` in `FL1`. -/
def OSC_FREQ : ℚ := 10230000

/-- Modelled from the spec: the L1 frequency multiplier, a constant of
`icd_200_constants.hpp`; the program notes its value 154.0. -/
def L1_MULT : ℚ := 154

/-- Modelled from the spec: the L2 frequency multiplier, a constant of
`icd_200_constants.hpp`; the program notes its value 120.0. -/
def L2_MULT : ℚ := 120

def CFF : ℚ := C_GPS_M / OSC_FREQ
def F1 : ℚ := L1_MULT
def F2 : ℚ := L2_MULT
def f12 : ℚ := F1 * F1
def f22 : ℚ := F2 * F2
def wl1 : ℚ := CFF / F1
def wl2 : ℚ := CFF / F2
def wl1r : ℚ := F1 / (F1 + F2)
def wl2r : ℚ := F2 / (F1 + F2)
def wl1p : ℚ := wl1 * F1 / (F1 - F2)
def wl2p : ℚ := -wl2 * F2 / (F1 - F2)
def if1r : ℚ := f12 / (f12 - f22)
def if2r : ℚ := -f22 / (f12 - f22)
def if1p : ℚ := wl1 * f12 / (f12 - f22)
def if2p : ℚ := -wl2 * f22 / (f12 - f22)
def gf1r : ℚ := -1
def gf2r : ℚ := 1
def gf1p : ℚ := wl1
def gf2p : ℚ := -wl2
def alpha : ℚ := f12 / f22 - 1
def FL1 : ℚ := F1 * 10230000
def TECUperM : ℚ := FL1 * FL1 * (1 / 10000000000000000) / (4028 / 100)

/-! ## The derived observation types -/

/-- The local variables of `ComputeNewOTs` that are set for a satellite before the loop
over the requested types: the flags for the ephemeris, the range and pierce point
data, and the fields of the ephemeris range object `CER` that the loop reads. -/
structure SatVars where
  HaveEphRange : Bool
  HaveEphThisSat : Bool
  rho : ℚ
  IPPLat : ℚ
  IPPLon : ℚ
  Obliq : ℚ
  Trop : ℚ
  Tgd : ℚ
  relativity : ℚ
  svclkbias : ℚ
  elevation : ℚ
  azimuth : ℚ
  svPosVel : Position

/-- The program variable `XRsol`, an array of four values. -/
structure Vec4 where
  x0 : ℚ
  x1 : ℚ
  x2 : ℚ
  x3 : ℚ

/-- The flag `HaveR` of `ComputeNewOTs`: the satellite has cached data and both
pseudoranges are nonzero. -/
def haveR (kt : Option RCData) : Bool :=
  match kt with
  | some d => decide (d.P1 ≠ 0 ∧ d.P2 ≠ 0)
  | none => false

/-- The flag `HaveP` of `ComputeNewOTs`: the satellite has cached data and both phases
are nonzero. -/
def haveP (kt : Option RCData) : Bool :=
  match kt with
  | some d => decide (d.L1 ≠ 0 ∧ d.L2 ≠ 0)
  | none => false

/-- What the branch of one requested type does: the flag `ok`, the value left in the
field (0 unless `ok`), whether the branch executed `lli |= 1`, and the variables
`reset` and `AllBiases` after it. -/
structure OTResult where
  ok : Bool
  data : ℚ
  lliReset : Bool
  reset : Bool
  AllBiases : BiasState

/-- A branch `ok = c; if(ok) data = v;`. -/
def plainOT (c : Bool) (v : ℚ) (reset : Bool) (B : BiasState) : OTResult :=
  ⟨c, if c then v else 0, false, reset, B⟩

/-- A branch `ok = c; if(ok) { data = removeBias(ot, sat, reset, time, raw);
if(reset) lli |= 1; }`. -/
def debiasedOT (c : Bool) (ot : RinexObsType) (sat : RinexSatID) (raw : ℚ) (reset : Bool)
    (B : BiasState) : OTResult :=
  if c then
    ⟨true, (removeBias B ot sat raw).value, (removeBias B ot sat raw).rset,
      (removeBias B ot sat raw).rset, (removeBias B ot sat raw).AllBiases⟩
  else ⟨false, 0, false, reset, B⟩

/-- The cached data `kt->second` that a branch reads after its test of `HaveR` or
`HaveP`, which hold only when the satellite has cached data. -/
def cached (kt : Option RCData) : RCData := kt.getD ⟨0, 0, 0, 0, 0, 0⟩

/-- The chain of branches of `ComputeNewOTs` over the name `OTlist[i]` of a requested
type. `kt` is the cached raw data of the satellite, if any, `HaveR` and `HaveP` are the
local flags of that name; the branches of M1 and M2 read the cached data without a
test, which is undefined (`none`) when there is none. -/
def computeOT (name : String) (ot : RinexObsType) (sat : RinexSatID) (kt : Option RCData)
    (HaveR HaveP : Bool) (v : SatVars) (XRsol : Vec4) (reset : Bool) (B : BiasState) :
    Option OTResult :=
  if name = "ER" then some (plainOT v.HaveEphRange v.rho reset B)
  else if name = "RI" then some (plainOT HaveR (((cached kt).P2 - (cached kt).P1) / alpha) reset B)
  else if name = "PI" then some (plainOT HaveP ((wl1 * (cached kt).L1 - wl2 * (cached kt).L2) / alpha) reset B)
  else if name = "TR" then some (plainOT v.HaveEphRange v.Trop reset B)
  else if name = "RL" then some (plainOT v.HaveEphThisSat v.relativity reset B)
  else if name = "SC" then some (plainOT v.HaveEphThisSat v.svclkbias reset B)
  else if name = "EL" then some (plainOT v.HaveEphRange v.elevation reset B)
  else if name = "AZ" then some (plainOT v.HaveEphRange v.azimuth reset B)
  else if name = "SR" then
    some (plainOT HaveR (((cached kt).P2 - (cached kt).P1) * TECUperM / alpha - v.Tgd) reset B)
  else if name = "SP" then
    some (debiasedOT HaveP ot sat ((wl1 * (cached kt).L1 - wl2 * (cached kt).L2) * TECUperM / alpha) reset B)
  else if name = "VR" then
    some (plainOT (HaveR && v.HaveEphRange)
      ((((cached kt).P2 - (cached kt).P1) * TECUperM / alpha - v.Tgd) * v.Obliq) reset B)
  else if name = "VP" then
    some (debiasedOT (HaveP && v.HaveEphRange) ot sat
      (((wl1 * (cached kt).L1 - wl2 * (cached kt).L2) * TECUperM / alpha - v.Tgd) * v.Obliq) reset B)
  else if name = "LA" then some (plainOT v.HaveEphRange v.IPPLat reset B)
  else if name = "LO" then some (plainOT v.HaveEphRange v.IPPLon reset B)
  else if name = "P3" then some (plainOT HaveR (if1r * (cached kt).P1 + if2r * (cached kt).P2) reset B)
  else if name = "L3" then
    some (debiasedOT HaveP ot sat (if1p * (cached kt).L1 + if2p * (cached kt).L2) reset B)
  else if name = "P4" then some (plainOT HaveR (gf1r * (cached kt).P1 + gf2r * (cached kt).P2) reset B)
  else if name = "L4" then
    some (debiasedOT HaveP ot sat (gf1p * (cached kt).L1 + gf2p * (cached kt).L2) reset B)
  else if name = "P5" then some (plainOT HaveR (wl1r * (cached kt).P1 + wl2r * (cached kt).P2) reset B)
  else if name = "L5" then
    some (debiasedOT HaveP ot sat (wl1p * (cached kt).L1 + wl2p * (cached kt).L2) reset B)
  else if name = "MP" ∨ name = "M3" then
    some (debiasedOT (HaveP && HaveR) ot sat
      (if1r * (cached kt).P1 + if2r * (cached kt).P2 - (if1p * (cached kt).L1 + if2p * (cached kt).L2)) reset B)
  else if name = "M1" then
    match kt with
    | none => none
    | some c =>
      some (debiasedOT (decide (c.P1 ≠ 0 ∧ c.L1 ≠ 0)) ot sat (c.P1 - wl1 * c.L1) reset B)
  else if name = "M2" then
    match kt with
    | none => none
    | some c =>
      some (debiasedOT (decide (c.P2 ≠ 0 ∧ c.L2 ≠ 0)) ot sat (c.P2 - wl2 * c.L2) reset B)
  else if name = "M4" then
    some (debiasedOT (HaveP && HaveR) ot sat
      (gf1r * (cached kt).P1 + gf2r * (cached kt).P2 - (gf1p * (cached kt).L1 + gf2p * (cached kt).L2)) reset B)
  else if name = "M5" then
    some (debiasedOT (HaveP && HaveR) ot sat
      (wl1r * (cached kt).P1 + wl2r * (cached kt).P2 - (wl1p * (cached kt).L1 + wl2p * (cached kt).L2)) reset B)
  else if name = "XR" then
    some ⟨HaveR && HaveP, if HaveR && HaveP then XRsol.x0 else 0,
      HaveR && HaveP && reset, reset, B⟩
  else if name = "XI" then some (debiasedOT (HaveR && HaveP) ot sat XRsol.x1 reset B)
  else if name = "X1" then some (debiasedOT (HaveR && HaveP) ot sat XRsol.x2 reset B)
  else if name = "X2" then some (debiasedOT (HaveR && HaveP) ot sat XRsol.x3 reset B)
  else if name = "SX" then some (plainOT (HaveP && v.HaveEphThisSat) v.svPosVel.X reset B)
  else if name = "SY" then some (plainOT (HaveP && v.HaveEphThisSat) v.svPosVel.Y reset B)
  else if name = "SZ" then some (plainOT (HaveP && v.HaveEphThisSat) v.svPosVel.Z reset B)
  else some ⟨false, 0, false, reset, B⟩

/-- The value `test` of the loss-of-lock section: the dependency mask of the phase
type at its index in the input header (`inX`), else at its index in the output header
(`otX`), else 0. The program reads the list of the input header in both cases; an
index outside the list is undefined (`none`). -/
def phaseTest (rhead : List RinexObsType) (inX otX : Int) : Option Nat :=
  if inX > -1 then (rhead.get? inX.toNat).map fun ot => ot.depend
  else if otX > -1 then (rhead.get? otX.toNat).map fun ot => ot.depend
  else some 0

/-- The condition `(OTList[i].depend & test) && (LL & 0x01)` of the loss-of-lock
section; the second operand reads the cached data, which is undefined (`none`) when
the satellite has none. -/
def phaseSlip (ot : RinexObsType) (test : Nat) (LL : Option Nat) : Option Bool :=
  if ot.depend &&& test ≠ 0 then LL.map fun l => decide (l &&& 1 ≠ 0)
  else some false

/-- The variables that the loop over the requested types changes: the data of the
satellite in the record, the local flag `reset`, and `AllBiases`. -/
structure OTState where
  otmap : RinexObsTypeMap
  reset : Bool
  AllBiases : BiasState

/-- The body of the loop of `ComputeNewOTs` over the requested types, for the entry
`p = (OTlist[i], OTList[i])` of the two parallel lists. -/
def otStep (cfg : Config) (sat : RinexSatID) (kt : Option RCData) (v : SatVars)
    (XRsol : Vec4) (st : OTState) (p : String × RinexObsType) : Option OTState :=
  match mapFind st.otmap p.2.type with
  | none => some st
  | some datum =>
    match computeOT p.1 p.2 sat kt (haveR kt) (haveP kt) v XRsol st.reset st.AllBiases with
    | none => none
    | some r =>
      let lli1 := if r.lliReset then datum.lli ||| 1 else datum.lli
      if r.ok = false then
        some ⟨mapSet strLt st.otmap p.2.type ⟨r.data, lli1, datum.ssi⟩, r.reset, r.AllBiases⟩
      else
        match phaseTest cfg.rhead cfg.inL1 cfg.otL1 with
        | none => none
        | some t1 =>
          match phaseSlip p.2 t1 (kt.map fun c => c.LL1) with
          | none => none
          | some s1 =>
            match phaseTest cfg.rhead cfg.inL2 cfg.otL2 with
            | none => none
            | some t2 =>
              match phaseSlip p.2 t2 (kt.map fun c => c.LL2) with
              | none => none
              | some s2 =>
                let lli2 := if s1 then lli1 ||| 1 else lli1
                let lli3 := if s2 then lli2 ||| 1 else lli2
                some ⟨mapSet strLt st.otmap p.2.type ⟨r.data, lli3, datum.ssi⟩,
                  r.reset, r.AllBiases⟩

/-- The loop of `ComputeNewOTs` over the requested types for one satellite; `ps` pairs
the parallel lists `OTlist` and `OTList`. -/
def otLoop (cfg : Config) (sat : RinexSatID) (kt : Option RCData) (v : SatVars)
    (XRsol : Vec4) : List (String × RinexObsType) → OTState → Option OTState
  | [], st => some st
  | p :: ps, st =>
    match otStep cfg sat kt v XRsol st p with
    | none => none
    | some st1 => otLoop cfg sat kt v XRsol ps st1

/-! ## The transform for XR, XI, X1, X2 -/

/-- The flag `DoSVX` that `PrepareInput` sets: one of SX, SY, SZ is requested. -/
def DoSVX (OTlist : List String) : Bool :=
  OTlist.any fun n => decide (n = "SX" ∨ n = "SY" ∨ n = "SZ")

/-- The flag `DoXR` that `PrepareInput` sets: one of XR, XI, X1, X2 is requested. -/
def DoXR (OTlist : List String) : Bool :=
  OTlist.any fun n => decide (n = "XR" ∨ n = "XI" ∨ n = "X1" ∨ n = "X2")

/-- The division `XRM[i][j] /= alpha` of `PrepareInput` over one row of the matrix. -/
def rowOverAlpha (r : Vec4) : Vec4 := ⟨r.x0 / alpha, r.x1 / alpha, r.x2 / alpha, r.x3 / alpha⟩

/-- Row 0 of the matrix `XRM` as `PrepareInput` leaves it when `DoXR` is set. -/
def XRM0 : Vec4 := rowOverAlpha ⟨alpha + 1, -1, 0, 0⟩

/-- Row 1 of the matrix `XRM`. -/
def XRM1 : Vec4 := rowOverAlpha ⟨1, -1, 0, 0⟩

/-- Row 2 of the matrix `XRM`. -/
def XRM2 : Vec4 := rowOverAlpha ⟨-alpha - 2, 2, alpha, 0⟩

/-- Row 3 of the matrix `XRM`. -/
def XRM3 : Vec4 := rowOverAlpha ⟨-2 * (alpha + 1), alpha + 2, 0, alpha⟩

/-- The array `XRdat` that `ComputeNewOTs` fills from the cached data. -/
def XRdat (d : RCData) : Vec4 := ⟨wl1 * d.L1, wl2 * d.L2, d.P1, d.P2⟩

/-- The inner loop `XRsol[i] = 0.0; for(j...) XRsol[i] += XRM[i][j] * XRdat[j];`. -/
def rowTimes (r x : Vec4) : ℚ := 0 + r.x0 * x.x0 + r.x1 * x.x1 + r.x2 * x.x2 + r.x3 * x.x3

/-- The block of `ComputeNewOTs` that computes `XRsol`: with `DoXR`, `HaveR` and `HaveP`
the array is computed from the cached data, otherwise it keeps its values. -/
def computeXRsol (DoXR : Bool) (kt : Option RCData) (XRsol : Vec4) : Vec4 :=
  if DoXR && haveR kt && haveP kt then
    ⟨rowTimes XRM0 (XRdat (cached kt)), rowTimes XRM1 (XRdat (cached kt)),
      rowTimes XRM2 (XRdat (cached kt)), rowTimes XRM3 (XRdat (cached kt))⟩
  else XRsol

/-- The transform in the words of the specification: the matrix with rows
`[alpha+1, -1, 0, 0]`, `[1, -1, 0, 0]`, `[-(alpha+2), 2, alpha, 0]`,
`[-2(alpha+1), alpha+2, 0, alpha]`, each entry divided by alpha, applied to
`[wl1*L1, wl2*L2, P1, P2]`. -/
def specXRTransform (L1 L2 P1 P2 : ℚ) : Vec4 :=
  ⟨(alpha + 1) / alpha * (wl1 * L1) + -1 / alpha * (wl2 * L2) + 0 / alpha * P1 + 0 / alpha * P2,
    1 / alpha * (wl1 * L1) + -1 / alpha * (wl2 * L2) + 0 / alpha * P1 + 0 / alpha * P2,
    -(alpha + 2) / alpha * (wl1 * L1) + 2 / alpha * (wl2 * L2) + alpha / alpha * P1
      + 0 / alpha * P2,
    -2 * (alpha + 1) / alpha * (wl1 * L1) + (alpha + 2) / alpha * (wl2 * L2) + 0 / alpha * P1
      + alpha / alpha * P2⟩

/-! ## The ephemeris data of a satellite in `ComputeNewOTs` -/

/-- The fields of the ephemeris range object `CER` (class `CorrectedEphemerisRange`,
not among the sources) that `ComputeNewOTs` reads. -/
structure CERData where
  elevation : ℚ
  azimuth : ℚ
  relativity : ℚ
  svclkbias : ℚ
  svPosVel : Position

/-- What the collaborators of `ComputeNewOTs` return during one call, in which the time
tag and the reference position are fixed. `none` stands for the exception
`NoEphemerisFound`.
* `SP3size`, `BCsize`: the sizes of the two ephemeris stores;
* `rangeSP3`, `rangeBC`: `CER.ComputeAtReceiveTime` with the one or the other store,
  the range it returns and the fields of `CER` after it;
* `getTgd`: `BCEphList.findEphemeris(sat, CurrentTime).getTgd()`;
* `xvtSP3`, `xvtBC`: the position of `getSatXvt` with the one or the other store;
* `pierce`: latitude and longitude of the ionospheric pierce point for an elevation
  and an azimuth;
* `obliq`: the obliquity `sqrt(1 - (a cos(elevation) / (a + IonoHt))^2)` for an
  elevation (cosine and square root are not rational operations);
* `trop`: the correction `ggtm.correction(elevation)` of the troposphere model. -/
structure EphEnv where
  SP3size : Nat
  BCsize : Nat
  rangeSP3 : RinexSatID → Option (ℚ × CERData)
  rangeBC : RinexSatID → Option (ℚ × CERData)
  getTgd : RinexSatID → Option ℚ
  xvtSP3 : RinexSatID → Option Position
  xvtBC : RinexSatID → Option Position
  pierce : ℚ → ℚ → ℚ × ℚ
  obliq : ℚ → ℚ
  trop : ℚ → ℚ

/-- The program variables that `ComputeNewOTs` reads and that stay fixed during a call:
the flag index `inEP` of the ephemeris input, the flags of the RAIM solution, the
elevation mask, and the flags `DoSVX` and `DoXR` set by `PrepareInput`. -/
structure EphFlags where
  inEP : Int
  doRAIM : Bool
  HaveRAIM : Bool
  minElev : ℚ
  DoSVX : Bool
  DoXR : Bool

/-- What the ephemeris block of `ComputeNewOTs` leaves for a satellite: the local
variables, the program variable `inPS`, and whether the satellite was put on the list
`SVDelete` by the elevation test. -/
structure PrepResult where
  vars : SatVars
  inPS : Int
  lowElev : Bool

/-- The `try` block of the ephemeris block: `CER.ComputeAtReceiveTime` with the SP3
store when it is not empty, else with the broadcast store when it is not empty, else
the exception `NoEphemerisFound`. -/
def ephLookup (env : EphEnv) (sat : RinexSatID) : Option (ℚ × CERData) :=
  if env.SP3size > 0 then env.rangeSP3 sat
  else if env.BCsize > 0 then env.rangeBC sat else none

/-- The part of the ephemeris block after the `try` block, entered with `HaveEphRange`
set: `r` is what the `try` block gave, `base` holds the local variables before it. An
exception of `ComputeAtReceiveTime` is caught; it leaves `rho` and `CER` as they were.
An exception of `findEphemeris` is not caught and ends the function (`none`). -/
def ephGeometry (f : EphFlags) (env : EphEnv) (sat : RinexSatID) (inPS1 : Int)
    (base : SatVars) (r : Option (ℚ × CERData)) : Option PrepResult :=
  match r with
  | none => some ⟨{ base with HaveEphThisSat := false, HaveEphRange := false }, inPS1, false⟩
  | some (rho, c) =>
    if f.minElev > 0 ∧ c.elevation < f.minElev then
      some ⟨{ base with rho := rho, elevation := c.elevation, azimuth := c.azimuth,
                        relativity := c.relativity, svclkbias := c.svclkbias,
                        svPosVel := c.svPosVel, HaveEphRange := false,
                        HaveEphThisSat := false }, inPS1, true⟩
    else if env.BCsize > 0 then
      match env.getTgd sat with
      | none => none
      | some g =>
        some ⟨{ base with rho := rho, elevation := c.elevation, azimuth := c.azimuth,
                          relativity := c.relativity, svclkbias := c.svclkbias,
                          svPosVel := c.svPosVel,
                          IPPLat := (env.pierce c.elevation c.azimuth).1,
                          IPPLon := (env.pierce c.elevation c.azimuth).2,
                          Obliq := env.obliq c.elevation, Trop := env.trop c.elevation,
                          Tgd := C_GPS_M * g }, inPS1, false⟩
    else
      some ⟨{ base with rho := rho, elevation := c.elevation, azimuth := c.azimuth,
                        relativity := c.relativity, svclkbias := c.svclkbias,
                        svPosVel := c.svPosVel,
                        IPPLat := (env.pierce c.elevation c.azimuth).1,
                        IPPLon := (env.pierce c.elevation c.azimuth).2,
                        Obliq := env.obliq c.elevation, Trop := env.trop c.elevation },
        inPS1, false⟩

/-- The block of `ComputeNewOTs` that computes the ephemeris range and the ionospheric
pierce point of a satellite. `prev` holds the values that the local variables have when
the block is entered (those of the previous satellite of the record; the locals are not
initialized before the first). The block sets `inPS` to -1 when RAIM is asked for and
has no solution, sets `HaveEphThisSat` when there is ephemeris input, sets
`HaveEphRange`, clears `rho`, `IPPLat`, `IPPLon`, `Obliq` and `Tgd`, and with
`HaveEphRange` computes the range. -/
def ephPrep (f : EphFlags) (env : EphEnv) (inPS : Int) (sat : RinexSatID) (prev : SatVars) :
    Option PrepResult :=
  let inPS1 : Int := if f.doRAIM = true ∧ f.HaveRAIM = false then -1 else inPS
  let hes : Bool := if f.inEP > -1 then true else prev.HaveEphThisSat
  let her : Bool := hes && decide (inPS1 > -1)
  let base : SatVars :=
    { prev with HaveEphThisSat := hes, HaveEphRange := her, rho := 0, IPPLat := 0,
                IPPLon := 0, Obliq := 0, Tgd := 0 }
  if her = true then ephGeometry f env sat inPS1 base (ephLookup env sat)
  else some ⟨base, inPS1, false⟩

/-- The block of `ComputeNewOTs` that gets the satellite position when the ephemeris
block did not (`DoSVX && HaveEphThisSat && inPS == -1`). -/
def svxStep (f : EphFlags) (env : EphEnv) (inPS : Int) (sat : RinexSatID) (v : SatVars) :
    SatVars :=
  if f.DoSVX = true ∧ v.HaveEphThisSat = true ∧ inPS = -1 then
    match (if env.SP3size ≠ 0 then env.xvtSP3 sat else env.xvtBC sat) with
    | some p => { v with svPosVel := p }
    | none => { v with HaveEphThisSat := false }
  else v

/-- What `ComputeNewOTs` leaves after the blocks of one satellite that is not excluded
at the start of the loop body: the data of the satellite in the record, the local and
program variables, and whether the elevation test put the satellite on `SVDelete`. -/
structure SatResult where
  otmap : RinexObsTypeMap
  vars : SatVars
  inPS : Int
  XRsol : Vec4
  reset : Bool
  AllBiases : BiasState
  lowElev : Bool

/-- The blocks of the loop body of `ComputeNewOTs` for one satellite that is not
excluded at the start: lookup of the cached data, ephemeris block, `XRsol`, satellite
position, and the loop over the requested types. `sat` is the satellite of the record
with the system set to GPS, `ps` pairs the parallel lists `OTlist` and `OTList`. -/
def computeSat (cfg : Config) (f : EphFlags) (env : EphEnv)
    (ps : List (String × RinexObsType)) (DataStoreMap : List (RinexSatID × RCData))
    (inPS : Int) (prev : SatVars) (XRsol : Vec4) (st : OTState) (sat : RinexSatID) :
    Option SatResult :=
  let kt := mapFind DataStoreMap sat
  match ephPrep f env inPS sat prev with
  | none => none
  | some pr =>
    let X := computeXRsol f.DoXR kt XRsol
    let v := svxStep f env pr.inPS sat pr.vars
    match otLoop cfg sat kt v X ps st with
    | none => none
    | some st1 => some ⟨st1.otmap, v, pr.inPS, X, st1.reset, st1.AllBiases, pr.lowElev⟩

/-! ## The inputs of the derived types in the specification -/

/-- The ephemeris input that a derived type needs according to the table of the
specification: none, the ephemeris, or the ephemeris with the reference position. -/
inductive GeomNeed where
  | noGeometry
  | ephemeris
  | ephemerisPosition
deriving DecidableEq

/-- The inputs that a derived type needs according to the table of the specification. -/
structure Needs where
  L1 : Bool
  L2 : Bool
  P1 : Bool
  P2 : Bool
  geom : GeomNeed
deriving DecidableEq

/-- The column `needs` of the table of derived types in the specification. -/
def specNeedsTable : List (String × Needs) :=
  [("ER", ⟨false, false, false, false, .ephemerisPosition⟩),
   ("RI", ⟨false, false, true, true, .noGeometry⟩),
   ("PI", ⟨true, true, false, false, .noGeometry⟩),
   ("TR", ⟨false, false, false, false, .ephemerisPosition⟩),
   ("RL", ⟨false, false, false, false, .ephemeris⟩),
   ("SC", ⟨false, false, false, false, .ephemeris⟩),
   ("EL", ⟨false, false, false, false, .ephemerisPosition⟩),
   ("AZ", ⟨false, false, false, false, .ephemerisPosition⟩),
   ("SR", ⟨false, false, true, true, .ephemeris⟩),
   ("SP", ⟨true, true, false, false, .noGeometry⟩),
   ("VR", ⟨false, false, true, true, .ephemeris⟩),
   ("VP", ⟨true, true, false, false, .ephemeris⟩),
   ("LA", ⟨false, false, false, false, .ephemerisPosition⟩),
   ("LO", ⟨false, false, false, false, .ephemerisPosition⟩),
   ("P3", ⟨false, false, true, true, .noGeometry⟩),
   ("L3", ⟨true, true, false, false, .noGeometry⟩),
   ("P4", ⟨false, false, true, true, .noGeometry⟩),
   ("L4", ⟨true, true, false, false, .noGeometry⟩),
   ("P5", ⟨false, false, true, true, .noGeometry⟩),
   ("L5", ⟨true, true, false, false, .noGeometry⟩),
   ("M1", ⟨true, false, true, false, .noGeometry⟩),
   ("M2", ⟨false, true, false, true, .noGeometry⟩),
   ("MP", ⟨true, true, true, true, .noGeometry⟩),
   ("M3", ⟨true, true, true, true, .noGeometry⟩),
   ("M4", ⟨true, true, true, true, .noGeometry⟩),
   ("M5", ⟨true, true, true, true, .noGeometry⟩),
   ("XR", ⟨true, true, true, true, .noGeometry⟩),
   ("XI", ⟨true, true, true, true, .noGeometry⟩),
   ("X1", ⟨true, true, true, true, .noGeometry⟩),
   ("X2", ⟨true, true, true, true, .noGeometry⟩),
   ("SX", ⟨false, false, false, false, .ephemeris⟩),
   ("SY", ⟨false, false, false, false, .ephemeris⟩),
   ("SZ", ⟨false, false, false, false, .ephemeris⟩)]

/-- The table of the specification with the one change that the program makes: SR
does not need the ephemeris. -/
def programNeedsTable : List (String × Needs) :=
  specNeedsTable.map fun e =>
    if e.1 = "SR" then (e.1, { e.2 with geom := .noGeometry }) else e

/-- An input that the type needs is unavailable for the satellite: a needed raw
observable is 0.0 in the cached data `d`, the ephemeris is needed and the flag
`HaveEphThisSat` is not set, or ephemeris and position are needed and the flag
`HaveEphRange` is not set. -/
def unavailable (n : Needs) (d : RCData) (v : SatVars) : Prop :=
  (n.L1 = true ∧ d.L1 = 0) ∨ (n.L2 = true ∧ d.L2 = 0) ∨ (n.P1 = true ∧ d.P1 = 0) ∨
  (n.P2 = true ∧ d.P2 = 0) ∨ (n.geom = .ephemeris ∧ v.HaveEphThisSat = false) ∨
  (n.geom = .ephemerisPosition ∧ v.HaveEphRange = false)

/-! ## The reference position options of the command line -/

/-- What the command line parser found for the options of the reference position,
each of which may appear once: `dashRx1` is `--RxLLH <l,l,h>`, `dashRx2` is
`--RxXYZ <x,y,z>`, `dashRx3` is `--Rxhere`, `dashRx4` is `--RxRinex <fn>`, `dashRx5` is
`--RxFlat <fn>`, `dashRx6` is `--RAIM`. An option with an argument holds its value. -/
structure CmdOptions where
  dashRx1 : Option String
  dashRx2 : Option String
  dashRx3 : Bool
  dashRx4 : Option String
  dashRx5 : Option String
  dashRx6 : Bool

/-- The program variables that the options of the reference position set. -/
structure PosFlags where
  KnownPosInput : Bool
  KnownLLH : Bool
  KnownPos : String
  RefPosInput : Bool
  RefPosFile : String
  RefPosFlat : Bool
  doRAIM : Bool

/-- The variables at the start of `GetCommandLine`: the defaults that it sets
(`doRAIM`, `KnownPosInput`, `RefPosInput`), and the initial values of the other
globals. -/
def defaultPosFlags : PosFlags := ⟨false, false, "", false, "", false, false⟩

/-- The section `reference position` of `GetCommandLine`, which reads the six options
in turn. -/
def readPosOptions (o : CmdOptions) (f : PosFlags) : PosFlags :=
  let f1 := match o.dashRx1 with
    | some val => { f with KnownPos := val, KnownLLH := true, KnownPosInput := true }
    | none => f
  let f2 := match o.dashRx2 with
    | some val => { f1 with KnownPos := val, KnownLLH := false, KnownPosInput := true }
    | none => f1
  let f3 := if o.dashRx3 = true then { f2 with RefPosInput := true } else f2
  let f4 := match o.dashRx4 with
    | some val => { f3 with RefPosFile := val, RefPosFlat := false }
    | none => f3
  let f5 := match o.dashRx5 with
    | some val => { f4 with RefPosFile := val, RefPosFlat := true }
    | none => f4
  if o.dashRx6 = true then { f5 with doRAIM := true } else f5

/-- The counter `i` of the section `check for multiple inputs`. -/
def countInputs (f : PosFlags) : Nat :=
  let i := 0
  let i := if f.KnownPosInput = true then i + 1 else i
  let i := if f.RefPosFile ≠ "" then i + 1 else i
  let i := if f.doRAIM = true then i + 1 else i
  if f.RefPosInput = true then i + 1 else i

/-- The section `check for multiple inputs` of `GetCommandLine`: whether it returns
(with -1). -/
def checkInputs (f : PosFlags) : Bool :=
  if f.KnownPosInput = true ∨ f.RefPosFile ≠ "" ∨ f.doRAIM = true ∨ f.RefPosInput = true then
    decide (countInputs f > 1)
  else false

/-- The value that `GetCommandLine` returns, as far as the help flag, the options of
the reference position, the log file and the check for multiple inputs decide it:
`iret` is what `REC.ParseCommands()` returned, `dashh` and `dashRxhelp` say whether
`--help` and `--Rxhelp` were found, `hasErrors` is `Par.hasErrors()`, and `logOpens`
says whether the log file could be opened. The other options set variables and do not
return. -/
def GetCommandLine (iret : Int) (dashh dashRxhelp hasErrors : Bool) (o : CmdOptions)
    (logOpens : Bool) : Int :=
  let help := dashh || dashRxhelp
  let help := if (!help && (decide (iret < 0) || hasErrors)) = true then true else help
  if help = true ∧ iret < 0 then iret
  else
    let f := readPosOptions o defaultPosFlags
    if logOpens = false then -1
    else if checkInputs f = true then -1
    else if help = true then 1
    else 0

/-- The file name that the options `--RxRinex` and `--RxFlat` give: the one of
`--RxFlat` when it is present, else the one of `--RxRinex`, else none (empty). -/
def specFileName (o : CmdOptions) : String :=
  match o.dashRx5, o.dashRx4 with
  | some n, _ => n
  | none, some n => n
  | none, none => ""

/-- The number of the four sources of the reference position that the options select,
in the words of the specification: explicit static position (`--RxLLH` or `--RxXYZ`),
positions file (`--RxRinex` or `--RxFlat` with a file name that is not empty), in-line
header (`--Rxhere`), RAIM (`--RAIM`). -/
def specSelectedSources (o : CmdOptions) : Nat :=
  (if o.dashRx1.isSome = true ∨ o.dashRx2.isSome = true then 1 else 0) +
  (if specFileName o ≠ "" then 1 else 0) +
  (if o.dashRx3 = true then 1 else 0) +
  (if o.dashRx6 = true then 1 else 0)

/-! ## The reference position of a record -/

/-- What the call `prsol.RAIMCompute(CurrentTime, Sats, PRange, ...)` leaves: the value
it returns, the list `Sats` after it (the call marks satellites in it), and the fields
of `prsol` that `UpdateRxPosition` reads (the solution, the number of satellites, the
diagonal of the covariance, the RMS residual). -/
structure RAIMOutcome where
  iret : Int
  Sats : List RinexSatID
  Solution : Vec4
  Nsvs : Int
  Cov00 : ℚ
  Cov11 : ℚ
  Cov22 : ℚ
  Cov33 : ℚ
  RMSResidual : ℚ

/-- What the collaborators of `UpdateRxPosition` return during one call, in which the
time tag is fixed.
* `SP3size`, `BCsize`: the sizes of the two ephemeris stores;
* `rangeSP3`, `rangeBC`: whether `CER.ComputeAtReceiveTime` with the one or the other
  store returns (`false` stands for the exception `NoEphemerisFound`);
* `RAIMComputeSP3`, `RAIMComputeBC`: `prsol.RAIMCompute` with the one or the other
  store, for the lists `Sats` and `PRange`;
* `RSS3`, `RSS2`: the root of the sum of squares of three and of two numbers (the
  square root is not a rational operation). -/
structure RaimEnv where
  SP3size : Nat
  BCsize : Nat
  rangeSP3 : RinexSatID → Bool
  rangeBC : RinexSatID → Bool
  RAIMComputeSP3 : List RinexSatID → List ℚ → RAIMOutcome
  RAIMComputeBC : List RinexSatID → List ℚ → RAIMOutcome
  RSS3 : ℚ → ℚ → ℚ → ℚ
  RSS2 : ℚ → ℚ → ℚ

/-- The program variables that `UpdateRxPosition` reads and that are fixed when the
observations are processed. -/
structure RxFlags where
  doRAIM : Bool
  RefPosFile : String
  minElev : ℚ
  headRAIM : Bool
  Verbose : Bool

/-- The program variables that `UpdateRxPosition` changes: the current reference
position, the flag `inPS` of the position input, the flag `HaveRAIM`, the lists `Sats`
and `PRange`, and the positions added to the averages `ARSX`, `ARSY`, `ARSZ`. -/
structure RxState where
  CurrRef : RefPosData
  inPS : Int
  HaveRAIM : Bool
  Sats : List RinexSatID
  PRange : List ℚ
  ARS : List Position

/-- The body of the loop of `UpdateRxPosition` over the cache, which appends to `Sats`
and `PRange`: a satellite without P1 or P2 is skipped; with an elevation limit and a
valid current position the range is computed, and the satellite is skipped when both
stores are empty or no ephemeris is found. -/
def raimPush (minElev : ℚ) (valid : Bool) (env : RaimEnv)
    (acc : List RinexSatID × List ℚ) (kt : RinexSatID × RCData) : List RinexSatID × List ℚ :=
  if kt.2.P1 = 0 ∨ kt.2.P2 = 0 then acc
  else if minElev > 0 ∧ valid = true then
    if env.SP3size > 0 then
      if env.rangeSP3 kt.1 = true then
        (acc.1 ++ [kt.1], acc.2 ++ [if1r * kt.2.P1 + if2r * kt.2.P2])
      else acc
    else if env.BCsize > 0 then
      if env.rangeBC kt.1 = true then
        (acc.1 ++ [kt.1], acc.2 ++ [if1r * kt.2.P1 + if2r * kt.2.P2])
      else acc
    else acc
  else (acc.1 ++ [kt.1], acc.2 ++ [if1r * kt.2.P1 + if2r * kt.2.P2])

/-- The call `RefPosMap.lower_bound(CurrentTime)` on the table of positions, a map
ordered by time that is given here by its entries in ascending order: the first entry
whose time is not less than `t`, or none (`end()`). -/
def lower_bound (RefPosMap : List (ℚ × RefPosData)) (t : ℚ) : Option (ℚ × RefPosData) :=
  RefPosMap.find? fun e => decide (¬ e.1 < t)

/-- The statement `if(Sats[i].id < 0) Sats[i].id *= -1;` of the loop that logs the
satellites without ephemeris: the mark that `RAIMCompute` left on a satellite is taken
off. -/
def unmarkSat (sat : RinexSatID) : RinexSatID :=
  if sat.id < 0 then { sat with id := sat.id * -1 } else sat

/-- The calls of `prsol.RAIMCompute` in `UpdateRxPosition`: with the SP3 store when it
is not empty, else with the broadcast store when it is not empty; else `iret = -4` and
the lists stay as they are. -/
def raimSolve (env : RaimEnv) (Sats : List RinexSatID) (PRange : List ℚ) : RAIMOutcome :=
  if env.SP3size > 0 then env.RAIMComputeSP3 Sats PRange
  else if env.BCsize > 0 then env.RAIMComputeBC Sats PRange
  else ⟨-4, Sats, ⟨0, 0, 0, 0⟩, 0, 0, 0, 0, 0, 0⟩

/-- The function `UpdateRxPosition`: the value it returns and the program variables
after it. Of the blocks under `if(Verbose)` only the one of the failed RAIM solution
changes a program variable: with `iret == -4` it takes the marks off `Sats`. -/
def UpdateRxPosition (f : RxFlags) (env : RaimEnv) (DataStoreMap : List (RinexSatID × RCData))
    (RefPosMap : List (ℚ × RefPosData)) (RefPosMapDT CurrentTime : ℚ) (s : RxState) :
    Int × RxState :=
  let s0 := { s with HaveRAIM := false }
  if f.doRAIM = true then
    let lists := DataStoreMap.foldl (raimPush f.minElev s.CurrRef.valid env) ([], [])
    let out : RAIMOutcome := raimSolve env lists.1 lists.2
    if out.iret = 0 ∨ out.iret = 1 then
      let PDOP := env.RSS3 out.Cov00 out.Cov11 out.Cov22
      let ref : RefPosData :=
        ⟨⟨out.Solution.x0, out.Solution.x1, out.Solution.x2⟩, true, out.Nsvs,
          out.Solution.x3, PDOP, env.RSS2 PDOP out.Cov33, out.RMSResidual⟩
      (0, { s0 with Sats := out.Sats, PRange := lists.2, HaveRAIM := true, CurrRef := ref,
                    ARS := if f.headRAIM = true then s.ARS ++ [ref.RxPos] else s.ARS,
                    inPS := 1 })
    else
      (0, { s0 with
        Sats := if f.Verbose = true ∧ out.iret = -4 then out.Sats.map unmarkSat else out.Sats
        PRange := lists.2
        inPS := -1 })
  else if f.RefPosFile ≠ "" then
    match lower_bound RefPosMap CurrentTime with
    | none => (0, { s0 with CurrRef := { s.CurrRef with valid := false }, inPS := -1 })
    | some ite =>
      if |ite.1 - CurrentTime| > (1 / 10) * RefPosMapDT then
        (0, { s0 with CurrRef := { s.CurrRef with valid := false }, inPS := -1 })
      else
        (0, { s0 with
          CurrRef := { s.CurrRef with RxPos := ite.2.RxPos, clk := ite.2.clk,
                                      NPRN := ite.2.NPRN, PDOP := ite.2.PDOP,
                                      GDOP := ite.2.GDOP, RMS := ite.2.RMS, valid := true },
          inPS := 1 })
  else (0, s0)

/-! ## The nominal time spacing of the table of positions -/

/-- The constant `ndtmax` of `PrepareInput`: the number of bins of the histogram. -/
def ndtmax : Nat := 15

/-- The arrays `ndt` and `bestdt` of `PrepareInput` at their start, one pair
`(ndt[i], bestdt[i])` for each index: every count is -1; `bestdt` is not initialized
(0 here), and no entry of it is read before it is written, except by the last
statement when no count is positive. -/
def initHist : List (Int × ℚ) := List.replicate ndtmax (-1, 0)

/-- The search of the loop `for(j=1; j<ndtmax; j++) if(ndt[j] <= nleast) ...` for the
index `k` of a least count (the last one among equal counts). -/
def leastIndex (h : List (Int × ℚ)) : Nat :=
  ((List.range' 1 (ndtmax - 1)).foldl
    (fun (kn : Nat × Int) j => if (h.getD j (0, 0)).1 ≤ kn.2 then (j, (h.getD j (0, 0)).1) else kn)
    (0, (h.getD 0 (0, 0)).1)).1

/-- The loop `for(i=0; i<ndtmax; i++)` over the bins for one time step `dt`, as far as
it ends with `break`: the first bin that is free (`ndt[i] <= 0`) takes `dt` with the
count 1; the first bin whose value is within 0.0001 of `dt` is counted up. The result
is `none` when the loop passes the last bin without `break`. -/
def dtScan (dt : ℚ) : List (Int × ℚ) → Option (List (Int × ℚ))
  | [] => none
  | b :: bs =>
    if b.1 ≤ 0 then some ((1, dt) :: bs)
    else if |dt - b.2| < 1 / 10000 then some ((b.1 + 1, b.2) :: bs)
    else (dtScan dt bs).map fun r => b :: r

/-- The loop over the bins for one time step `dt`: when no bin takes `dt`, the pass of
the last bin (`i == ndtmax-1`) replaces a bin of the least count by `dt` with the
count 1. -/
def dtAdd (dt : ℚ) (h : List (Int × ℚ)) : List (Int × ℚ) :=
  match dtScan dt h with
  | some r => r
  | none => h.set (leastIndex h) (1, dt)

/-- The body of the loop of `PrepareInput` over the table: `st.1` is `prev`, `st.2`
holds the bins. The first entry, met with `prev` equal to `BEGINNING_OF_TIME`, gives no
time step. -/
def dtStep (BEGINNING_OF_TIME : ℚ) (st : ℚ × List (Int × ℚ)) (it : ℚ × RefPosData) :
    ℚ × List (Int × ℚ) :=
  (it.1, if st.1 ≠ BEGINNING_OF_TIME then dtAdd (it.1 - st.1) st.2 else st.2)

/-- The loop `for(i=1,j=0; i<ndtmax; i++) if(ndt[i] > ndt[j]) j=i;`: the index of a
greatest count (the first one among equal counts). -/
def bestIndex (h : List (Int × ℚ)) : Nat :=
  (List.range' 1 (ndtmax - 1)).foldl
    (fun j i => if (h.getD i (0, 0)).1 > (h.getD j (0, 0)).1 then i else j) 0

/-- The block `compute the nominal time spacing of the map` of `PrepareInput`: the
value of `RefPosMapDT` after it, for the table given by its entries in ascending order
of time. `BEGINNING_OF_TIME` is the constant of that name of the class `DayTime` (not
among the sources). The value is undefined (`none`) when the bin read by the last
statement was never written. -/
def computeRefPosMapDT (BEGINNING_OF_TIME : ℚ) (RefPosMap : List (ℚ × RefPosData)) :
    Option ℚ :=
  let h := (RefPosMap.foldl (dtStep BEGINNING_OF_TIME) (BEGINNING_OF_TIME, initHist)).2
  let j := bestIndex h
  if (h.getD j (0, 0)).1 ≤ 0 then none else some (h.getD j (0, 0)).2

/-- The consecutive time steps of a table of positions: the differences of the times
of neighbouring entries, in the order of the table. -/
def specDeltas : List (ℚ × RefPosData) → List ℚ
  | [] => []
  | [_] => []
  | a :: b :: rest => (b.1 - a.1) :: specDeltas (b :: rest)

/-- The bins hold the counts of the time steps `p` met so far: the first bins hold
the distinct values of `p` with the number of their occurrences, the other bins are
free. -/
def HistInv (h : List (Int × ℚ)) (p : List ℚ) : Prop :=
  ∃ vals : List ℚ, vals.Nodup ∧ (∀ v, v ∈ vals ↔ v ∈ p) ∧ vals.length ≤ ndtmax ∧
    h = vals.map (fun v => ((p.count v : Int), v)) ++
      List.replicate (ndtmax - vals.length) (-1, 0)

/-- Whether the loop of `UpdateRxPosition` over the cache appends a satellite to `Sats`
and `PRange`: P1 and P2 are both nonzero and, with an elevation limit and a valid
current position, the range computation finds an ephemeris in the store that is not
empty. The elevation of the satellite is not compared with the limit. -/
def raimKeeps (minElev : ℚ) (valid : Bool) (env : RaimEnv) (kt : RinexSatID × RCData) :
    Bool :=
  decide (kt.2.P1 ≠ 0 ∧ kt.2.P2 ≠ 0) &&
    (!(decide (minElev > 0) && valid) ||
      (if env.SP3size > 0 then env.rangeSP3 kt.1
       else if env.BCsize > 0 then env.rangeBC kt.1 else false))

/-- The value `iret` that `UpdateRxPosition` gets from `RAIMCompute` for the lists of
the loop over the cache, or -4 when both ephemeris stores are empty. -/
def raimIret (f : RxFlags) (env : RaimEnv) (DataStoreMap : List (RinexSatID × RCData))
    (s : RxState) : Int :=
  let lists := DataStoreMap.foldl (raimPush f.minElev s.CurrRef.valid env) ([], [])
  (raimSolve env lists.1 lists.2).iret

/-! ## The loop of `ComputeNewOTs` over the satellites -/

/-- The program variables that the exclusion test of `ComputeNewOTs` reads besides
`HaveRAIM`: the satellite of `--SVonly`, the flag `editRAIM`, and the list `Sats` as
`UpdateRxPosition` left it. -/
structure EditFlags where
  SVonly : RinexSatID
  editRAIM : Bool
  Sats : List RinexSatID

/-- The test `(SVonly.id > 0 && sat != SVonly) || (editRAIM && HaveRAIM &&
find(Sats.begin(),Sats.end(),RinexSatID(-sat.id,sat.system)) != Sats.end())`. -/
def satExcluded (e : EditFlags) (HaveRAIM : Bool) (sat : RinexSatID) : Bool :=
  decide (e.SVonly.id > 0 ∧ sat ≠ e.SVonly) ||
    (e.editRAIM && HaveRAIM && decide ((⟨-sat.id, sat.system⟩ : RinexSatID) ∈ e.Sats))

/-- The test at the end of the loop body: no field of the satellite has data other
than 0.0. -/
def allZero (otmap : RinexObsTypeMap) : Bool :=
  otmap.all fun jt => decide (jt.2.data = 0)

/-- The variables that the loop of `ComputeNewOTs` over the satellites changes: the
satellites of the record passed so far with their data after the pass, the local
variables of the ephemeris block, `inPS`, `XRsol`, `reset`, `AllBiases`, and the list
`SVDelete`. -/
structure CNOState where
  obs : RinexSatMap
  vars : SatVars
  inPS : Int
  XRsol : Vec4
  reset : Bool
  AllBiases : BiasState
  SVDelete : List RinexSatID

/-- The body of the loop of `ComputeNewOTs` over the satellites for the entry `it` of
the record: an excluded satellite is put on `SVDelete` and passed over; for any other
satellite the blocks of `computeSat` run (the elevation test in them puts the satellite
on `SVDelete` and goes on), and a satellite whose fields are all 0.0 after them is put
on `SVDelete`. -/
def satBody (cfg : Config) (f : EphFlags) (env : EphEnv) (e : EditFlags)
    (ps : List (String × RinexObsType)) (DataStoreMap : List (RinexSatID × RCData))
    (s : CNOState) (it : RinexSatID × RinexObsTypeMap) : Option CNOState :=
  let sat : RinexSatID := ⟨it.1.id, .systemGPS⟩
  if satExcluded e f.HaveRAIM sat = true then
    some { s with obs := s.obs ++ [it], SVDelete := s.SVDelete ++ [sat] }
  else
    match computeSat cfg f env ps DataStoreMap s.inPS s.vars s.XRsol
        ⟨it.2, s.reset, s.AllBiases⟩ sat with
    | none => none
    | some r =>
      let del1 := if r.lowElev = true then s.SVDelete ++ [sat] else s.SVDelete
      let del2 := if allZero r.otmap = true then del1 ++ [sat] else del1
      some ⟨s.obs ++ [(it.1, r.otmap)], r.vars, r.inPS, r.XRsol, r.reset, r.AllBiases, del2⟩

/-- The loop of `ComputeNewOTs` over the satellites of the record. -/
def satLoop (cfg : Config) (f : EphFlags) (env : EphEnv) (e : EditFlags)
    (ps : List (String × RinexObsType)) (DataStoreMap : List (RinexSatID × RCData)) :
    List (RinexSatID × RinexObsTypeMap) → CNOState → Option CNOState
  | [], s => some s
  | it :: rest, s =>
    match satBody cfg f env e ps DataStoreMap s it with
    | none => none
    | some s1 => satLoop cfg f env e ps DataStoreMap rest s1

/-- One pass of the loop `delete satellites` of `ComputeNewOTs`: the entry of the record
with the key `RinexSatID(SVDelete[i].id, SatID::systemGPS)` is erased, if there is one
(a map has one entry for a key), and `numSvs` is counted down. -/
def eraseOne (rod : RinexObsData) (sv : RinexSatID) : RinexObsData :=
  { rod with obs := rod.obs.filter fun it => decide (it.1 ≠ ⟨sv.id, .systemGPS⟩)
             numSvs := rod.numSvs - 1 }

/-- The loop `delete satellites` of `ComputeNewOTs` over the elements of `SVDelete`. -/
def eraseSats (rod : RinexObsData) (SVDelete : List RinexSatID) : RinexObsData :=
  SVDelete.foldl eraseOne rod

/-- The function `ComputeNewOTs`: the record after it, and the variables after the
loop over the satellites (`obs` holds the data of all satellites of the record after
the loop, before the satellites of `SVDelete` are erased). `init` holds the variables
when the function is entered: its fields `obs` and `SVDelete` are empty, the local
variables are not initialized. -/
def ComputeNewOTs (cfg : Config) (f : EphFlags) (env : EphEnv) (e : EditFlags)
    (ps : List (String × RinexObsType)) (DataStoreMap : List (RinexSatID × RCData))
    (init : CNOState) (rod : RinexObsData) : Option (RinexObsData × CNOState) :=
  match satLoop cfg f env e ps DataStoreMap rod.obs { init with obs := [], SVDelete := [] } with
  | none => none
  | some s => some (eraseSats { rod with obs := s.obs } s.SVDelete, s)

/-- The elements that the loop body puts on `SVDelete` for a satellite with the key
`k`, given whether the elevation test put it there (`low`) and the data `om` of the
satellite after the pass. -/
def pushesOf (e : EditFlags) (HaveRAIM : Bool) (x : (RinexSatID × RinexObsTypeMap) × Bool) :
    List RinexSatID :=
  if satExcluded e HaveRAIM ⟨x.1.1.id, .systemGPS⟩ = true then [⟨x.1.1.id, .systemGPS⟩]
  else (if x.2 = true then [⟨x.1.1.id, .systemGPS⟩] else []) ++
    (if allZero x.1.2 = true then [⟨x.1.1.id, .systemGPS⟩] else [])

/-- The statement `if(doRAIM && !HaveRAIM) inPS=-1;` of the loop body: the value of
`inPS` after it. -/
def inPSAfter (f : EphFlags) (inPS : Int) : Int :=
  if f.doRAIM = true ∧ f.HaveRAIM = false then -1 else inPS

/-- What the flag `x.2` of a satellite of the record says: the elevation test of the
ephemeris block put the satellite on `SVDelete`. It is set only for a satellite that is
not excluded and whose range computation gives an elevation below a positive limit;
with ephemeris input and a receiver position it is set for every such satellite.
`inPS0` is the value of `inPS` when `ComputeNewOTs` is entered. -/
def LowFacts (f : EphFlags) (env : EphEnv) (e : EditFlags) (inPS0 : Int)
    (x : (RinexSatID × RinexObsTypeMap) × Bool) : Prop :=
  (x.2 = true →
    satExcluded e f.HaveRAIM ⟨x.1.1.id, .systemGPS⟩ = false ∧ f.minElev > 0 ∧
    ∃ rho c, ephLookup env ⟨x.1.1.id, .systemGPS⟩ = some (rho, c) ∧
      c.elevation < f.minElev) ∧
  (satExcluded e f.HaveRAIM ⟨x.1.1.id, .systemGPS⟩ = false → f.inEP > -1 →
    inPSAfter f inPS0 > -1 → f.minElev > 0 →
    ∀ rho c, ephLookup env ⟨x.1.1.id, .systemGPS⟩ = some (rho, c) →
      c.elevation < f.minElev → x.2 = true)

/-- Every map stored in the bias state belongs to a type other than `UN`, holds a
positive limit under the invalid satellite, and apart from that entry holds entries
only for satellites with an id other than -1. -/
def BiasInv (s : BiasState) : Prop :=
  ∀ t bm, mapFind s t = some bm →
    t ≠ "UN" ∧ (∃ lim, mapFind bm RinexSatID.invalid = some lim ∧ 0 < lim) ∧
      ∀ sv b, mapFind bm sv = some b → sv = RinexSatID.invalid ∨ sv.id ≠ -1

/-- The same raw value submitted `n` more times to `removeBias` for one type and
satellite: the bias state after these calls. -/
def submitAgain (ot : RinexObsType) (sv : RinexSatID) (raw : ℚ) : Nat → BiasState → BiasState
  | 0, s => s
  | n + 1, s => submitAgain ot sv raw n (removeBias s ot sv raw).AllBiases

/-! ## Example inputs -/

/-- The derived type L3, which depends on the phases L1 and L2. -/
def obsL3 : RinexObsType := ⟨"L3", 6⟩

/-- The GPS satellite 5. -/
def sat5 : RinexSatID := ⟨5, .systemGPS⟩

/-- A satellite identifier with the invalid id -1 in another system than GPS. -/
def satNoId : RinexSatID := ⟨-1, .systemGlonass⟩

/-- The bias state after `setBiasLimit(L3, 1)`. -/
def biasState1 : BiasState := (setBiasLimit [] obsL3 1).2

/-- The bias state after `setBiasLimit(L3, 1)` and a first raw value 7 for satellite 5. -/
def biasState2 : BiasState := (removeBias biasState1 obsL3 sat5 7).AllBiases

/-- The bias state after `setBiasLimit(L3, 0.0005)`. -/
def biasStateTight : BiasState := (setBiasLimit [] obsL3 (1 / 2000)).2

/-- An input header with the types L1, L2, P1, P2 in this order; nothing of them is in
the output header. -/
def exConfig : Config :=
  { inC1 := -1, inP1 := 2, inP2 := 3, inL1 := 0, inL2 := 1,
    otC1 := -1, otP1 := -1, otP2 := -1, otL1 := -1, otL2 := -1,
    Cforce := false, RefPosInput := false,
    rhead := [⟨"L1", 2⟩, ⟨"L2", 4⟩, ⟨"P1", 8⟩, ⟨"P2", 16⟩], rheadout := [] }

/-- Cached raw data with P1 = 20000000.000 and P2 = 20000005.000. -/
def exData : RCData := ⟨105000000, 82000000, 20000000, 20000005, 0, 0⟩

/-- Satellite variables without ephemeris. -/
def exVars : SatVars := ⟨false, false, 0, 0, 0, 0, 0, 0, 0, 0, 0, 0, ⟨0, 0, 0⟩⟩

/-- The loop state at the start: a record with empty fields for P3 and P4. -/
def exState : OTState := ⟨[("P3", ⟨0, 0, 0⟩), ("P4", ⟨0, 0, 0⟩)], false, []⟩

/-- The requested types P3 and P4, which depend on P1 and P2. -/
def exTypes : List (String × RinexObsType) := [("P3", ⟨"P3", 24⟩), ("P4", ⟨"P4", 24⟩)]

/-- The loop state at the start: a record with empty fields for RI and XR. -/
def exStateRI : OTState := ⟨[("RI", ⟨0, 0, 0⟩), ("XR", ⟨0, 0, 0⟩)], false, []⟩

/-- The requested types RI (from P1, P2) and XR (from L1, L2, P1, P2). -/
def exTypesRI : List (String × RinexObsType) := [("RI", ⟨"RI", 24⟩), ("XR", ⟨"XR", 30⟩)]

/-- Program flags: ephemeris input, no RAIM, no elevation mask, SX and XR requested. -/
def exFlags : EphFlags := ⟨1, false, false, 0, true, true⟩

/-- Collaborators with a broadcast ephemeris store that has nothing for any satellite. -/
def exEnvNone : EphEnv :=
  ⟨0, 1, fun _ => none, fun _ => none, fun _ => none, fun _ => none, fun _ => none,
    fun _ _ => (0, 0), fun _ => 0, fun _ => 0⟩

/-- The ephemeris range data of the example: elevation 45, azimuth 90, and the
satellite position (15000000, 10000000, 20000000). -/
def exCER : CERData := ⟨45, 90, 1, 2, ⟨15000000, 10000000, 20000000⟩⟩

/-- Collaborators with a broadcast ephemeris store that has the range 21000000 and the
group delay 1e-8 s for every satellite; obliquity 1/2, troposphere correction 3. -/
def exEnvBC : EphEnv :=
  ⟨0, 1, fun _ => none, fun _ => some (21000000, exCER), fun _ => some (1 / 100000000),
    fun _ => none, fun _ => some exCER.svPosVel, fun _ _ => (30, 60), fun _ => 1 / 2,
    fun _ => 3⟩

/-- The local variables after the ephemeris block when no ephemeris is found. -/
def exVarsNone : SatVars := ⟨false, false, 0, 0, 0, 0, 0, 0, 0, 0, 0, 0, ⟨0, 0, 0⟩⟩

/-- The local variables after the ephemeris block with the collaborators `exEnvBC`. -/
def exVarsBC : SatVars :=
  ⟨true, true, 21000000, 30, 60, 1 / 2, 3, C_GPS_M * (1 / 100000000), 1, 2, 45, 90,
    ⟨15000000, 10000000, 20000000⟩⟩

/-- Cached raw data without the phase L1. -/
def exDataNoL1 : RCData := ⟨0, 82000000, 20000000, 20000005, 0, 0⟩

/-- The loop state at the start: a record with empty fields for SR, SX and VP. -/
def exStateSR : OTState :=
  ⟨[("SR", ⟨0, 0, 0⟩), ("SX", ⟨0, 0, 0⟩), ("VP", ⟨0, 0, 0⟩)], false, []⟩

/-- The requested types SR, SX and VP. -/
def exTypesSR : List (String × RinexObsType) :=
  [("SR", ⟨"SR", 24⟩), ("SX", ⟨"SX", 32⟩), ("VP", ⟨"VP", 102⟩)]

/-- Cached raw data with bit 0 of the loss-of-lock indicator of L1 set. -/
def exDataSlip : RCData := ⟨105000000, 82000000, 20000000, 20000005, 1, 0⟩

/-- The options `--RxRinex pos.obs --RAIM`. -/
def exOptionsTwo : CmdOptions := ⟨none, none, false, some "pos.obs", none, true⟩

/-- A table of positions with entries at the times 0, 30 and 60. -/
def exTable : List (ℚ × RefPosData) :=
  [(0, ⟨⟨1, 2, 3⟩, true, 6, 0, 2, 3, 1⟩), (30, ⟨⟨4, 5, 6⟩, true, 7, 1, 2, 3, 1⟩),
    (60, ⟨⟨7, 8, 9⟩, false, 8, 2, 2, 3, 1⟩)]

/-- Flags of the mode in which the reference position is looked up in the table. -/
def exRxFlags : RxFlags := ⟨false, "pos.obs", 0, false, false⟩

/-- Collaborators with empty ephemeris stores. -/
def exRaimEnv : RaimEnv :=
  ⟨0, 0, fun _ => false, fun _ => false,
    fun sats _ => ⟨-4, sats, ⟨0, 0, 0, 0⟩, 0, 0, 0, 0, 0, 0⟩,
    fun sats _ => ⟨-4, sats, ⟨0, 0, 0, 0⟩, 0, 0, 0, 0, 0, 0⟩, fun _ _ _ => 0, fun _ _ => 0⟩

/-- The program variables before the first record: no valid position yet. -/
def exRxState : RxState := ⟨⟨⟨0, 0, 0⟩, false, 0, 0, 0, 0, 0⟩, -1, false, [], [], []⟩

/-- Collaborators with a broadcast store that has an ephemeris for every satellite, and
a position solver that accepts every input (status 0). -/
def exRaimEnvBC : RaimEnv :=
  ⟨0, 1, fun _ => false, fun _ => true,
    fun sats _ => ⟨0, sats, ⟨0, 0, 0, 0⟩, 0, 0, 0, 0, 0, 0⟩,
    fun sats _ => ⟨0, sats, ⟨1, 2, 3, 4⟩, 2, 0, 0, 0, 0, 0⟩, fun _ _ _ => 0, fun _ _ => 0⟩

/-- Collaborators with a broadcast store in which the solver finds no ephemeris: it
gives the status -4 and marks every satellite by the sign of its id. -/
def exRaimEnvLost : RaimEnv :=
  ⟨0, 1, fun _ => false, fun _ => true,
    fun sats _ => ⟨-4, sats, ⟨0, 0, 0, 0⟩, 0, 0, 0, 0, 0, 0⟩,
    fun sats _ => ⟨-4, sats.map fun k => ⟨-k.id, k.system⟩, ⟨0, 0, 0, 0⟩, 0, 0, 0, 0, 0, 0⟩,
    fun _ _ _ => 0, fun _ _ => 0⟩

/-- Flags of the mode with RAIM and the elevation limit 10. -/
def exRxFlagsRAIM : RxFlags := ⟨true, "", 10, false, false⟩

/-- Program variables with a valid current position. -/
def exRxStateValid : RxState := ⟨⟨⟨1, 2, 3⟩, true, 0, 0, 0, 0, 0⟩, 1, false, [], [], []⟩

/-- The loop state at the start: a record with an empty field for RL. -/
def exStateRL : OTState := ⟨[("RL", ⟨0, 0, 0⟩)], false, []⟩

/-- The requested type RL. -/
def exTypesRL : List (String × RinexObsType) := [("RL", ⟨"RL", 32⟩)]

/-- Local variables in which the object `CER` holds the relativity correction 1 and the
clock bias 2 when the ephemeris block is entered (the program does not set the members
of `CER` before the first range computation). -/
def exVarsStale : SatVars := ⟨false, false, 0, 0, 0, 0, 0, 0, 1, 2, 0, 0, ⟨0, 0, 0⟩⟩

/-- The loop state at the start: a record with empty fields for XI and XR, the flag
`reset` not set, and the bias limit 1 for XI. -/
def exStateXR : OTState :=
  ⟨[("XI", ⟨0, 0, 0⟩), ("XR", ⟨0, 0, 0⟩)], false, (setBiasLimit [] ⟨"XI", 30⟩ 1).2⟩

/-- The record of satellite 5 with the four raw types of the header of `exConfig`. -/
def exObs5 : RinexSatID × RinexObsTypeMap :=
  (sat5, [("L1", ⟨105000000, 0, 0⟩), ("L2", ⟨82000000, 0, 0⟩), ("P1", ⟨20000000, 0, 0⟩),
    ("P2", ⟨20000005, 0, 0⟩)])

/-- The record of satellite 7, which has a field for L1 only. -/
def exObs7 : RinexSatID × RinexObsTypeMap := (⟨7, .systemGPS⟩, [("L1", ⟨99, 0, 0⟩)])

/-- No satellite of `--SVonly` (the identifier as constructed by default), data edited
on the RAIM solution, no satellite marked in `Sats`. -/
def exEdit : EditFlags := ⟨⟨-1, .systemGPS⟩, true, []⟩

/-- The option `--SVonly G07`. -/
def exEditOnly7 : EditFlags := ⟨⟨7, .systemGPS⟩, true, []⟩

/-- The variables when `ComputeNewOTs` is entered, with a receiver position. -/
def exInit : CNOState := ⟨[], exVars, 1, ⟨0, 0, 0, 0⟩, false, [], []⟩

/-- The record of the GLONASS satellite 5 with a field for L1. -/
def exObsR5 : RinexSatID × RinexObsTypeMap := (⟨5, .systemGlonass⟩, [("L1", ⟨1, 0, 0⟩)])

/-- A cache with raw data for the satellites 5 and 7. -/
def exCache : List (RinexSatID × RCData) := [(sat5, exData), (⟨7, .systemGPS⟩, exData)]

/-- An entry of the GLONASS satellite 9. -/
def exObsR9 : RinexSatID × RinexObsTypeMap := (⟨9, .systemGlonass⟩, [("L1", ⟨1, 0, 0⟩)])

/-- A cache with raw data for the satellites 5, 7 and 9 (`SaveData` stores the data of
every satellite under its id with the system GPS). -/
def exCache9 : List (RinexSatID × RCData) :=
  [(sat5, exData), (⟨7, .systemGPS⟩, exData), (⟨9, .systemGPS⟩, exData)]

/-- A record with the GPS satellites 5 and 7 and the GLONASS satellite 9. -/
def exRodMixed : RinexObsData := ⟨0, 0, 3, [exObs5, exObs7, exObsR9], []⟩

/-- A record with the GPS satellites 5 and 7. -/
def exRod : RinexObsData := ⟨0, 0, 2, [exObs5, exObs7], []⟩

/-- Flags with ephemeris input and an accepted RAIM solution. -/
def exFlagsRAIM : EphFlags := ⟨1, true, true, 0, true, true⟩

/-- The satellite 5 is marked in `Sats` by the sign of its id, and the data are edited
on the RAIM solution. -/
def exEditRAIM : EditFlags := ⟨⟨-1, .systemGPS⟩, true, [⟨-5, .systemGPS⟩]⟩

/-- The satellite 5 is marked in `Sats`, with the option `--noRAIMedit`. -/
def exEditNoRAIM : EditFlags := ⟨⟨-1, .systemGPS⟩, false, [⟨-5, .systemGPS⟩]⟩

/-- Flags with ephemeris input and the elevation mask 50; the elevation of `exCER` is
45. -/
def exFlagsMask : EphFlags := ⟨1, false, false, 50, true, true⟩

/-- Flags with ephemeris input and the elevation mask 45, the elevation of `exCER`. -/
def exFlagsMask45 : EphFlags := ⟨1, false, false, 45, true, true⟩

/-- An entry of the GLONASS satellite 5 whose only field is 0.0. -/
def exObsR5Zero : RinexSatID × RinexObsTypeMap := (⟨5, .systemGlonass⟩, [("L1", ⟨0, 0, 0⟩)])

/-- An entry of the GPS satellite 7 whose only field is 0.0. -/
def exObs7Zero : RinexSatID × RinexObsTypeMap := (⟨7, .systemGPS⟩, [("L1", ⟨0, 0, 0⟩)])

/-- A record with the GPS satellite 5 (fields not 0.0) and the GPS satellite 7 (the
only field 0.0). -/
def exRodZero : RinexObsData := ⟨0, 0, 2, [exObs5, exObs7Zero], []⟩

/-- The requested type ER, which depends on the ephemeris and the receiver position. -/
def exTypesER : List (String × RinexObsType) := [("ER", ⟨"ER", 32⟩)]

/-- Cached raw data of a satellite without data. -/
def exDataZero : RCData := ⟨0, 0, 0, 0, 0, 0⟩

/-- An entry of the GPS satellite 5 without data: the field L1 and the field of the
requested type ER are 0.0. -/
def exObs5Zero : RinexSatID × RinexObsTypeMap :=
  (sat5, [("ER", ⟨0, 0, 0⟩), ("L1", ⟨0, 0, 0⟩)])

/-! ## Lemmas on maps -/

theorem mapFind_mapSet {κ α : Type} [DecidableEq κ] (lt : κ → κ → Bool)
    (m : List (κ × α)) (k k2 : κ) (v : α) :
    mapFind (mapSet lt m k v) k2 = if k2 = k then some v else mapFind m k2 := by
  induction m with
  | nil => simp [mapSet, mapFind]
  | cons hd r ih =>
    obtain ⟨k', v'⟩ := hd
    by_cases h1 : k = k'
    · subst h1
      by_cases h3 : k2 = k <;> simp [mapSet, mapFind, h3]
    · by_cases h2 : lt k k' = true
      · simp [mapSet, mapFind, h1, h2]
      · by_cases h3 : k2 = k'
        · subst h3
          have h4 : ¬ k2 = k := fun h => h1 h.symm
          simp [mapSet, mapFind, h1, h2, h4]
        · simp [mapSet, mapFind, h1, h2, h3, ih]

/-! ## The invariant of the bias state -/

theorem ne_invalid_of_id {sv : RinexSatID} (h : sv.id ≠ -1) : sv ≠ RinexSatID.invalid := by
  intro e
  exact h (by rw [e]; rfl)

theorem biasInv_setBiasLimit (s : BiasState) (ot : RinexObsType) (lim : ℚ)
    (h : BiasInv s) : BiasInv (setBiasLimit s ot lim).2 := by
  unfold setBiasLimit
  by_cases hc : convertObsType ot = "UN" ∨ lim ≤ 0
  · simpa [hc] using h
  · have hUN : ot.type ≠ "UN" := fun e => hc (Or.inl e)
    have hpos : 0 < lim := lt_of_not_ge fun e => hc (Or.inr e)
    simp only [hc, if_false]
    intro t bm2 hf
    cases hm : mapFind s ot.type with
    | none =>
      simp only [hm, mapFind_mapSet] at hf
      by_cases ht : t = ot.type
      · simp only [ht, if_true, Option.some.injEq] at hf
        subst hf
        refine ⟨ht ▸ hUN, ⟨lim, by simp [mapFind_mapSet], hpos⟩, ?_⟩
        intro sv b hsv
        by_cases hs : sv = RinexSatID.invalid
        · exact Or.inl hs
        · simp [mapFind_mapSet, hs, mapFind] at hsv
      · simp only [ht, if_false] at hf
        exact h t bm2 hf
    | some bm =>
      simp only [hm, mapFind_mapSet] at hf
      by_cases ht : t = ot.type
      · simp only [ht, if_true, Option.some.injEq] at hf
        subst hf
        refine ⟨ht ▸ hUN, ⟨lim, by simp [mapFind_mapSet], hpos⟩, ?_⟩
        intro sv b hsv
        by_cases hs : sv = RinexSatID.invalid
        · exact Or.inl hs
        · simp only [mapFind_mapSet, hs, if_false] at hsv
          exact (h ot.type bm hm).2.2 sv b hsv
      · simp only [ht, if_false] at hf
        exact h t bm2 hf

theorem biasInv_mapSet_sat (s : BiasState) (ot : RinexObsType) (sv : RinexSatID)
    (bm : List (RinexSatID × ℚ)) (v : ℚ) (h : BiasInv s)
    (hm : mapFind s ot.type = some bm) (hid : sv.id ≠ -1) :
    BiasInv (mapSet strLt s ot.type (mapSet RinexSatID.lt bm sv v)) := by
  intro t bm2 hf
  rw [mapFind_mapSet] at hf
  by_cases ht : t = ot.type
  · simp only [ht, if_true, Option.some.injEq] at hf
    subst hf
    obtain ⟨hUN, ⟨lim, hl, hpos⟩, hs⟩ := h ot.type bm hm
    refine ⟨ht ▸ hUN, ⟨lim, ?_, hpos⟩, ?_⟩
    · rw [mapFind_mapSet]
      have : ¬ RinexSatID.invalid = sv := fun e => ne_invalid_of_id hid e.symm
      simp [this, hl]
    · intro sv2 b hsv
      rw [mapFind_mapSet] at hsv
      by_cases e : sv2 = sv
      · exact Or.inr (e ▸ hid)
      · simp only [e, if_false] at hsv
        exact hs sv2 b hsv
  · simp only [ht, if_false] at hf
    exact h t bm2 hf

theorem removeBias_guard (s : BiasState) (ot : RinexObsType) (sv : RinexSatID) (raw : ℚ)
    (hc : convertObsType ot = "UN" ∨ sv.id = -1) :
    removeBias s ot sv raw = ⟨raw, false, s⟩ := by
  unfold removeBias
  rw [if_pos hc]

theorem removeBias_noType (s : BiasState) (ot : RinexObsType) (sv : RinexSatID) (raw : ℚ)
    (hm : mapFind s ot.type = none) :
    removeBias s ot sv raw = ⟨raw, false, s⟩ := by
  unfold removeBias
  split
  · rfl
  · simp only [hm]

theorem removeBias_noLimit (s : BiasState) (ot : RinexObsType) (sv : RinexSatID) (raw : ℚ)
    (bm : List (RinexSatID × ℚ)) (hm : mapFind s ot.type = some bm)
    (hl : mapFind bm RinexSatID.invalid = none) :
    removeBias s ot sv raw = ⟨raw, false, s⟩ := by
  unfold removeBias
  split
  · rfl
  · simp only [hm, hl]

theorem removeBias_first (s : BiasState) (ot : RinexObsType) (sv : RinexSatID) (raw : ℚ)
    (bm : List (RinexSatID × ℚ)) (limit : ℚ)
    (hc : ¬ (convertObsType ot = "UN" ∨ sv.id = -1))
    (hm : mapFind s ot.type = some bm)
    (hl : mapFind bm RinexSatID.invalid = some limit) (hb : mapFind bm sv = none) :
    removeBias s ot sv raw =
      ⟨raw - (raw - 1 / 1000), true,
        mapSet strLt s ot.type (mapSet RinexSatID.lt bm sv (raw - 1 / 1000))⟩ := by
  unfold removeBias
  rw [if_neg hc]
  simp only [hm, hl, hb]

theorem removeBias_exceed (s : BiasState) (ot : RinexObsType) (sv : RinexSatID) (raw : ℚ)
    (bm : List (RinexSatID × ℚ)) (limit b : ℚ)
    (hc : ¬ (convertObsType ot = "UN" ∨ sv.id = -1))
    (hm : mapFind s ot.type = some bm)
    (hl : mapFind bm RinexSatID.invalid = some limit) (hb : mapFind bm sv = some b)
    (hg : |raw - b| > limit) :
    removeBias s ot sv raw =
      ⟨raw - (raw - 1 / 1000), true,
        mapSet strLt s ot.type (mapSet RinexSatID.lt bm sv (raw - 1 / 1000))⟩ := by
  unfold removeBias
  rw [if_neg hc]
  simp only [hm, hl, hb]
  rw [if_pos hg]

theorem removeBias_within (s : BiasState) (ot : RinexObsType) (sv : RinexSatID) (raw : ℚ)
    (bm : List (RinexSatID × ℚ)) (limit b : ℚ)
    (hm : mapFind s ot.type = some bm)
    (hl : mapFind bm RinexSatID.invalid = some limit) (hb : mapFind bm sv = some b)
    (hg : ¬ |raw - b| > limit) (hid : sv.id ≠ -1) (hUN : convertObsType ot ≠ "UN") :
    removeBias s ot sv raw = ⟨raw - b, false, s⟩ := by
  unfold removeBias
  rw [if_neg (by rintro (h | h); exact hUN h; exact hid h)]
  simp only [hm, hl, hb]
  rw [if_neg hg]

theorem biasInv_removeBias (s : BiasState) (ot : RinexObsType) (sv : RinexSatID) (raw : ℚ)
    (h : BiasInv s) : BiasInv (removeBias s ot sv raw).AllBiases := by
  by_cases hc : convertObsType ot = "UN" ∨ sv.id = -1
  · rw [removeBias_guard s ot sv raw hc]
    exact h
  · have hid : sv.id ≠ -1 := fun e => hc (Or.inr e)
    have hUN : convertObsType ot ≠ "UN" := fun e => hc (Or.inl e)
    cases hm : mapFind s ot.type with
    | none =>
      rw [removeBias_noType s ot sv raw hm]
      exact h
    | some bm =>
      cases hl : mapFind bm RinexSatID.invalid with
      | none =>
        rw [removeBias_noLimit s ot sv raw bm hm hl]
        exact h
      | some limit =>
        cases hb : mapFind bm sv with
        | none =>
          rw [removeBias_first s ot sv raw bm limit hc hm hl hb]
          exact biasInv_mapSet_sat s ot sv bm _ h hm hid
        | some b =>
          by_cases hg : |raw - b| > limit
          · rw [removeBias_exceed s ot sv raw bm limit b hc hm hl hb hg]
            exact biasInv_mapSet_sat s ot sv bm _ h hm hid
          · rw [removeBias_within s ot sv raw bm limit b hm hl hb hg hid hUN]
            exact h

theorem biasInv_of_reachable {s : BiasState} (h : Reachable s) : BiasInv s := by
  induction h with
  | empty =>
    intro t bm hf
    simp [mapFind] at hf
  | setLimit s ot lim _ ih => exact biasInv_setBiasLimit s ot lim ih
  | remove s ot sv raw _ ih => exact biasInv_removeBias s ot sv raw ih

/-! ## The limit and the biases after a call -/

theorem limitOf_eq_some {s : BiasState} {ot : RinexObsType} {lim : ℚ}
    (h : limitOf s ot = some lim) :
    ∃ bm, mapFind s ot.type = some bm ∧ mapFind bm RinexSatID.invalid = some lim := by
  unfold limitOf at h
  cases hm : mapFind s ot.type with
  | none => simp [hm] at h
  | some bm => exact ⟨bm, rfl, by simpa [hm] using h⟩

theorem biasOf_eq_some {s : BiasState} {ot : RinexObsType} {sv : RinexSatID} {b : ℚ}
    (h : biasOf s ot sv = some b) :
    sv ≠ RinexSatID.invalid ∧ ∃ bm, mapFind s ot.type = some bm ∧ mapFind bm sv = some b := by
  unfold biasOf at h
  by_cases hs : sv = RinexSatID.invalid
  · simp [hs] at h
  · refine ⟨hs, ?_⟩
    cases hm : mapFind s ot.type with
    | none => simp [hs, hm] at h
    | some bm => exact ⟨bm, rfl, by simpa [hs, hm] using h⟩

theorem limitOf_mapSet_sat (s : BiasState) (ot ot2 : RinexObsType) (sv : RinexSatID)
    (bm : List (RinexSatID × ℚ)) (v : ℚ) (hm : mapFind s ot.type = some bm)
    (hs : sv ≠ RinexSatID.invalid) :
    limitOf (mapSet strLt s ot.type (mapSet RinexSatID.lt bm sv v)) ot2 = limitOf s ot2 := by
  unfold limitOf
  rw [mapFind_mapSet]
  by_cases ht : ot2.type = ot.type
  · have : ¬ RinexSatID.invalid = sv := fun e => hs e.symm
    simp [ht, hm, mapFind_mapSet, this]
  · simp [ht]

theorem biasOf_mapSet_sat (s : BiasState) (ot ot2 : RinexObsType) (sv sv2 : RinexSatID)
    (bm : List (RinexSatID × ℚ)) (v : ℚ) (hm : mapFind s ot.type = some bm)
    (hs : sv ≠ RinexSatID.invalid) :
    biasOf (mapSet strLt s ot.type (mapSet RinexSatID.lt bm sv v)) ot2 sv2 =
      if ot2.type = ot.type ∧ sv2 = sv then some v else biasOf s ot2 sv2 := by
  unfold biasOf
  rw [mapFind_mapSet]
  by_cases h2 : sv2 = RinexSatID.invalid
  · have h3 : ¬ sv2 = sv := fun e => hs (e ▸ h2)
    rw [if_pos h2, if_neg (fun h => h3 h.2), if_pos h2]
  · by_cases ht : ot2.type = ot.type
    · by_cases e : sv2 = sv
      · subst e
        simp [h2, ht, mapFind_mapSet]
      · simp [h2, ht, e, mapFind_mapSet, hm]
    · simp [h2, ht]

theorem limitOf_removeBias (s : BiasState) (ot ot2 : RinexObsType) (sv : RinexSatID)
    (raw : ℚ) : limitOf (removeBias s ot sv raw).AllBiases ot2 = limitOf s ot2 := by
  by_cases hc : convertObsType ot = "UN" ∨ sv.id = -1
  · rw [removeBias_guard s ot sv raw hc]
  · have hid : sv.id ≠ -1 := fun e => hc (Or.inr e)
    have hUN : convertObsType ot ≠ "UN" := fun e => hc (Or.inl e)
    cases hm : mapFind s ot.type with
    | none => rw [removeBias_noType s ot sv raw hm]
    | some bm =>
      cases hl : mapFind bm RinexSatID.invalid with
      | none => rw [removeBias_noLimit s ot sv raw bm hm hl]
      | some limit =>
        cases hb : mapFind bm sv with
        | none =>
          rw [removeBias_first s ot sv raw bm limit hc hm hl hb]
          exact limitOf_mapSet_sat s ot ot2 sv bm _ hm (ne_invalid_of_id hid)
        | some b =>
          by_cases hg : |raw - b| > limit
          · rw [removeBias_exceed s ot sv raw bm limit b hc hm hl hb hg]
            exact limitOf_mapSet_sat s ot ot2 sv bm _ hm (ne_invalid_of_id hid)
          · rw [removeBias_within s ot sv raw bm limit b hm hl hb hg hid hUN]

/-- A call of `removeBias` for a type with a limit and a valid satellite without a
bias: the bias is set from the raw value. -/
theorem removeBias_unbiased (s : BiasState) (ot : RinexObsType) (sv : RinexSatID)
    (raw lim : ℚ) (hi : BiasInv s) (hl : limitOf s ot = some lim) (hid : sv.id ≠ -1)
    (hb : biasOf s ot sv = none) :
    (removeBias s ot sv raw).rset = true ∧ (removeBias s ot sv raw).value = 1 / 1000 ∧
      biasOf (removeBias s ot sv raw).AllBiases ot sv = some (raw - 1 / 1000) := by
  obtain ⟨bm, hm, hlm⟩ := limitOf_eq_some hl
  have hUN : convertObsType ot ≠ "UN" := (hi ot.type bm hm).1
  have hc : ¬ (convertObsType ot = "UN" ∨ sv.id = -1) := by
    rintro (h | h)
    · exact hUN h
    · exact hid h
  have hs : sv ≠ RinexSatID.invalid := ne_invalid_of_id hid
  have hbm : mapFind bm sv = none := by
    simpa [biasOf, hs, hm] using hb
  rw [removeBias_first s ot sv raw bm lim hc hm hlm hbm]
  refine ⟨rfl, by simp, ?_⟩
  rw [biasOf_mapSet_sat s ot ot sv sv bm _ hm hs]
  simp

/-- A call of `removeBias` for a type with a limit and a satellite with a bias. -/
theorem removeBias_biased (s : BiasState) (ot : RinexObsType) (sv : RinexSatID)
    (raw lim b : ℚ) (hi : BiasInv s) (hl : limitOf s ot = some lim)
    (hb : biasOf s ot sv = some b) :
    (lim < |raw - b| →
      (removeBias s ot sv raw).rset = true ∧ (removeBias s ot sv raw).value = 1 / 1000 ∧
        biasOf (removeBias s ot sv raw).AllBiases ot sv = some (raw - 1 / 1000)) ∧
    (|raw - b| ≤ lim → removeBias s ot sv raw = ⟨raw - b, false, s⟩) := by
  obtain ⟨bm, hm, hlm⟩ := limitOf_eq_some hl
  obtain ⟨hs, bm2, hm2, hbm⟩ := biasOf_eq_some hb
  rw [hm] at hm2
  cases hm2
  have hUN : convertObsType ot ≠ "UN" := (hi ot.type bm hm).1
  have hid : sv.id ≠ -1 := by
    rcases (hi ot.type bm hm).2.2 sv b hbm with h | h
    · exact absurd h hs
    · exact h
  have hc : ¬ (convertObsType ot = "UN" ∨ sv.id = -1) := by
    rintro (h | h)
    · exact hUN h
    · exact hid h
  constructor
  · intro hg
    rw [removeBias_exceed s ot sv raw bm lim b hc hm hlm hbm hg]
    refine ⟨rfl, by simp, ?_⟩
    rw [biasOf_mapSet_sat s ot ot sv sv bm _ hm hs]
    simp
  · intro hg
    exact removeBias_within s ot sv raw bm lim b hm hlm hbm (not_lt.mpr hg) hid hUN

theorem reachable_biasState1 : Reachable biasState1 :=
  Reachable.setLimit [] obsL3 1 Reachable.empty

theorem reachable_biasState2 : Reachable biasState2 :=
  Reachable.remove biasState1 obsL3 sat5 7 reachable_biasState1

theorem reachable_biasStateTight : Reachable biasStateTight :=
  Reachable.setLimit [] obsL3 (1 / 2000) Reachable.empty

/-! ## Claims on `removeBias` -/

/-- C1, as stated, fails for a satellite identifier with id -1: the type L3 has the
limit 1, the identifiers (-1, Glonass) and (-1, GPS) have no bias for L3, and
`removeBias` with the raw value 5 returns 5 with reset = false and stores no bias. -/
theorem removeBias_first_invalid_id :
    Reachable biasState1 ∧ limitOf biasState1 obsL3 = some 1 ∧
    biasOf biasState1 obsL3 satNoId = none ∧
    (removeBias biasState1 obsL3 satNoId 5).rset = false ∧
    (removeBias biasState1 obsL3 satNoId 5).value = 5 ∧
    biasOf (removeBias biasState1 obsL3 satNoId 5).AllBiases obsL3 satNoId = none ∧
    biasOf biasState1 obsL3 RinexSatID.invalid = none ∧
    (removeBias biasState1 obsL3 RinexSatID.invalid 5).rset = false ∧
    (removeBias biasState1 obsL3 RinexSatID.invalid 5).value = 5 := by
  refine ⟨reachable_biasState1, ?_, ?_, ?_, ?_, ?_, ?_, ?_, ?_⟩ <;> decide

/-- C1 (amended): in a reachable bias state, for a type with a configured limit and a
satellite with a valid id (other than -1) and no stored bias for the type, `removeBias`
with any raw value `raw` reports reset = true, returns exactly 0.001 and stores the
bias `raw - 0.001` for (type, satellite). -/
theorem removeBias_first_submission (s : BiasState) (ot : RinexObsType) (sv : RinexSatID)
    (raw lim : ℚ) (hr : Reachable s) (hl : limitOf s ot = some lim) (hid : sv.id ≠ -1)
    (hb : biasOf s ot sv = none) :
    (removeBias s ot sv raw).rset = true ∧ (removeBias s ot sv raw).value = 1 / 1000 ∧
      biasOf (removeBias s ot sv raw).AllBiases ot sv = some (raw - 1 / 1000) :=
  removeBias_unbiased s ot sv raw lim (biasInv_of_reachable hr) hl hid hb

theorem removeBias_first_submission_witness :
    (removeBias biasState1 obsL3 sat5 7).rset = true ∧
    (removeBias biasState1 obsL3 sat5 7).value = 1 / 1000 ∧
    biasOf (removeBias biasState1 obsL3 sat5 7).AllBiases obsL3 sat5 = some (7 - 1 / 1000) :=
  removeBias_first_submission biasState1 obsL3 sat5 7 1 reachable_biasState1
    (by decide) (by decide) (by decide)

/-- C2: in a reachable bias state, for a type with a configured limit and a satellite
with a stored bias `b`, `removeBias` reports reset = true and replaces the bias by
`raw - 0.001` exactly when `|raw - b| > limit` (strict); the bias stays `b`, reset = false
and the returned value is `raw - b` exactly when `|raw - b| ≤ limit`. -/
theorem removeBias_stored_bias (s : BiasState) (ot : RinexObsType) (sv : RinexSatID)
    (raw lim b : ℚ) (hr : Reachable s) (hl : limitOf s ot = some lim)
    (hb : biasOf s ot sv = some b) :
    (((removeBias s ot sv raw).rset = true ∧
        biasOf (removeBias s ot sv raw).AllBiases ot sv = some (raw - 1 / 1000)) ↔
      lim < |raw - b|) ∧
    ((biasOf (removeBias s ot sv raw).AllBiases ot sv = some b ∧
        (removeBias s ot sv raw).rset = false ∧ (removeBias s ot sv raw).value = raw - b) ↔
      |raw - b| ≤ lim) := by
  obtain ⟨hgt, hle⟩ := removeBias_biased s ot sv raw lim b (biasInv_of_reachable hr) hl hb
  refine ⟨⟨?_, fun hg => ⟨(hgt hg).1, (hgt hg).2.2⟩⟩, ⟨?_, ?_⟩⟩
  · rintro ⟨h1, _⟩
    by_contra hg
    rw [hle (not_lt.mp hg)] at h1
    exact Bool.noConfusion h1
  · rintro ⟨_, h1, _⟩
    by_contra hg
    rw [(hgt (not_le.mp hg)).1] at h1
    exact Bool.noConfusion h1
  · intro hg
    rw [hle hg]
    exact ⟨hb, rfl, rfl⟩

theorem removeBias_stored_bias_witness :
    (((removeBias biasState2 obsL3 sat5 (15 / 2)).rset = true ∧
        biasOf (removeBias biasState2 obsL3 sat5 (15 / 2)).AllBiases obsL3 sat5 =
          some (15 / 2 - 1 / 1000)) ↔
      (1 : ℚ) < |15 / 2 - (7 - 1 / 1000)|) ∧
    ((biasOf (removeBias biasState2 obsL3 sat5 (15 / 2)).AllBiases obsL3 sat5 =
          some (7 - 1 / 1000) ∧
        (removeBias biasState2 obsL3 sat5 (15 / 2)).rset = false ∧
        (removeBias biasState2 obsL3 sat5 (15 / 2)).value = 15 / 2 - (7 - 1 / 1000)) ↔
      |(15 / 2 : ℚ) - (7 - 1 / 1000)| ≤ 1) :=
  removeBias_stored_bias biasState2 obsL3 sat5 (15 / 2) 1 (7 - 1 / 1000) reachable_biasState2
    (by decide)
    (by simp [biasOf, biasState2, biasState1, removeBias, setBiasLimit, mapFind, mapSet,
      convertObsType, obsL3, sat5, RinexSatID.invalid])

/-- C3: for an observation type with no limit configured in the bias state, every
satellite and every raw value, `removeBias` returns the raw value, reports
reset = false and leaves the whole bias state as it was. -/
theorem removeBias_no_limit_identity (s : BiasState) (ot : RinexObsType) (sv : RinexSatID)
    (raw : ℚ) (hl : limitOf s ot = none) :
    removeBias s ot sv raw = ⟨raw, false, s⟩ := by
  cases hm : mapFind s ot.type with
  | none => exact removeBias_noType s ot sv raw hm
  | some bm =>
    have : mapFind bm RinexSatID.invalid = none := by simpa [limitOf, hm] using hl
    exact removeBias_noLimit s ot sv raw bm hm this

theorem removeBias_no_limit_identity_witness :
    removeBias biasState2 ⟨"L4", 6⟩ sat5 3 = ⟨3, false, biasState2⟩ :=
  removeBias_no_limit_identity biasState2 ⟨"L4", 6⟩ sat5 3 (by decide)

theorem submitAgain_fixed (ot : RinexObsType) (sv : RinexSatID) (raw : ℚ) (t : BiasState)
    (h : (removeBias t ot sv raw).AllBiases = t) (n : Nat) :
    submitAgain ot sv raw n t = t := by
  induction n with
  | zero => rfl
  | succ n ih =>
    rw [submitAgain, h]
    exact ih

/-- A state whose bias for the pair is `raw - 0.001` under a limit below 0.001 keeps
these properties through further submissions of `raw`. -/
theorem submitAgain_tight (ot : RinexObsType) (sv : RinexSatID) (raw lim : ℚ)
    (hlt : lim < 1 / 1000) (n : Nat) :
    ∀ t : BiasState, BiasInv t → limitOf t ot = some lim →
      biasOf t ot sv = some (raw - 1 / 1000) →
      BiasInv (submitAgain ot sv raw n t) ∧ limitOf (submitAgain ot sv raw n t) ot = some lim ∧
        biasOf (submitAgain ot sv raw n t) ot sv = some (raw - 1 / 1000) := by
  induction n with
  | zero =>
    intro t hi hl hb
    exact ⟨hi, hl, hb⟩
  | succ n ih =>
    intro t hi hl hb
    rw [submitAgain]
    have hg : lim < |raw - (raw - 1 / 1000)| := by
      have : raw - (raw - 1 / 1000) = 1 / 1000 := by ring
      rw [this, abs_of_pos (by norm_num)]
      exact hlt
    have h1 := (removeBias_biased t ot sv raw lim _ hi hl hb).1 hg
    exact ih _ (biasInv_removeBias t ot sv raw hi)
      ((limitOf_removeBias t ot ot sv raw).trans hl) h1.2.2

/-- C4, as stated, fails when the limit is below 0.001: with the limit 0.0005 for L3,
the raw value 7 submitted a second time for satellite 5 reports reset = true. -/
theorem removeBias_repeat_tight_limit :
    Reachable biasStateTight ∧ limitOf biasStateTight obsL3 = some (1 / 2000) ∧
    (removeBias (removeBias biasStateTight obsL3 sat5 7).AllBiases obsL3 sat5 7).rset
      = true := by
  refine ⟨reachable_biasStateTight, ?_, ?_⟩
  · simp [limitOf, biasStateTight, setBiasLimit, mapFind, mapSet, convertObsType, obsL3]
  · simp [biasStateTight, removeBias, setBiasLimit, mapFind, mapSet, convertObsType, obsL3,
      sat5, RinexSatID.invalid]
    norm_num [abs_of_pos]

/-- C4 (amended): in a reachable bias state, for a type with a configured limit `lim`,
every satellite and every raw value `raw`, after `raw` has been submitted once, every
further submission of the same `raw` for the same (type, satellite) leaves the stored
bias as the first submission left it, and reports reset = false exactly when
`lim ≥ 0.001` or the first submission did not reset. The arithmetic is taken exactly
(a `double` is a rational number here): the value is `0.001` away from the bias
`raw - 0.001` stored for it. In the arithmetic of the program that distance is `0.001`
up to rounding only, so for a limit within rounding of `0.001` the theorem says nothing
about the program. -/
theorem removeBias_repeat (s : BiasState) (ot : RinexObsType) (sv : RinexSatID)
    (raw lim : ℚ) (n : Nat) (hr : Reachable s) (hl : limitOf s ot = some lim) :
    biasOf (removeBias (submitAgain ot sv raw n (removeBias s ot sv raw).AllBiases)
        ot sv raw).AllBiases ot sv =
      biasOf (removeBias s ot sv raw).AllBiases ot sv ∧
    ((removeBias (submitAgain ot sv raw n (removeBias s ot sv raw).AllBiases)
        ot sv raw).rset = false ↔
      (1 / 1000 ≤ lim ∨ (removeBias s ot sv raw).rset = false)) := by
  have hi := biasInv_of_reachable hr
  -- a first submission that leaves the state as it is
  have stable : removeBias s ot sv raw = ⟨(removeBias s ot sv raw).value, false, s⟩ →
      biasOf (removeBias (submitAgain ot sv raw n (removeBias s ot sv raw).AllBiases)
          ot sv raw).AllBiases ot sv =
        biasOf (removeBias s ot sv raw).AllBiases ot sv ∧
      ((removeBias (submitAgain ot sv raw n (removeBias s ot sv raw).AllBiases)
          ot sv raw).rset = false ↔
        (1 / 1000 ≤ lim ∨ (removeBias s ot sv raw).rset = false)) := by
    intro he
    have h1 : (removeBias s ot sv raw).AllBiases = s := by rw [he]
    have h2 : (removeBias s ot sv raw).rset = false := by rw [he]
    rw [h1, submitAgain_fixed ot sv raw s h1 n, h1]
    exact ⟨rfl, fun _ => Or.inr h2, fun _ => h2⟩
  -- a first submission that stores the bias `raw - 0.001`
  have fresh : (removeBias s ot sv raw).rset = true →
      biasOf (removeBias s ot sv raw).AllBiases ot sv = some (raw - 1 / 1000) →
      biasOf (removeBias (submitAgain ot sv raw n (removeBias s ot sv raw).AllBiases)
          ot sv raw).AllBiases ot sv =
        biasOf (removeBias s ot sv raw).AllBiases ot sv ∧
      ((removeBias (submitAgain ot sv raw n (removeBias s ot sv raw).AllBiases)
          ot sv raw).rset = false ↔
        (1 / 1000 ≤ lim ∨ (removeBias s ot sv raw).rset = false)) := by
    intro hset hb1
    have hi1 := biasInv_removeBias s ot sv raw hi
    have hl1 : limitOf (removeBias s ot sv raw).AllBiases ot = some lim :=
      (limitOf_removeBias s ot ot sv raw).trans hl
    have habs : |raw - (raw - 1 / 1000)| = 1 / 1000 := by
      have : raw - (raw - 1 / 1000) = 1 / 1000 := by ring
      rw [this, abs_of_pos (by norm_num)]
    by_cases hlim : 1 / 1000 ≤ lim
    · have he := (removeBias_biased _ ot sv raw lim _ hi1 hl1 hb1).2 (le_of_eq_of_le habs hlim)
      have h1 : (removeBias (removeBias s ot sv raw).AllBiases ot sv raw).AllBiases =
          (removeBias s ot sv raw).AllBiases := by rw [he]
      rw [submitAgain_fixed ot sv raw _ h1 n, he]
      exact ⟨rfl, fun _ => Or.inl hlim, fun _ => rfl⟩
    · have hlt : lim < 1 / 1000 := not_le.mp hlim
      obtain ⟨hin, hln, hbn⟩ := submitAgain_tight ot sv raw lim hlt n _ hi1 hl1 hb1
      have hg : lim < |raw - (raw - 1 / 1000)| := lt_of_lt_of_eq hlt habs.symm
      have h1 := (removeBias_biased _ ot sv raw lim _ hin hln hbn).1 hg
      refine ⟨h1.2.2.trans hb1.symm, ?_, ?_⟩
      · intro h
        rw [h1.1] at h
        exact Bool.noConfusion h
      · rintro (h | h)
        · exact absurd h hlim
        · rw [hset] at h
          exact Bool.noConfusion h
  by_cases hid : sv.id = -1
  · exact stable (by rw [removeBias_guard s ot sv raw (Or.inr hid)])
  · cases hb : biasOf s ot sv with
    | none =>
      obtain ⟨h1, _, h3⟩ := removeBias_unbiased s ot sv raw lim hi hl hid hb
      exact fresh h1 h3
    | some b =>
      obtain ⟨hgt, hle⟩ := removeBias_biased s ot sv raw lim b hi hl hb
      by_cases hg : lim < |raw - b|
      · exact fresh (hgt hg).1 (hgt hg).2.2
      · exact stable (by rw [hle (not_lt.mp hg)])

theorem removeBias_repeat_witness :
    biasOf (removeBias (submitAgain obsL3 sat5 7 2 (removeBias biasState1 obsL3 sat5 7).AllBiases)
        obsL3 sat5 7).AllBiases obsL3 sat5 =
      biasOf (removeBias biasState1 obsL3 sat5 7).AllBiases obsL3 sat5 ∧
    ((removeBias (submitAgain obsL3 sat5 7 2 (removeBias biasState1 obsL3 sat5 7).AllBiases)
        obsL3 sat5 7).rset = false ↔
      ((1 : ℚ) / 1000 ≤ 1 ∨ (removeBias biasState1 obsL3 sat5 7).rset = false)) :=
  removeBias_repeat biasState1 obsL3 sat5 7 1 2 reachable_biasState1 (by decide)

/-- C5, as stated, fails: `removeBias` compares the raw value with the stored bias
(the first raw value minus 0.001), not with the first raw value. With the limit 1 for
L3 and no bias for satellite 5, the raw values 7 and 8 are exactly 1 apart and the
second submission resets; the raw values 7 and 7 - (1 + 1e-9) are exactly 1 + 1e-9
apart and the second submission does not reset. -/
theorem removeBias_two_values_apart :
    Reachable biasState1 ∧ limitOf biasState1 obsL3 = some 1 ∧
    biasOf biasState1 obsL3 sat5 = none ∧
    |(8 : ℚ) - 7| = 1 ∧
    (removeBias (removeBias biasState1 obsL3 sat5 7).AllBiases obsL3 sat5 8).rset = true ∧
    |(7 - (1 + 1 / 1000000000) : ℚ) - 7| = 1 + 1 / 1000000000 ∧
    (removeBias (removeBias biasState1 obsL3 sat5 7).AllBiases obsL3 sat5
      (7 - (1 + 1 / 1000000000))).rset = false := by
  refine ⟨reachable_biasState1, by decide, by decide, by norm_num, ?_, ?_, ?_⟩
  · simp [biasState1, removeBias, setBiasLimit, mapFind, mapSet, convertObsType, obsL3,
      sat5, RinexSatID.invalid]
    norm_num [abs_of_pos]
  · norm_num [abs_of_neg]
  · simp [biasState1, removeBias, setBiasLimit, mapFind, mapSet, convertObsType, obsL3,
      sat5, RinexSatID.invalid]
    norm_num [abs_of_neg]

/-- C5 (amended): in a reachable bias state, for a type with configured limit `lim` and
a satellite with a valid id and no stored bias, when the raw values `r1` and `r2` are
submitted in succession, the second submission resets exactly when `r2` is more than
`lim` away from the bias `r1 - 0.001` stored by the first: a second raw value exactly
`lim` above or below that bias does not reset, one exactly `lim + 1e-9` above or below
it resets. -/
theorem removeBias_second_value (s : BiasState) (ot : RinexObsType) (sv : RinexSatID)
    (r1 r2 lim : ℚ) (hr : Reachable s) (hl : limitOf s ot = some lim) (hid : sv.id ≠ -1)
    (hb : biasOf s ot sv = none) :
    ((removeBias (removeBias s ot sv r1).AllBiases ot sv r2).rset = true ↔
      lim < |r2 - (r1 - 1 / 1000)|) ∧
    (removeBias (removeBias s ot sv r1).AllBiases ot sv (r1 - 1 / 1000 + lim)).rset = false ∧
    (removeBias (removeBias s ot sv r1).AllBiases ot sv (r1 - 1 / 1000 - lim)).rset = false ∧
    (removeBias (removeBias s ot sv r1).AllBiases ot sv
      (r1 - 1 / 1000 + (lim + 1 / 1000000000))).rset = true ∧
    (removeBias (removeBias s ot sv r1).AllBiases ot sv
      (r1 - 1 / 1000 - (lim + 1 / 1000000000))).rset = true := by
  have hi := biasInv_of_reachable hr
  have hpos : 0 < lim := by
    obtain ⟨bm, hm, hlm⟩ := limitOf_eq_some hl
    obtain ⟨_, ⟨l2, hl2, hp⟩, _⟩ := hi ot.type bm hm
    rw [hlm] at hl2
    cases hl2
    exact hp
  have hb1 := (removeBias_unbiased s ot sv r1 lim hi hl hid hb).2.2
  have hi1 := biasInv_removeBias s ot sv r1 hi
  have hl1 : limitOf (removeBias s ot sv r1).AllBiases ot = some lim :=
    (limitOf_removeBias s ot ot sv r1).trans hl
  have key : ∀ r : ℚ, (removeBias (removeBias s ot sv r1).AllBiases ot sv r).rset = true ↔
      lim < |r - (r1 - 1 / 1000)| := by
    intro r
    obtain ⟨hgt, hle⟩ := removeBias_biased _ ot sv r lim _ hi1 hl1 hb1
    constructor
    · intro h
      by_contra hg
      rw [hle (not_lt.mp hg)] at h
      exact Bool.noConfusion h
    · intro hg
      exact (hgt hg).1
  have off : ∀ r : ℚ, ¬ lim < |r - (r1 - 1 / 1000)| →
      (removeBias (removeBias s ot sv r1).AllBiases ot sv r).rset = false := by
    intro r hg
    cases hrs : (removeBias (removeBias s ot sv r1).AllBiases ot sv r).rset with
    | false => rfl
    | true => exact absurd ((key r).mp hrs) hg
  refine ⟨key r2, off _ ?_, off _ ?_, (key _).mpr ?_, (key _).mpr ?_⟩
  · have e : r1 - 1 / 1000 + lim - (r1 - 1 / 1000) = lim := by ring
    rw [e, abs_of_pos hpos]
    exact lt_irrefl lim
  · have e : r1 - 1 / 1000 - lim - (r1 - 1 / 1000) = -lim := by ring
    rw [e, abs_neg, abs_of_pos hpos]
    exact lt_irrefl lim
  · have e : r1 - 1 / 1000 + (lim + 1 / 1000000000) - (r1 - 1 / 1000) =
        lim + 1 / 1000000000 := by ring
    rw [e, abs_of_pos (by linarith)]
    linarith
  · have e : r1 - 1 / 1000 - (lim + 1 / 1000000000) - (r1 - 1 / 1000) =
        -(lim + 1 / 1000000000) := by ring
    rw [e, abs_neg, abs_of_pos (by linarith)]
    linarith

theorem removeBias_second_value_witness :
    ((removeBias (removeBias biasState1 obsL3 sat5 7).AllBiases obsL3 sat5 8).rset = true ↔
      (1 : ℚ) < |8 - (7 - 1 / 1000)|) ∧
    (removeBias (removeBias biasState1 obsL3 sat5 7).AllBiases obsL3 sat5
      (7 - 1 / 1000 + 1)).rset = false ∧
    (removeBias (removeBias biasState1 obsL3 sat5 7).AllBiases obsL3 sat5
      (7 - 1 / 1000 - 1)).rset = false ∧
    (removeBias (removeBias biasState1 obsL3 sat5 7).AllBiases obsL3 sat5
      (7 - 1 / 1000 + (1 + 1 / 1000000000))).rset = true ∧
    (removeBias (removeBias biasState1 obsL3 sat5 7).AllBiases obsL3 sat5
      (7 - 1 / 1000 - (1 + 1 / 1000000000))).rset = true :=
  removeBias_second_value biasState1 obsL3 sat5 7 8 1 reachable_biasState1 (by decide)
    (by decide) (by decide)

/-! ## Claims on the limit entries and on `setBiasLimit` -/

/-- C7: in every bias state reachable from the empty state by calls of `setBiasLimit`
and `removeBias`, a type that has a bias entry for a satellite also has its limit entry
(stored under the invalid satellite id -1) and that limit is positive; and a call of
`removeBias` leaves the limit entry of every type as it was (present with the same
value, or absent). -/
theorem limit_entry_invariant (s : BiasState) (ot ot2 ot3 : RinexObsType)
    (sv sv2 : RinexSatID) (b raw : ℚ) (hr : Reachable s) :
    (biasOf s ot sv = some b → ∃ lim, limitOf s ot = some lim ∧ 0 < lim) ∧
    limitOf (removeBias s ot2 sv2 raw).AllBiases ot3 = limitOf s ot3 := by
  refine ⟨?_, limitOf_removeBias s ot2 ot3 sv2 raw⟩
  intro hb
  obtain ⟨_, bm, hm, _⟩ := biasOf_eq_some hb
  obtain ⟨_, ⟨lim, hlim, hpos⟩, _⟩ := biasInv_of_reachable hr ot.type bm hm
  exact ⟨lim, by simp [limitOf, hm, hlim], hpos⟩

theorem limit_entry_invariant_witness :
    (biasOf biasState2 obsL3 sat5 = some (7 - 1 / 1000) →
      ∃ lim, limitOf biasState2 obsL3 = some lim ∧ 0 < lim) ∧
    limitOf (removeBias biasState2 obsL3 sat5 9).AllBiases obsL3 = limitOf biasState2 obsL3 :=
  limit_entry_invariant biasState2 obsL3 obsL3 obsL3 sat5 sat5 (7 - 1 / 1000) 9
    reachable_biasState2

/-- C8: `setBiasLimit(type, lim)` returns a nonzero code exactly when `lim ≤ 0` or the
type is the unknown type `UN`, and then leaves the bias state as it was; otherwise it
returns 0, afterwards the limit of the type is `lim`, and the biases stored for the
satellites of the type are as before. -/
theorem setBiasLimit_contract (s : BiasState) (ot : RinexObsType) (lim : ℚ) :
    ((setBiasLimit s ot lim).1 ≠ 0 ↔ (lim ≤ 0 ∨ convertObsType ot = "UN")) ∧
    ((lim ≤ 0 ∨ convertObsType ot = "UN") → (setBiasLimit s ot lim).2 = s) ∧
    (¬ (lim ≤ 0 ∨ convertObsType ot = "UN") →
      (setBiasLimit s ot lim).1 = 0 ∧ limitOf (setBiasLimit s ot lim).2 ot = some lim ∧
      ∀ sv, biasOf (setBiasLimit s ot lim).2 ot sv = biasOf s ot sv) := by
  by_cases hc : convertObsType ot = "UN" ∨ lim ≤ 0
  · have hc2 : lim ≤ 0 ∨ convertObsType ot = "UN" := hc.symm
    have he : setBiasLimit s ot lim = (-1, s) := by
      unfold setBiasLimit
      rw [if_pos hc]
    rw [he]
    exact ⟨⟨fun _ => hc2, fun _ => by simp⟩, fun _ => rfl, fun h => absurd hc2 h⟩
  · have hc2 : ¬ (lim ≤ 0 ∨ convertObsType ot = "UN") := fun h => hc h.symm
    have key : (setBiasLimit s ot lim).1 = 0 ∧
        limitOf (setBiasLimit s ot lim).2 ot = some lim ∧
        ∀ sv, biasOf (setBiasLimit s ot lim).2 ot sv = biasOf s ot sv := by
      unfold setBiasLimit
      rw [if_neg hc]
      cases hm : mapFind s ot.type with
      | none =>
        refine ⟨rfl, by simp [limitOf, mapFind_mapSet], ?_⟩
        intro sv
        by_cases hs : sv = RinexSatID.invalid
        · simp [biasOf, hs]
        · simp [biasOf, hs, mapFind_mapSet, hm, mapFind]
      | some bm =>
        refine ⟨rfl, by simp [limitOf, mapFind_mapSet], ?_⟩
        intro sv
        by_cases hs : sv = RinexSatID.invalid
        · simp [biasOf, hs]
        · simp [biasOf, hs, mapFind_mapSet, hm]
    refine ⟨⟨fun h => absurd key.1 h, fun h => absurd h hc2⟩, fun h => absurd h hc2, fun _ => key⟩

/-! ## The stored bias persists -/

theorem BeforeEditObs_AllBiases (cfg : Config) (g : Globals) (roin : RinexObsData) :
    (BeforeEditObs cfg g roin).AllBiases = g.AllBiases := by
  unfold BeforeEditObs
  split
  · rfl
  · simp only
    split
    · rfl
    · rfl

theorem biasOf_setBiasLimit (s : BiasState) (ot ot2 : RinexObsType) (sv : RinexSatID)
    (lim : ℚ) : biasOf (setBiasLimit s ot2 lim).2 ot sv = biasOf s ot sv := by
  unfold setBiasLimit
  split
  · rfl
  · by_cases hs : sv = RinexSatID.invalid
    · simp [biasOf, hs]
    · by_cases ht : ot.type = ot2.type
      · cases hm : mapFind s ot2.type with
        | none => simp [biasOf, hs, mapFind_mapSet, ht, hm, mapFind]
        | some bm => simp [biasOf, hs, mapFind_mapSet, ht, hm]
      · cases hm : mapFind s ot2.type with
        | none => simp [biasOf, hs, mapFind_mapSet, ht]
        | some bm => simp [biasOf, hs, mapFind_mapSet, ht]

theorem biasOf_removeBias_changed (s : BiasState) (ot ot2 : RinexObsType)
    (sv sv2 : RinexSatID) (raw : ℚ)
    (h : biasOf (removeBias s ot2 sv2 raw).AllBiases ot sv ≠ biasOf s ot sv) :
    ot2.type = ot.type ∧ sv2 = sv ∧ (removeBias s ot2 sv2 raw).rset = true := by
  have setCase : ∀ (bm : List (RinexSatID × ℚ)) (v : ℚ), mapFind s ot2.type = some bm →
      sv2.id ≠ -1 →
      biasOf (mapSet strLt s ot2.type (mapSet RinexSatID.lt bm sv2 v)) ot sv ≠ biasOf s ot sv →
      ot2.type = ot.type ∧ sv2 = sv := by
    intro bm v hm hid hne
    rw [biasOf_mapSet_sat s ot2 ot sv2 sv bm v hm (ne_invalid_of_id hid)] at hne
    by_cases hc : ot.type = ot2.type ∧ sv = sv2
    · exact ⟨hc.1.symm, hc.2.symm⟩
    · rw [if_neg hc] at hne
      exact absurd rfl hne
  by_cases hc : convertObsType ot2 = "UN" ∨ sv2.id = -1
  · rw [removeBias_guard s ot2 sv2 raw hc] at h
    exact absurd rfl h
  · have hid : sv2.id ≠ -1 := fun e => hc (Or.inr e)
    have hUN : convertObsType ot2 ≠ "UN" := fun e => hc (Or.inl e)
    cases hm : mapFind s ot2.type with
    | none =>
      rw [removeBias_noType s ot2 sv2 raw hm] at h
      exact absurd rfl h
    | some bm =>
      cases hl : mapFind bm RinexSatID.invalid with
      | none =>
        rw [removeBias_noLimit s ot2 sv2 raw bm hm hl] at h
        exact absurd rfl h
      | some limit =>
        cases hb : mapFind bm sv2 with
        | none =>
          rw [removeBias_first s ot2 sv2 raw bm limit hc hm hl hb] at h ⊢
          obtain ⟨h1, h2⟩ := setCase bm _ hm hid h
          exact ⟨h1, h2, rfl⟩
        | some b =>
          by_cases hg : |raw - b| > limit
          · rw [removeBias_exceed s ot2 sv2 raw bm limit b hc hm hl hb hg] at h ⊢
            obtain ⟨h1, h2⟩ := setCase bm _ hm hid h
            exact ⟨h1, h2, rfl⟩
          · rw [removeBias_within s ot2 sv2 raw bm limit b hm hl hb hg hid hUN] at h
            exact absurd rfl h

/-- C6: the stored bias of a (type, satellite) pair is changed only by a call of
`removeBias` for the same type and satellite that reports reset = true: a call of
`removeBias` after which the bias differs is such a call, and calls of `setBiasLimit`
and of `BeforeEditObs` (which clears the cache of raw data at each epoch) leave it
as it was. -/
theorem stored_bias_persists (s : BiasState) (ot ot2 : RinexObsType) (sv sv2 : RinexSatID)
    (raw lim : ℚ) (cfg : Config) (g : Globals) (roin : RinexObsData) :
    (biasOf (removeBias s ot2 sv2 raw).AllBiases ot sv ≠ biasOf s ot sv →
      ot2.type = ot.type ∧ sv2 = sv ∧ (removeBias s ot2 sv2 raw).rset = true) ∧
    biasOf (setBiasLimit s ot2 lim).2 ot sv = biasOf s ot sv ∧
    biasOf (BeforeEditObs cfg g roin).AllBiases ot sv = biasOf g.AllBiases ot sv :=
  ⟨biasOf_removeBias_changed s ot ot2 sv sv2 raw, biasOf_setBiasLimit s ot ot2 sv lim,
    by rw [BeforeEditObs_AllBiases]⟩

/-! ## The loop over the requested types -/

theorem ite_some_exists {α : Type} (c : Prop) [Decidable c] (a : α) (e : Option α)
    (h : ¬ c → ∃ r, e = some r) : ∃ r, (if c then some a else e) = some r := by
  by_cases hc : c
  · exact ⟨a, if_pos hc⟩
  · rw [if_neg hc]
    exact h hc

theorem computeOT_some (name : String) (ot : RinexObsType) (sat : RinexSatID) (d : RCData)
    (HaveR HaveP : Bool) (v : SatVars) (XRsol : Vec4) (reset : Bool) (B : BiasState) :
    ∃ r, computeOT name ot sat (some d) HaveR HaveP v XRsol reset B = some r := by
  unfold computeOT
  repeat (first | exact ⟨_, rfl⟩ | (refine ite_some_exists _ _ _ ?_; intro _))

theorem phaseSlip_some (ot : RinexObsType) (t l : Nat) :
    ∃ b, phaseSlip ot t (some l) = some b := by
  unfold phaseSlip
  split_ifs <;> exact ⟨_, rfl⟩

/-- The shape of the state after one pass of the loop body: a type that is not in the
record leaves the state as it is, any other type overwrites its own field. -/
theorem otStep_shape (cfg : Config) (sat : RinexSatID) (kt : Option RCData) (v : SatVars)
    (XRsol : Vec4) (st st1 : OTState) (p : String × RinexObsType)
    (h : otStep cfg sat kt v XRsol st p = some st1) :
    (mapFind st.otmap p.2.type = none ∧ st1 = st) ∨
    ∃ datum r lli, mapFind st.otmap p.2.type = some datum ∧
      computeOT p.1 p.2 sat kt (haveR kt) (haveP kt) v XRsol st.reset st.AllBiases = some r ∧
      st1 = ⟨mapSet strLt st.otmap p.2.type ⟨r.data, lli, datum.ssi⟩, r.reset, r.AllBiases⟩ := by
  unfold otStep at h
  cases hf : mapFind st.otmap p.2.type with
  | none =>
    rw [hf] at h
    simp only [Option.some.injEq] at h
    exact Or.inl ⟨rfl, h.symm⟩
  | some datum =>
    rw [hf] at h
    simp only at h
    cases hr : computeOT p.1 p.2 sat kt (haveR kt) (haveP kt) v XRsol st.reset st.AllBiases with
    | none =>
      rw [hr] at h
      exact Option.noConfusion h
    | some r =>
      rw [hr] at h
      simp only at h
      right
      by_cases hok : r.ok = false
      · rw [if_pos hok] at h
        simp only [Option.some.injEq] at h
        exact ⟨datum, r, _, rfl, rfl, h.symm⟩
      · rw [if_neg hok] at h
        cases ht1 : phaseTest cfg.rhead cfg.inL1 cfg.otL1 with
        | none =>
          rw [ht1] at h
          exact Option.noConfusion h
        | some t1 =>
          rw [ht1] at h
          simp only at h
          cases hs1 : phaseSlip p.2 t1 (kt.map fun c => c.LL1) with
          | none =>
            rw [hs1] at h
            exact Option.noConfusion h
          | some s1 =>
            rw [hs1] at h
            simp only at h
            cases ht2 : phaseTest cfg.rhead cfg.inL2 cfg.otL2 with
            | none =>
              rw [ht2] at h
              exact Option.noConfusion h
            | some t2 =>
              rw [ht2] at h
              simp only at h
              cases hs2 : phaseSlip p.2 t2 (kt.map fun c => c.LL2) with
              | none =>
                rw [hs2] at h
                exact Option.noConfusion h
              | some s2 =>
                rw [hs2] at h
                simp only [Option.some.injEq] at h
                exact ⟨datum, r, _, rfl, rfl, h.symm⟩

/-- With cached data for the satellite and both phase tests defined, the loop body
always gives a state. -/
theorem otStep_total (cfg : Config) (sat : RinexSatID) (d : RCData) (v : SatVars)
    (XRsol : Vec4) (st : OTState) (p : String × RinexObsType) (t1 t2 : Nat)
    (h1 : phaseTest cfg.rhead cfg.inL1 cfg.otL1 = some t1)
    (h2 : phaseTest cfg.rhead cfg.inL2 cfg.otL2 = some t2) :
    ∃ st1, otStep cfg sat (some d) v XRsol st p = some st1 := by
  unfold otStep
  cases hf : mapFind st.otmap p.2.type with
  | none => exact ⟨_, rfl⟩
  | some datum =>
    obtain ⟨r, hr⟩ := computeOT_some p.1 p.2 sat d (haveR (some d)) (haveP (some d)) v XRsol
      st.reset st.AllBiases
    obtain ⟨s1, hs1⟩ := phaseSlip_some p.2 t1 d.LL1
    obtain ⟨s2, hs2⟩ := phaseSlip_some p.2 t2 d.LL2
    simp only [hr, h1, h2, Option.map_some', hs1, hs2]
    split_ifs <;> exact ⟨_, rfl⟩

/-- The field of a requested type whose branch stores the value `val` holds `val` after
the loop, when no requested type of another name writes the same field. -/
theorem otLoop_field_value (cfg : Config) (sat : RinexSatID) (d : RCData) (v : SatVars)
    (XRsol : Vec4) (name key : String) (val : ℚ) (t1 t2 : Nat)
    (h1 : phaseTest cfg.rhead cfg.inL1 cfg.otL1 = some t1)
    (h2 : phaseTest cfg.rhead cfg.inL2 cfg.otL2 = some t2)
    (hbranch : ∀ ot reset B, ∃ r,
      computeOT name ot sat (some d) (haveR (some d)) (haveP (some d)) v XRsol reset B = some r ∧
        r.data = val) :
    ∀ (ps : List (String × RinexObsType)) (st : OTState) (datum : RinexDatum),
      (∀ p ∈ ps, p.2.type = key → p.1 = name) →
      mapFind st.otmap key = some datum →
      ((∃ p ∈ ps, p.2.type = key) ∨ datum.data = val) →
      ∃ st1 datum1, otLoop cfg sat (some d) v XRsol ps st = some st1 ∧
        mapFind st1.otmap key = some datum1 ∧ datum1.data = val := by
  intro ps
  induction ps with
  | nil =>
    intro st datum _ hf hor
    rcases hor with ⟨p, hp, _⟩ | hv
    · exact absurd hp (List.not_mem_nil p)
    · exact ⟨st, datum, rfl, hf, hv⟩
  | cons p ps ih =>
    intro st datum hty hf hor
    obtain ⟨st1, hst⟩ := otStep_total cfg sat d v XRsol st p t1 t2 h1 h2
    have hty2 : ∀ q ∈ ps, q.2.type = key → q.1 = name :=
      fun q hq => hty q (List.mem_cons_of_mem p hq)
    rw [otLoop, hst]
    simp only
    by_cases hk : p.2.type = key
    · have hn : p.1 = name := hty p (List.mem_cons_self p ps) hk
      rcases otStep_shape cfg sat (some d) v XRsol st st1 p hst with ⟨hnone, _⟩ | ⟨dt, r, lli, _, hr, he⟩
      · rw [hk, hf] at hnone
        exact Option.noConfusion hnone
      · obtain ⟨r2, hr2, hv⟩ := hbranch p.2 st.reset st.AllBiases
        rw [hn, hr2] at hr
        cases hr
        have hf1 : mapFind st1.otmap key = some ⟨r.data, lli, dt.ssi⟩ := by
          rw [he]
          simp only
          rw [mapFind_mapSet, if_pos hk.symm]
        exact ih st1 _ hty2 hf1 (Or.inr hv)
    · have hf1 : mapFind st1.otmap key = some datum := by
        rcases otStep_shape cfg sat (some d) v XRsol st st1 p hst with ⟨_, he⟩ | ⟨dt, r, lli, _, _, he⟩
        · rw [he]
          exact hf
        · rw [he]
          simp only
          rw [mapFind_mapSet, if_neg (fun e => hk e.symm)]
          exact hf
      refine ih st1 datum hty2 hf1 ?_
      rcases hor with ⟨q, hq, hqk⟩ | hv
      · rcases List.mem_cons.mp hq with e | hq2
        · exact absurd (e ▸ hqk) hk
        · exact Or.inl ⟨q, hq2, hqk⟩
      · exact Or.inr hv

theorem computeOT_P3 (ot : RinexObsType) (sat : RinexSatID) (kt : Option RCData)
    (HaveR HaveP : Bool) (v : SatVars) (XRsol : Vec4) (reset : Bool) (B : BiasState) :
    computeOT "P3" ot sat kt HaveR HaveP v XRsol reset B =
      some (plainOT HaveR (if1r * (cached kt).P1 + if2r * (cached kt).P2) reset B) := by
  rfl

theorem computeOT_P4 (ot : RinexObsType) (sat : RinexSatID) (kt : Option RCData)
    (HaveR HaveP : Bool) (v : SatVars) (XRsol : Vec4) (reset : Bool) (B : BiasState) :
    computeOT "P4" ot sat kt HaveR HaveP v XRsol reset B =
      some (plainOT HaveR (gf1r * (cached kt).P1 + gf2r * (cached kt).P2) reset B) := by
  rfl

theorem haveR_some (d : RCData) (h1 : d.P1 ≠ 0) (h2 : d.P2 ≠ 0) : haveR (some d) = true := by
  simp [haveR, h1, h2]

theorem phaseTest_exConfig :
    phaseTest exConfig.rhead exConfig.inL1 exConfig.otL1 = some 2 ∧
    phaseTest exConfig.rhead exConfig.inL2 exConfig.otL2 = some 4 := by
  constructor <;> rfl

/-! ## Claims on the range combinations -/

/-- C9: for a satellite whose cached P1 and P2 are both nonzero, the loop of
`ComputeNewOTs` over the requested types ends with the value `if1r*P1 + if2r*P2` in the
field of P3, where `if1r = f1^2/(f1^2 - f2^2)` and `if2r = -f2^2/(f1^2 - f2^2)` with
`f1 = 154` and `f2 = 120`: a closed form of P1 and P2 only. The hypotheses say that the
run is defined (the indexes of the phase types lie in the header list), that P3 is
requested, that the requested types of another name have another observation type,
and that the record of the satellite has a field for P3. -/
theorem P3_value (cfg : Config) (sat : RinexSatID) (d : RCData) (v : SatVars)
    (XRsol : Vec4) (ps : List (String × RinexObsType)) (st : OTState) (ot : RinexObsType)
    (datum : RinexDatum) (t1 t2 : Nat) (hP1 : d.P1 ≠ 0) (hP2 : d.P2 ≠ 0)
    (h1 : phaseTest cfg.rhead cfg.inL1 cfg.otL1 = some t1)
    (h2 : phaseTest cfg.rhead cfg.inL2 cfg.otL2 = some t2)
    (hreq : ("P3", ot) ∈ ps)
    (hty : ∀ p ∈ ps, p.2.type = ot.type → p.1 = "P3")
    (hfield : mapFind st.otmap ot.type = some datum) :
    (∃ st1 datum1, otLoop cfg sat (some d) v XRsol ps st = some st1 ∧
      mapFind st1.otmap ot.type = some datum1 ∧
      datum1.data = if1r * d.P1 + if2r * d.P2) ∧
    if1r = 154 ^ 2 / (154 ^ 2 - 120 ^ 2) ∧ if2r = -(120 ^ 2) / (154 ^ 2 - 120 ^ 2) := by
  refine ⟨?_, ?_, ?_⟩
  · refine otLoop_field_value cfg sat d v XRsol "P3" ot.type _ t1 t2 h1 h2 ?_ ps st datum hty
      hfield (Or.inl ⟨("P3", ot), hreq, rfl⟩)
    intro ot2 reset B
    refine ⟨_, computeOT_P3 ot2 sat (some d) _ _ v XRsol reset B, ?_⟩
    rw [haveR_some d hP1 hP2]
    rfl
  · unfold if1r f12 f22 F1 F2 L1_MULT L2_MULT
    norm_num
  · unfold if2r f12 f22 F1 F2 L1_MULT L2_MULT
    norm_num

theorem P3_value_witness :
    (∃ st1 datum1, otLoop exConfig sat5 (some exData) exVars ⟨0, 0, 0, 0⟩ exTypes exState
        = some st1 ∧
      mapFind st1.otmap "P3" = some datum1 ∧
      datum1.data = if1r * exData.P1 + if2r * exData.P2) ∧
    if1r = 154 ^ 2 / (154 ^ 2 - 120 ^ 2) ∧ if2r = -(120 ^ 2) / (154 ^ 2 - 120 ^ 2) :=
  P3_value exConfig sat5 exData exVars ⟨0, 0, 0, 0⟩ exTypes exState ⟨"P3", 24⟩ ⟨0, 0, 0⟩ 2 4
    (by decide) (by decide) phaseTest_exConfig.1 phaseTest_exConfig.2 (by decide)
    (by decide) (by decide)

/-- C10: for a satellite whose cached P1 and P2 are both nonzero, the loop of
`ComputeNewOTs` over the requested types ends with the value `P2 - P1` in the field of
P4. The hypotheses say that the run is defined (the indexes of the phase types lie in
the header list), that P4 is requested, that the requested types of another name have
another observation type, and that the record of the satellite has a field for P4. -/
theorem P4_value (cfg : Config) (sat : RinexSatID) (d : RCData) (v : SatVars)
    (XRsol : Vec4) (ps : List (String × RinexObsType)) (st : OTState) (ot : RinexObsType)
    (datum : RinexDatum) (t1 t2 : Nat) (hP1 : d.P1 ≠ 0) (hP2 : d.P2 ≠ 0)
    (h1 : phaseTest cfg.rhead cfg.inL1 cfg.otL1 = some t1)
    (h2 : phaseTest cfg.rhead cfg.inL2 cfg.otL2 = some t2)
    (hreq : ("P4", ot) ∈ ps)
    (hty : ∀ p ∈ ps, p.2.type = ot.type → p.1 = "P4")
    (hfield : mapFind st.otmap ot.type = some datum) :
    ∃ st1 datum1, otLoop cfg sat (some d) v XRsol ps st = some st1 ∧
      mapFind st1.otmap ot.type = some datum1 ∧ datum1.data = d.P2 - d.P1 := by
  refine otLoop_field_value cfg sat d v XRsol "P4" ot.type _ t1 t2 h1 h2 ?_ ps st datum hty
    hfield (Or.inl ⟨("P4", ot), hreq, rfl⟩)
  intro ot2 reset B
  refine ⟨_, computeOT_P4 ot2 sat (some d) _ _ v XRsol reset B, ?_⟩
  rw [haveR_some d hP1 hP2]
  show (if true = true then gf1r * d.P1 + gf2r * d.P2 else 0) = d.P2 - d.P1
  rw [if_pos rfl]
  unfold gf1r gf2r
  ring

theorem P4_value_witness :
    ∃ st1 datum1, otLoop exConfig sat5 (some exData) exVars ⟨0, 0, 0, 0⟩ exTypes exState
        = some st1 ∧
      mapFind st1.otmap "P4" = some datum1 ∧ datum1.data = exData.P2 - exData.P1 :=
  P4_value exConfig sat5 exData exVars ⟨0, 0, 0, 0⟩ exTypes exState ⟨"P4", 24⟩ ⟨0, 0, 0⟩ 2 4
    (by decide) (by decide) phaseTest_exConfig.1 phaseTest_exConfig.2 (by decide)
    (by decide) (by decide)

theorem computeOT_RI (ot : RinexObsType) (sat : RinexSatID) (kt : Option RCData)
    (HaveR HaveP : Bool) (v : SatVars) (XRsol : Vec4) (reset : Bool) (B : BiasState) :
    computeOT "RI" ot sat kt HaveR HaveP v XRsol reset B =
      some (plainOT HaveR (((cached kt).P2 - (cached kt).P1) / alpha) reset B) := by
  rfl

theorem computeOT_XR (ot : RinexObsType) (sat : RinexSatID) (kt : Option RCData)
    (HaveR HaveP : Bool) (v : SatVars) (XRsol : Vec4) (reset : Bool) (B : BiasState) :
    computeOT "XR" ot sat kt HaveR HaveP v XRsol reset B =
      some ⟨HaveR && HaveP, if HaveR && HaveP then XRsol.x0 else 0,
        HaveR && HaveP && reset, reset, B⟩ := by
  rfl

theorem haveP_some (d : RCData) (h1 : d.L1 ≠ 0) (h2 : d.L2 ≠ 0) : haveP (some d) = true := by
  simp [haveP, h1, h2]

theorem alpha_ne_zero : alpha ≠ 0 := by
  unfold alpha f12 f22 F1 F2 L1_MULT L2_MULT
  norm_num

theorem DoXR_of_mem (ps : List (String × RinexObsType)) (ot : RinexObsType)
    (h : ("XR", ot) ∈ ps) : DoXR (ps.map Prod.fst) = true := by
  unfold DoXR
  rw [List.any_eq_true]
  exact ⟨"XR", List.mem_map.mpr ⟨("XR", ot), h, rfl⟩, by decide⟩

/-- C11: for a satellite whose cached P1 and P2 are both nonzero, the loop of
`ComputeNewOTs` over the requested types ends with the value `(P2 - P1)/alpha` in the
field of RI, where `alpha = f1^2/f2^2 - 1` with `f1 = 154` and `f2 = 120`; with
P1 = 20000000 and P2 = 20000005 this is `5/alpha`. The hypotheses say that the run is
defined (the indexes of the phase types lie in the header list), that RI is requested,
that the requested types of another name have another observation type, and that the
record of the satellite has a field for RI. -/
theorem RI_value (cfg : Config) (sat : RinexSatID) (d : RCData) (v : SatVars)
    (XRsol : Vec4) (ps : List (String × RinexObsType)) (st : OTState) (ot : RinexObsType)
    (datum : RinexDatum) (t1 t2 : Nat) (hP1 : d.P1 ≠ 0) (hP2 : d.P2 ≠ 0)
    (h1 : phaseTest cfg.rhead cfg.inL1 cfg.otL1 = some t1)
    (h2 : phaseTest cfg.rhead cfg.inL2 cfg.otL2 = some t2)
    (hreq : ("RI", ot) ∈ ps)
    (hty : ∀ p ∈ ps, p.2.type = ot.type → p.1 = "RI")
    (hfield : mapFind st.otmap ot.type = some datum) :
    (∃ st1 datum1, otLoop cfg sat (some d) v XRsol ps st = some st1 ∧
      mapFind st1.otmap ot.type = some datum1 ∧
      datum1.data = (d.P2 - d.P1) / alpha ∧
      (d.P1 = 20000000 → d.P2 = 20000005 → datum1.data = 5 / alpha)) ∧
    alpha = 154 ^ 2 / 120 ^ 2 - 1 := by
  refine ⟨?_, ?_⟩
  · obtain ⟨st1, datum1, hrun, hf, hv⟩ :=
      otLoop_field_value cfg sat d v XRsol "RI" ot.type ((d.P2 - d.P1) / alpha) t1 t2 h1 h2
        (by
          intro ot2 reset B
          refine ⟨_, computeOT_RI ot2 sat (some d) _ _ v XRsol reset B, ?_⟩
          rw [haveR_some d hP1 hP2]
          rfl)
        ps st datum hty hfield (Or.inl ⟨("RI", ot), hreq, rfl⟩)
    refine ⟨st1, datum1, hrun, hf, hv, ?_⟩
    intro e1 e2
    rw [hv, e1, e2]
    norm_num
  · unfold alpha f12 f22 F1 F2 L1_MULT L2_MULT
    norm_num

theorem RI_value_witness :
    (∃ st1 datum1, otLoop exConfig sat5 (some exData) exVars ⟨0, 0, 0, 0⟩ exTypesRI exStateRI
        = some st1 ∧
      mapFind st1.otmap "RI" = some datum1 ∧
      datum1.data = (exData.P2 - exData.P1) / alpha ∧
      (exData.P1 = 20000000 → exData.P2 = 20000005 → datum1.data = 5 / alpha)) ∧
    alpha = 154 ^ 2 / 120 ^ 2 - 1 :=
  RI_value exConfig sat5 exData exVars ⟨0, 0, 0, 0⟩ exTypesRI exStateRI ⟨"RI", 24⟩ ⟨0, 0, 0⟩ 2 4
    (by decide) (by decide) phaseTest_exConfig.1 phaseTest_exConfig.2 (by decide)
    (by decide) (by decide)

theorem computeXRsol_eq (d : RCData) (prev : Vec4) (hL1 : d.L1 ≠ 0) (hL2 : d.L2 ≠ 0)
    (hP1 : d.P1 ≠ 0) (hP2 : d.P2 ≠ 0) :
    computeXRsol true (some d) prev = specXRTransform d.L1 d.L2 d.P1 d.P2 := by
  unfold computeXRsol
  rw [haveR_some d hP1 hP2, haveP_some d hL1 hL2]
  simp only [Bool.and_self, if_true, cached, Option.getD_some, specXRTransform, rowTimes,
    XRM0, XRM1, XRM2, XRM3, rowOverAlpha, XRdat, Vec4.mk.injEq]
  refine ⟨?_, ?_, ?_, ?_⟩ <;> ring

/-- C12: for a satellite whose cached L1, L2, P1 and P2 are all nonzero, when XR is
requested the array `XRsol` that `ComputeNewOTs` computes is the matrix with rows
`[alpha+1, -1, 0, 0]`, `[1, -1, 0, 0]`, `[-(alpha+2), 2, alpha, 0]`,
`[-2(alpha+1), alpha+2, 0, alpha]`, each entry divided by alpha, applied to
`[wl1*L1, wl2*L2, P1, P2]`, whatever the array held before; and the loop over the
requested types ends with `((alpha+1)*wl1*L1 - wl2*L2)/alpha` in the field of XR. The
hypotheses say that the run is defined, that XR is requested, that the requested types
of another name have another observation type, and that the record has a field for XR. -/
theorem XRsol_value (cfg : Config) (sat : RinexSatID) (d : RCData) (v : SatVars)
    (prev : Vec4) (ps : List (String × RinexObsType)) (st : OTState) (ot : RinexObsType)
    (datum : RinexDatum) (t1 t2 : Nat) (hL1 : d.L1 ≠ 0) (hL2 : d.L2 ≠ 0)
    (hP1 : d.P1 ≠ 0) (hP2 : d.P2 ≠ 0)
    (h1 : phaseTest cfg.rhead cfg.inL1 cfg.otL1 = some t1)
    (h2 : phaseTest cfg.rhead cfg.inL2 cfg.otL2 = some t2)
    (hreq : ("XR", ot) ∈ ps)
    (hty : ∀ p ∈ ps, p.2.type = ot.type → p.1 = "XR")
    (hfield : mapFind st.otmap ot.type = some datum) :
    computeXRsol (DoXR (ps.map Prod.fst)) (some d) prev =
      specXRTransform d.L1 d.L2 d.P1 d.P2 ∧
    ∃ st1 datum1,
      otLoop cfg sat (some d) v (computeXRsol (DoXR (ps.map Prod.fst)) (some d) prev) ps st
        = some st1 ∧
      mapFind st1.otmap ot.type = some datum1 ∧
      datum1.data = ((alpha + 1) * wl1 * d.L1 - wl2 * d.L2) / alpha := by
  rw [DoXR_of_mem ps ot hreq, computeXRsol_eq d prev hL1 hL2 hP1 hP2]
  refine ⟨rfl, ?_⟩
  refine otLoop_field_value cfg sat d v _ "XR" ot.type _ t1 t2 h1 h2 ?_ ps st datum hty
    hfield (Or.inl ⟨("XR", ot), hreq, rfl⟩)
  intro ot2 reset B
  refine ⟨_, computeOT_XR ot2 sat (some d) _ _ v _ reset B, ?_⟩
  rw [haveR_some d hP1 hP2, haveP_some d hL1 hL2]
  simp only [Bool.and_self, if_true, specXRTransform]
  ring

theorem XRsol_value_witness :
    computeXRsol (DoXR (exTypesRI.map Prod.fst)) (some exData) ⟨0, 0, 0, 0⟩ =
      specXRTransform exData.L1 exData.L2 exData.P1 exData.P2 ∧
    ∃ st1 datum1,
      otLoop exConfig sat5 (some exData) exVars
          (computeXRsol (DoXR (exTypesRI.map Prod.fst)) (some exData) ⟨0, 0, 0, 0⟩)
          exTypesRI exStateRI = some st1 ∧
      mapFind st1.otmap "XR" = some datum1 ∧
      datum1.data = ((alpha + 1) * wl1 * exData.L1 - wl2 * exData.L2) / alpha :=
  XRsol_value exConfig sat5 exData exVars ⟨0, 0, 0, 0⟩ exTypesRI exStateRI ⟨"XR", 30⟩ ⟨0, 0, 0⟩
    2 4 (by decide) (by decide) (by decide) (by decide) phaseTest_exConfig.1
    phaseTest_exConfig.2 (by decide) (by decide) (by decide)

/-! ## The ephemeris block -/

theorem ephGeometry_facts (f : EphFlags) (env : EphEnv) (sat : RinexSatID) (inPS1 : Int)
    (base : SatVars) (r : Option (ℚ × CERData)) (pr : PrepResult)
    (hb : base.HaveEphThisSat = true) (hR : base.HaveEphRange = true)
    (hT : base.Tgd = 0) (hO : base.Obliq = 0)
    (h : ephGeometry f env sat inPS1 base r = some pr) :
    pr.inPS = inPS1 ∧
    (pr.vars.HaveEphRange = true → pr.vars.HaveEphThisSat = true) ∧
    (pr.vars.HaveEphRange = false → pr.vars.Tgd = 0 ∧ pr.vars.Obliq = 0) ∧
    (pr.vars.HaveEphThisSat = true →
      ∃ rho c, r = some (rho, c) ∧ pr.vars.svPosVel = c.svPosVel ∧
        pr.vars.HaveEphRange = true) := by
  unfold ephGeometry at h
  cases r with
  | none =>
    simp only [Option.some.injEq] at h
    subst h
    simp [hT, hO]
  | some rc =>
    obtain ⟨rho, c⟩ := rc
    simp only at h
    by_cases hel : f.minElev > 0 ∧ c.elevation < f.minElev
    · rw [if_pos hel] at h
      simp only [Option.some.injEq] at h
      subst h
      simp [hT, hO]
    · rw [if_neg hel] at h
      by_cases hbc : env.BCsize > 0
      · rw [if_pos hbc] at h
        cases hg : env.getTgd sat with
        | none =>
          rw [hg] at h
          exact Option.noConfusion h
        | some g =>
          rw [hg] at h
          simp only [Option.some.injEq] at h
          subst h
          exact ⟨rfl, fun _ => hb, fun hf => absurd (hR.symm.trans hf) (by decide),
            fun _ => ⟨rho, c, rfl, rfl, hR⟩⟩
      · rw [if_neg hbc] at h
        simp only [Option.some.injEq] at h
        subst h
        exact ⟨rfl, fun _ => hb, fun hf => absurd (hR.symm.trans hf) (by decide),
          fun _ => ⟨rho, c, rfl, rfl, hR⟩⟩

theorem ephPrep_facts (f : EphFlags) (env : EphEnv) (inPS : Int) (sat : RinexSatID)
    (prev : SatVars) (pr : PrepResult) (h : ephPrep f env inPS sat prev = some pr) :
    pr.inPS = (if f.doRAIM = true ∧ f.HaveRAIM = false then -1 else inPS) ∧
    (pr.vars.HaveEphRange = true → pr.vars.HaveEphThisSat = true ∧ pr.inPS > -1) ∧
    (pr.vars.HaveEphRange = false → pr.vars.Tgd = 0 ∧ pr.vars.Obliq = 0) ∧
    (pr.vars.HaveEphThisSat = true → pr.inPS > -1 →
      ∃ rho c, ephLookup env sat = some (rho, c) ∧ pr.vars.svPosVel = c.svPosVel ∧
        pr.vars.HaveEphRange = true) := by
  unfold ephPrep at h
  simp only at h
  generalize (if f.doRAIM = true ∧ f.HaveRAIM = false then (-1 : Int) else inPS) = inPS1 at h ⊢
  generalize (if f.inEP > -1 then true else prev.HaveEphThisSat) = hes at h
  by_cases hher : (hes && decide (inPS1 > -1)) = true
  · rw [if_pos hher] at h
    have hes1 : hes = true := by
      simp only [Bool.and_eq_true] at hher
      exact hher.1
    have hps1 : inPS1 > -1 := by
      simp only [Bool.and_eq_true, decide_eq_true_eq] at hher
      exact hher.2
    obtain ⟨e1, e2, e3, e4⟩ := ephGeometry_facts f env sat inPS1 _ _ pr hes1 hher rfl rfl h
    refine ⟨e1, fun hr => ⟨e2 hr, ?_⟩, e3, fun ht _ => e4 ht⟩
    rw [e1]
    exact hps1
  · rw [if_neg hher] at h
    simp only [Option.some.injEq] at h
    subst h
    simp only [Bool.not_eq_true] at hher
    refine ⟨rfl, ?_, ?_, ?_⟩
    · intro hr
      simp only [hher] at hr
      exact Bool.noConfusion hr
    · intro _
      exact ⟨rfl, rfl⟩
    · intro ht hp
      simp only at ht hp
      rw [ht] at hher
      simp only [Bool.true_and, decide_eq_false_iff_not] at hher
      exact absurd hp hher

theorem svxStep_facts (f : EphFlags) (env : EphEnv) (inPS : Int) (sat : RinexSatID)
    (v : SatVars) :
    (svxStep f env inPS sat v).HaveEphRange = v.HaveEphRange ∧
    (svxStep f env inPS sat v).Tgd = v.Tgd ∧
    (svxStep f env inPS sat v).Obliq = v.Obliq ∧
    ((svxStep f env inPS sat v).HaveEphThisSat = true → v.HaveEphThisSat = true) ∧
    (¬ (f.DoSVX = true ∧ v.HaveEphThisSat = true ∧ inPS = -1) →
      svxStep f env inPS sat v = v) ∧
    (f.DoSVX = true → v.HaveEphThisSat = true → inPS = -1 →
      (svxStep f env inPS sat v).HaveEphThisSat = true →
      ∃ p, (if env.SP3size ≠ 0 then env.xvtSP3 sat else env.xvtBC sat) = some p ∧
        (svxStep f env inPS sat v).svPosVel = p) := by
  unfold svxStep
  by_cases hc : f.DoSVX = true ∧ v.HaveEphThisSat = true ∧ inPS = -1
  · rw [if_pos hc]
    cases hx : (if env.SP3size ≠ 0 then env.xvtSP3 sat else env.xvtBC sat) with
    | none =>
      refine ⟨rfl, rfl, rfl, fun _ => hc.2.1, fun hn => absurd hc hn, ?_⟩
      intro _ _ _ hf
      exact Bool.noConfusion hf
    | some p =>
      exact ⟨rfl, rfl, rfl, fun _ => hc.2.1, fun hn => absurd hc hn, fun _ _ _ _ => ⟨p, rfl, rfl⟩⟩
  · rw [if_neg hc]
    refine ⟨rfl, rfl, rfl, fun h => h, fun _ => rfl, ?_⟩
    intro h1 h2 h3 _
    exact absurd ⟨h1, h2, h3⟩ hc

/-- After the ephemeris block and the satellite position block, `HaveEphRange` is set
only with `HaveEphThisSat`, and without `HaveEphRange` the group delay `Tgd` is 0. -/
theorem satVars_inv (f : EphFlags) (env : EphEnv) (inPS : Int) (sat : RinexSatID)
    (prev : SatVars) (pr : PrepResult) (h : ephPrep f env inPS sat prev = some pr) :
    ((svxStep f env pr.inPS sat pr.vars).HaveEphRange = true →
      (svxStep f env pr.inPS sat pr.vars).HaveEphThisSat = true) ∧
    ((svxStep f env pr.inPS sat pr.vars).HaveEphRange = false →
      (svxStep f env pr.inPS sat pr.vars).Tgd = 0) := by
  obtain ⟨_, e2, e3, _⟩ := ephPrep_facts f env inPS sat prev pr h
  obtain ⟨s1, s2, _, _, s5, _⟩ := svxStep_facts f env pr.inPS sat pr.vars
  constructor
  · intro hr
    rw [s1] at hr
    obtain ⟨ht, hp⟩ := e2 hr
    have hne : ¬ (f.DoSVX = true ∧ pr.vars.HaveEphThisSat = true ∧ pr.inPS = -1) := by
      rintro ⟨_, _, e⟩
      rw [e] at hp
      exact absurd hp (by decide)
    rw [s5 hne]
    exact ht
  · intro hr
    rw [s1] at hr
    rw [s2]
    exact (e3 hr).1

/-! ## Types with a missing input -/

/-- A type of the table of which an input is unavailable is not computed: its branch
leaves `ok` unset, stores nothing and does not call `removeBias`. -/
theorem computeOT_unavailable (name : String) (n : Needs)
    (hmem : (name, n) ∈ programNeedsTable) (ot : RinexObsType) (sat : RinexSatID)
    (d : RCData) (v : SatVars) (X : Vec4) (reset : Bool) (B : BiasState)
    (hinv : v.HaveEphRange = true → v.HaveEphThisSat = true)
    (hun : unavailable n d v) :
    ∃ r, computeOT name ot sat (some d) (haveR (some d)) (haveP (some d)) v X reset B = some r ∧
      r.ok = false ∧ r.data = 0 ∧ r.lliReset = false ∧ r.reset = reset ∧ r.AllBiases = B := by
  have hc : v.HaveEphThisSat = false → v.HaveEphRange = false := by
    intro h
    cases hR : v.HaveEphRange
    · rfl
    · rw [hinv hR] at h
      exact Bool.noConfusion h
  simp only [programNeedsTable, specNeedsTable, List.map_cons, List.map_nil] at hmem
  simp at hmem
  revert hun
  casesm* _ ∨ _, _ ∧ _
  all_goals subst_vars
  all_goals intro hun
  all_goals simp only [unavailable] at hun
  all_goals refine ⟨_, rfl, ?_⟩
  all_goals simp at hun
  all_goals
    first
    | (simp [plainOT, debiasedOT, haveR, haveP, hun]; done)
    | (rcases hun with h | h <;> simp [plainOT, debiasedOT, haveR, haveP, h]; done)
    | (rcases hun with h | h | h <;>
        first
        | (simp [plainOT, debiasedOT, haveR, haveP, h]; done)
        | (simp [plainOT, debiasedOT, haveR, haveP, h, hc h]; done))
    | (rcases hun with h | h | h | h <;> simp [plainOT, debiasedOT, haveR, haveP, h]; done)

theorem otStep_not_ok (cfg : Config) (sat : RinexSatID) (kt : Option RCData) (v : SatVars)
    (X : Vec4) (st : OTState) (p : String × RinexObsType) (datum : RinexDatum) (r : OTResult)
    (hf : mapFind st.otmap p.2.type = some datum)
    (hr : computeOT p.1 p.2 sat kt (haveR kt) (haveP kt) v X st.reset st.AllBiases = some r)
    (hok : r.ok = false) :
    otStep cfg sat kt v X st p =
      some ⟨mapSet strLt st.otmap p.2.type
        ⟨r.data, if r.lliReset then datum.lli ||| 1 else datum.lli, datum.ssi⟩,
        r.reset, r.AllBiases⟩ := by
  unfold otStep
  rw [hf]
  simp only
  rw [hr]
  simp only
  rw [if_pos hok]

theorem ephPrep_exEnvNone :
    ephPrep exFlags exEnvNone 1 sat5 exVars = some ⟨exVarsNone, 1, false⟩ := by
  rfl

theorem ephPrep_exEnvBC :
    ephPrep exFlags exEnvBC 1 sat5 exVars = some ⟨exVarsBC, 1, false⟩ := by
  rfl

theorem TECUperM_over_alpha : 5 * TECUperM / alpha ≠ 0 := by
  unfold TECUperM FL1 alpha f12 f22 F1 F2 L1_MULT L2_MULT
  norm_num


/-- C13, as stated with the inputs of the table of the specification, fails for SR:
the table lists the ephemeris among the inputs of SR, the satellite has no ephemeris
(the flags `HaveEphThisSat` and `HaveEphRange` are not set after the ephemeris block),
and with P1 = 20000000, P2 = 20000005 the field of SR is left with
`5*TECUperM/alpha`, which is not 0. -/
theorem SR_emitted_without_ephemeris :
    ("SR", (⟨false, false, true, true, .ephemeris⟩ : Needs)) ∈ specNeedsTable ∧
    ephPrep exFlags exEnvNone 1 sat5 exVars = some ⟨exVarsNone, 1, false⟩ ∧
    svxStep exFlags exEnvNone 1 sat5 exVarsNone = exVarsNone ∧
    unavailable ⟨false, false, true, true, .ephemeris⟩ exData exVarsNone ∧
    ∃ st1 datum1,
      otStep exConfig sat5 (some exData) exVarsNone ⟨0, 0, 0, 0⟩ exStateSR ("SR", ⟨"SR", 24⟩)
        = some st1 ∧
      mapFind st1.otmap "SR" = some datum1 ∧ datum1.data = 5 * TECUperM / alpha ∧
      datum1.data ≠ 0 := by
  refine ⟨by decide, ephPrep_exEnvNone, rfl, ?_, ?_⟩
  · unfold unavailable
    right; right; right; right; left
    exact ⟨rfl, rfl⟩
  · refine ⟨⟨[("SR", ⟨5 * TECUperM / alpha, 0, 0⟩), ("SX", ⟨0, 0, 0⟩), ("VP", ⟨0, 0, 0⟩)],
      false, []⟩, ⟨5 * TECUperM / alpha, 0, 0⟩, ?_, ?_, rfl, TECUperM_over_alpha⟩
    · simp [otStep, exStateSR, mapFind, mapSet, computeOT, plainOT, haveR, haveP, exData,
        cached, exVarsNone, phaseTest, phaseSlip, exConfig]
      norm_num
    · simp [mapFind]

/-- C13 (amended): for a requested type of the table that is present in the record of a
satellite with a cache entry, if an input that the type needs is unavailable after the
ephemeris block (a needed raw observable is 0.0 in the cache, the type needs the
ephemeris and `HaveEphThisSat` is not set, or it needs ephemeris and position and
`HaveEphRange` is not set), where the needs are those of the table of the specification
except that SR needs P1 and P2 only, then the loop body of `ComputeNewOTs` leaves the
value 0.0 in the field, leaves the loss-of-lock indicator and the signal strength of
the field as they were, and leaves `reset` and `AllBiases` as they were (it does not
call `removeBias`). -/
theorem missing_input_leaves_zero (cfg : Config) (f : EphFlags) (env : EphEnv) (inPS : Int)
    (sat : RinexSatID) (prev : SatVars) (pr : PrepResult) (d : RCData) (X : Vec4)
    (st : OTState) (p : String × RinexObsType) (n : Needs) (datum : RinexDatum)
    (hprep : ephPrep f env inPS sat prev = some pr)
    (hneeds : (p.1, n) ∈ programNeedsTable)
    (hun : unavailable n d (svxStep f env pr.inPS sat pr.vars))
    (hfield : mapFind st.otmap p.2.type = some datum) :
    ∃ st1, otStep cfg sat (some d) (svxStep f env pr.inPS sat pr.vars) X st p = some st1 ∧
      mapFind st1.otmap p.2.type = some ⟨0, datum.lli, datum.ssi⟩ ∧
      st1.reset = st.reset ∧ st1.AllBiases = st.AllBiases := by
  obtain ⟨hinv, _⟩ := satVars_inv f env inPS sat prev pr hprep
  obtain ⟨r, hr, hok, hdata, hlli, hreset, hB⟩ :=
    computeOT_unavailable p.1 n hneeds p.2 sat d (svxStep f env pr.inPS sat pr.vars) X
      st.reset st.AllBiases hinv hun
  refine ⟨_, otStep_not_ok cfg sat (some d) _ X st p datum r hfield hr hok, ?_, hreset, hB⟩
  simp only
  rw [mapFind_mapSet, if_pos rfl, hdata, hlli]
  rfl

theorem missing_input_leaves_zero_witness :
    ∃ st1, otStep exConfig sat5 (some exDataNoL1)
        (svxStep exFlags exEnvBC (1 : Int) sat5 exVarsBC) ⟨0, 0, 0, 0⟩ exStateSR
        ("VP", ⟨"VP", 102⟩) = some st1 ∧
      mapFind st1.otmap "VP" = some ⟨0, 0, 0⟩ ∧
      st1.reset = exStateSR.reset ∧ st1.AllBiases = exStateSR.AllBiases :=
  missing_input_leaves_zero exConfig exFlags exEnvBC 1 sat5 exVars ⟨exVarsBC, 1, false⟩
    exDataNoL1 ⟨0, 0, 0, 0⟩ exStateSR ("VP", ⟨"VP", 102⟩) ⟨true, true, false, false, .ephemeris⟩
    ⟨0, 0, 0⟩ ephPrep_exEnvBC (by decide) (Or.inl ⟨rfl, rfl⟩) (by decide)

/-! ## The blocks of one satellite -/

theorem computeSat_eq (cfg : Config) (f : EphFlags) (env : EphEnv)
    (ps : List (String × RinexObsType)) (DataStoreMap : List (RinexSatID × RCData))
    (inPS : Int) (prev : SatVars) (XRsol : Vec4) (st st1 : OTState) (sat : RinexSatID)
    (kt : Option RCData) (pr : PrepResult)
    (hkt : mapFind DataStoreMap sat = kt)
    (hprep : ephPrep f env inPS sat prev = some pr)
    (hloop : otLoop cfg sat kt (svxStep f env pr.inPS sat pr.vars)
      (computeXRsol f.DoXR kt XRsol) ps st = some st1) :
    computeSat cfg f env ps DataStoreMap inPS prev XRsol st sat =
      some ⟨st1.otmap, svxStep f env pr.inPS sat pr.vars, pr.inPS,
        computeXRsol f.DoXR kt XRsol, st1.reset, st1.AllBiases, pr.lowElev⟩ := by
  unfold computeSat
  simp only [hkt, hprep, hloop]

/-- The field of a requested type whose branch stores the value `val` holds `val` after
the blocks of the satellite, when no requested type of another name writes the same
field. -/
theorem computeSat_field_value (cfg : Config) (f : EphFlags) (env : EphEnv)
    (ps : List (String × RinexObsType)) (DataStoreMap : List (RinexSatID × RCData))
    (inPS : Int) (prev : SatVars) (XRsol : Vec4) (st : OTState) (sat : RinexSatID)
    (d : RCData) (pr : PrepResult) (name key : String) (val : ℚ) (t1 t2 : Nat)
    (datum : RinexDatum)
    (hkt : mapFind DataStoreMap sat = some d)
    (hprep : ephPrep f env inPS sat prev = some pr)
    (h1 : phaseTest cfg.rhead cfg.inL1 cfg.otL1 = some t1)
    (h2 : phaseTest cfg.rhead cfg.inL2 cfg.otL2 = some t2)
    (hbranch : ∀ ot reset B, ∃ r,
      computeOT name ot sat (some d) (haveR (some d)) (haveP (some d))
        (svxStep f env pr.inPS sat pr.vars) (computeXRsol f.DoXR (some d) XRsol) reset B
        = some r ∧ r.data = val)
    (hty : ∀ p ∈ ps, p.2.type = key → p.1 = name)
    (hfield : mapFind st.otmap key = some datum)
    (hreq : ∃ p ∈ ps, p.2.type = key) :
    ∃ res datum1, computeSat cfg f env ps DataStoreMap inPS prev XRsol st sat = some res ∧
      res.vars = svxStep f env pr.inPS sat pr.vars ∧ res.inPS = pr.inPS ∧
      mapFind res.otmap key = some datum1 ∧ datum1.data = val := by
  obtain ⟨st1, datum1, hloop, hf, hv⟩ :=
    otLoop_field_value cfg sat d (svxStep f env pr.inPS sat pr.vars)
      (computeXRsol f.DoXR (some d) XRsol) name key val t1 t2 h1 h2 hbranch ps st datum hty
      hfield (Or.inl hreq)
  exact ⟨_, datum1,
    computeSat_eq cfg f env ps DataStoreMap inPS prev XRsol st st1 sat (some d) pr hkt hprep
      hloop, rfl, rfl, hf, hv⟩

theorem computeOT_SR (ot : RinexObsType) (sat : RinexSatID) (kt : Option RCData)
    (HaveR HaveP : Bool) (v : SatVars) (XRsol : Vec4) (reset : Bool) (B : BiasState) :
    computeOT "SR" ot sat kt HaveR HaveP v XRsol reset B =
      some (plainOT HaveR (((cached kt).P2 - (cached kt).P1) * TECUperM / alpha - v.Tgd)
        reset B) := by
  rfl

/-- The field of SR after the blocks of a satellite with nonzero P1 and P2, whatever
the ephemeris flags are. -/
theorem SR_field (cfg : Config) (f : EphFlags) (env : EphEnv)
    (ps : List (String × RinexObsType)) (DataStoreMap : List (RinexSatID × RCData))
    (inPS : Int) (prev : SatVars) (XRsol : Vec4) (st : OTState) (sat : RinexSatID)
    (d : RCData) (pr : PrepResult) (ot : RinexObsType) (t1 t2 : Nat) (datum : RinexDatum)
    (hkt : mapFind DataStoreMap sat = some d)
    (hprep : ephPrep f env inPS sat prev = some pr)
    (hP1 : d.P1 ≠ 0) (hP2 : d.P2 ≠ 0)
    (h1 : phaseTest cfg.rhead cfg.inL1 cfg.otL1 = some t1)
    (h2 : phaseTest cfg.rhead cfg.inL2 cfg.otL2 = some t2)
    (hreq : ("SR", ot) ∈ ps)
    (hty : ∀ p ∈ ps, p.2.type = ot.type → p.1 = "SR")
    (hfield : mapFind st.otmap ot.type = some datum) :
    ∃ res datum1, computeSat cfg f env ps DataStoreMap inPS prev XRsol st sat = some res ∧
      mapFind res.otmap ot.type = some datum1 ∧
      datum1.data = (d.P2 - d.P1) * TECUperM / alpha - res.vars.Tgd ∧
      (res.vars.HaveEphRange = false → datum1.data = (d.P2 - d.P1) * TECUperM / alpha) := by
  obtain ⟨res, datum1, hres, hvars, _, hf, hv⟩ :=
    computeSat_field_value cfg f env ps DataStoreMap inPS prev XRsol st sat d pr "SR" ot.type
      ((d.P2 - d.P1) * TECUperM / alpha - (svxStep f env pr.inPS sat pr.vars).Tgd) t1 t2 datum
      hkt hprep h1 h2
      (by
        intro ot2 reset B
        refine ⟨_, computeOT_SR ot2 sat (some d) _ _ _ _ reset B, ?_⟩
        rw [haveR_some d hP1 hP2]
        rfl)
      hty hfield ⟨("SR", ot), hreq, rfl⟩
  refine ⟨res, datum1, hres, hf, by rw [hv, hvars], ?_⟩
  intro hr
  rw [hvars] at hr
  rw [hv, (satVars_inv f env inPS sat prev pr hprep).2 hr, sub_zero]

/-! ## Claims on SR, VP and SX, SY, SZ -/

/-- C14, as stated, fails: the branch of SR tests `HaveR` only. With P1 = 20000000 and
P2 = 20000005 in the cache and no ephemeris for the satellite (`HaveEphThisSat` and
`HaveEphRange` are not set after the ephemeris block), the blocks of the satellite
leave `5*TECUperM/alpha` in the field of SR, which is not 0. -/
theorem SR_field_without_ephemeris :
    ∃ res datum1,
      computeSat exConfig exFlags exEnvNone exTypesSR [(sat5, exData)] 1 exVars ⟨0, 0, 0, 0⟩
        exStateSR sat5 = some res ∧
      res.vars.HaveEphThisSat = false ∧ res.vars.HaveEphRange = false ∧
      mapFind res.otmap "SR" = some datum1 ∧ datum1.data = 5 * TECUperM / alpha ∧
      datum1.data ≠ 0 := by
  obtain ⟨res, datum1, hres, hvars, _, hf, hv⟩ :=
    computeSat_field_value exConfig exFlags exEnvNone exTypesSR [(sat5, exData)] 1 exVars
      ⟨0, 0, 0, 0⟩ exStateSR sat5 exData ⟨exVarsNone, 1, false⟩ "SR" "SR"
      (5 * TECUperM / alpha) 2 4 ⟨0, 0, 0⟩ (by decide) ephPrep_exEnvNone
      phaseTest_exConfig.1 phaseTest_exConfig.2
      (by
        intro ot2 reset B
        refine ⟨_, computeOT_SR ot2 sat5 (some exData) _ _ _ _ reset B, ?_⟩
        simp [plainOT, haveR, exData, cached, svxStep, exVarsNone]
        norm_num)
      (by decide) (by decide) ⟨("SR", ⟨"SR", 24⟩), by decide, rfl⟩
  refine ⟨res, datum1, hres, ?_, ?_, hf, hv, ?_⟩
  · rw [hvars]
    rfl
  · rw [hvars]
    rfl
  · rw [hv]
    exact TECUperM_over_alpha

/-- C14 (amended): SR requires P1 and P2 only. For a satellite whose cached P1 and P2
are both nonzero, the blocks of `ComputeNewOTs` for the satellite leave
`(P2 - P1)*TECUperM/alpha - Tgd` in the field of SR, where `Tgd` is the group delay
that the ephemeris block obtained and is 0 when the block did not obtain the range
geometry (`HaveEphRange` not set), so that the field then holds
`(P2 - P1)*TECUperM/alpha`. The hypotheses say that the satellite has the cache entry
`d`, that the run is defined (no exception leaves the ephemeris block, the indexes of
the phase types lie in the header list), that SR is requested, that the requested
types of another name have another observation type, and that the record has a field
for SR. -/
theorem SR_value (cfg : Config) (f : EphFlags) (env : EphEnv)
    (ps : List (String × RinexObsType)) (DataStoreMap : List (RinexSatID × RCData))
    (inPS : Int) (prev : SatVars) (XRsol : Vec4) (st : OTState) (sat : RinexSatID)
    (d : RCData) (pr : PrepResult) (ot : RinexObsType) (t1 t2 : Nat) (datum : RinexDatum)
    (hkt : mapFind DataStoreMap sat = some d)
    (hprep : ephPrep f env inPS sat prev = some pr)
    (hP1 : d.P1 ≠ 0) (hP2 : d.P2 ≠ 0)
    (h1 : phaseTest cfg.rhead cfg.inL1 cfg.otL1 = some t1)
    (h2 : phaseTest cfg.rhead cfg.inL2 cfg.otL2 = some t2)
    (hreq : ("SR", ot) ∈ ps)
    (hty : ∀ p ∈ ps, p.2.type = ot.type → p.1 = "SR")
    (hfield : mapFind st.otmap ot.type = some datum) :
    ∃ res datum1, computeSat cfg f env ps DataStoreMap inPS prev XRsol st sat = some res ∧
      mapFind res.otmap ot.type = some datum1 ∧
      datum1.data = (d.P2 - d.P1) * TECUperM / alpha - res.vars.Tgd ∧
      (res.vars.HaveEphRange = false → datum1.data = (d.P2 - d.P1) * TECUperM / alpha) :=
  SR_field cfg f env ps DataStoreMap inPS prev XRsol st sat d pr ot t1 t2 datum hkt hprep
    hP1 hP2 h1 h2 hreq hty hfield

theorem SR_value_witness :
    ∃ res datum1,
      computeSat exConfig exFlags exEnvBC exTypesSR [(sat5, exData)] 1 exVars ⟨0, 0, 0, 0⟩
        exStateSR sat5 = some res ∧
      mapFind res.otmap "SR" = some datum1 ∧
      datum1.data = (exData.P2 - exData.P1) * TECUperM / alpha - res.vars.Tgd ∧
      (res.vars.HaveEphRange = false →
        datum1.data = (exData.P2 - exData.P1) * TECUperM / alpha) :=
  SR_value exConfig exFlags exEnvBC exTypesSR [(sat5, exData)] 1 exVars ⟨0, 0, 0, 0⟩
    exStateSR sat5 exData ⟨exVarsBC, 1, false⟩ ⟨"SR", 24⟩ 2 4 ⟨0, 0, 0⟩ (by decide)
    ephPrep_exEnvBC (by decide) (by decide) phaseTest_exConfig.1 phaseTest_exConfig.2
    (by decide) (by decide) (by decide)

theorem computeOT_VP (ot : RinexObsType) (sat : RinexSatID) (kt : Option RCData)
    (HaveR HaveP : Bool) (v : SatVars) (XRsol : Vec4) (reset : Bool) (B : BiasState) :
    computeOT "VP" ot sat kt HaveR HaveP v XRsol reset B =
      some (debiasedOT (HaveP && v.HaveEphRange) ot sat
        (((wl1 * (cached kt).L1 - wl2 * (cached kt).L2) * TECUperM / alpha - v.Tgd) * v.Obliq)
        reset B) := by
  rfl

theorem computeOT_SP (ot : RinexObsType) (sat : RinexSatID) (kt : Option RCData)
    (HaveR HaveP : Bool) (v : SatVars) (XRsol : Vec4) (reset : Bool) (B : BiasState) :
    computeOT "SP" ot sat kt HaveR HaveP v XRsol reset B =
      some (debiasedOT HaveP ot sat
        ((wl1 * (cached kt).L1 - wl2 * (cached kt).L2) * TECUperM / alpha) reset B) := by
  rfl

theorem exVarsBC_Tgd_ne : exVarsBC.Tgd * exVarsBC.Obliq ≠ 0 := by
  simp [exVarsBC, C_GPS_M]

/-- C15, as stated, fails when the group delay is not 0: with the group delay
`C_GPS_M * 1e-8` and the obliquity 1/2 the branch of VP passes
`((wl1*L1 - wl2*L2)*TECUperM/alpha - Tgd) * Obliq` to `removeBias`, which differs from
the raw SP value times the obliquity; with no bias limit for VP this value is left
in the field of VP unchanged. -/
theorem VP_raw_with_group_delay :
    computeOT "VP" ⟨"VP", 102⟩ sat5 (some exData) (haveR (some exData)) (haveP (some exData))
        exVarsBC ⟨0, 0, 0, 0⟩ false [] =
      some (debiasedOT true ⟨"VP", 102⟩ sat5
        (((wl1 * exData.L1 - wl2 * exData.L2) * TECUperM / alpha - exVarsBC.Tgd)
          * exVarsBC.Obliq) false []) ∧
    ((wl1 * exData.L1 - wl2 * exData.L2) * TECUperM / alpha - exVarsBC.Tgd) * exVarsBC.Obliq ≠
      (wl1 * exData.L1 - wl2 * exData.L2) * TECUperM / alpha * exVarsBC.Obliq ∧
    (debiasedOT true ⟨"VP", 102⟩ sat5
        (((wl1 * exData.L1 - wl2 * exData.L2) * TECUperM / alpha - exVarsBC.Tgd)
          * exVarsBC.Obliq) false []).data =
      ((wl1 * exData.L1 - wl2 * exData.L2) * TECUperM / alpha - exVarsBC.Tgd)
        * exVarsBC.Obliq := by
  refine ⟨?_, ?_, ?_⟩
  · rw [computeOT_VP]
    rfl
  · intro h
    apply exVarsBC_Tgd_ne
    linear_combination -h
  · simp [debiasedOT, removeBias, mapFind, convertObsType, sat5]

/-- C15 (amended): for a satellite with nonzero cached L1 and L2 and with the range
geometry obtained (`HaveEphRange` set), the raw value that the branch of VP passes to
`removeBias` is `((wl1*L1 - wl2*L2)*TECUperM/alpha - Tgd) * Obliq`: the raw value of SP,
`(wl1*L1 - wl2*L2)*TECUperM/alpha`, times the obliquity, less `Tgd * Obliq`. It is the
raw SP value times the obliquity exactly when `Tgd * Obliq = 0`. -/
theorem VP_raw_value (ot : RinexObsType) (sat : RinexSatID) (d : RCData) (v : SatVars)
    (X : Vec4) (reset : Bool) (B : BiasState) (hL1 : d.L1 ≠ 0) (hL2 : d.L2 ≠ 0)
    (hgeo : v.HaveEphRange = true) :
    computeOT "VP" ot sat (some d) (haveR (some d)) (haveP (some d)) v X reset B =
      some (debiasedOT true ot sat
        (((wl1 * d.L1 - wl2 * d.L2) * TECUperM / alpha - v.Tgd) * v.Obliq) reset B) ∧
    computeOT "SP" ot sat (some d) (haveR (some d)) (haveP (some d)) v X reset B =
      some (debiasedOT true ot sat ((wl1 * d.L1 - wl2 * d.L2) * TECUperM / alpha) reset B) ∧
    ((wl1 * d.L1 - wl2 * d.L2) * TECUperM / alpha - v.Tgd) * v.Obliq =
      (wl1 * d.L1 - wl2 * d.L2) * TECUperM / alpha * v.Obliq - v.Tgd * v.Obliq ∧
    (((wl1 * d.L1 - wl2 * d.L2) * TECUperM / alpha - v.Tgd) * v.Obliq =
        (wl1 * d.L1 - wl2 * d.L2) * TECUperM / alpha * v.Obliq ↔
      v.Tgd * v.Obliq = 0) := by
  refine ⟨?_, ?_, by ring, ?_⟩
  · rw [computeOT_VP, haveP_some d hL1 hL2, hgeo]
    rfl
  · rw [computeOT_SP, haveP_some d hL1 hL2]
    rfl
  · constructor
    · intro h
      linear_combination -h
    · intro h
      linear_combination -h

theorem VP_raw_value_witness :
    computeOT "VP" ⟨"VP", 102⟩ sat5 (some exData) (haveR (some exData)) (haveP (some exData))
        exVarsBC ⟨0, 0, 0, 0⟩ false [] =
      some (debiasedOT true ⟨"VP", 102⟩ sat5
        (((wl1 * exData.L1 - wl2 * exData.L2) * TECUperM / alpha - exVarsBC.Tgd)
          * exVarsBC.Obliq) false []) ∧
    computeOT "SP" ⟨"VP", 102⟩ sat5 (some exData) (haveR (some exData)) (haveP (some exData))
        exVarsBC ⟨0, 0, 0, 0⟩ false [] =
      some (debiasedOT true ⟨"VP", 102⟩ sat5
        ((wl1 * exData.L1 - wl2 * exData.L2) * TECUperM / alpha) false []) ∧
    ((wl1 * exData.L1 - wl2 * exData.L2) * TECUperM / alpha - exVarsBC.Tgd) * exVarsBC.Obliq =
      (wl1 * exData.L1 - wl2 * exData.L2) * TECUperM / alpha * exVarsBC.Obliq
        - exVarsBC.Tgd * exVarsBC.Obliq ∧
    (((wl1 * exData.L1 - wl2 * exData.L2) * TECUperM / alpha - exVarsBC.Tgd) * exVarsBC.Obliq =
        (wl1 * exData.L1 - wl2 * exData.L2) * TECUperM / alpha * exVarsBC.Obliq ↔
      exVarsBC.Tgd * exVarsBC.Obliq = 0) :=
  VP_raw_value ⟨"VP", 102⟩ sat5 exData exVarsBC ⟨0, 0, 0, 0⟩ false [] (by decide) (by decide)
    rfl

theorem computeOT_SXYZ (name : String) (comp : Position → ℚ)
    (hname : (name, comp) ∈ [("SX", Position.X), ("SY", Position.Y), ("SZ", Position.Z)])
    (ot : RinexObsType) (sat : RinexSatID) (kt : Option RCData)
    (HaveR HaveP : Bool) (v : SatVars) (XRsol : Vec4) (reset : Bool) (B : BiasState) :
    computeOT name ot sat kt HaveR HaveP v XRsol reset B =
      some (plainOT (HaveP && v.HaveEphThisSat) (comp v.svPosVel) reset B) := by
  simp only [List.mem_cons, Prod.mk.injEq, List.mem_singleton, List.not_mem_nil,
    or_false] at hname
  rcases hname with ⟨hn, hc⟩ | ⟨hn, hc⟩ | ⟨hn, hc⟩ <;> subst hn <;> subst hc <;> rfl

theorem DoSVX_of_mem (ps : List (String × RinexObsType)) (name : String)
    (comp : Position → ℚ) (ot : RinexObsType)
    (hname : (name, comp) ∈ [("SX", Position.X), ("SY", Position.Y), ("SZ", Position.Z)])
    (h : (name, ot) ∈ ps) : DoSVX (ps.map Prod.fst) = true := by
  unfold DoSVX
  rw [List.any_eq_true]
  refine ⟨name, List.mem_map.mpr ⟨(name, ot), h, rfl⟩, ?_⟩
  simp only [List.mem_cons, Prod.mk.injEq, List.mem_singleton, List.not_mem_nil,
    or_false] at hname
  rcases hname with ⟨hn, _⟩ | ⟨hn, _⟩ | ⟨hn, _⟩ <;> subst hn <;> decide

/-- C16, as stated, fails: the branches of SX, SY and SZ test `HaveP && HaveEphThisSat`.
For a satellite whose cached L1 is 0 and whose ephemeris is available (after the
blocks `HaveEphThisSat` is set and the position of the satellite has the X component
15000000), the field of SX is left with 0. -/
theorem SX_not_emitted_without_phase :
    ∃ res datum1,
      computeSat exConfig exFlags exEnvBC exTypesSR [(sat5, exDataNoL1)] 1 exVars
        ⟨0, 0, 0, 0⟩ exStateSR sat5 = some res ∧
      res.vars.HaveEphThisSat = true ∧ res.vars.svPosVel.X = 15000000 ∧
      mapFind res.otmap "SX" = some datum1 ∧ datum1.data = 0 := by
  obtain ⟨res, datum1, hres, hvars, _, hf, hv⟩ :=
    computeSat_field_value exConfig exFlags exEnvBC exTypesSR [(sat5, exDataNoL1)] 1 exVars
      ⟨0, 0, 0, 0⟩ exStateSR sat5 exDataNoL1 ⟨exVarsBC, 1, false⟩ "SX" "SX" 0 2 4 ⟨0, 0, 0⟩
      (by decide) ephPrep_exEnvBC phaseTest_exConfig.1 phaseTest_exConfig.2
      (by
        intro ot2 reset B
        refine ⟨_, computeOT_SXYZ "SX" Position.X (by simp) ot2 sat5 (some exDataNoL1)
          _ _ _ _ reset B, ?_⟩
        simp [plainOT, haveP, exDataNoL1])
      (by decide) (by decide) ⟨("SX", ⟨"SX", 32⟩), by decide, rfl⟩
  refine ⟨res, datum1, hres, ?_, ?_, hf, hv⟩
  · rw [hvars]
    rfl
  · rw [hvars]
    rfl

/-- C16 (amended): SX, SY and SZ need the ephemeris and both carrier phases. For a
satellite with a cache entry `d`, the blocks of `ComputeNewOTs` for the satellite leave
in the field of SX (SY, SZ) the X (Y, Z) component of the satellite position
`CER.svPosVel` when the cached L1 and L2 are both nonzero and `HaveEphThisSat` is set
after the blocks, and 0 otherwise, whatever the pseudoranges are. With
`HaveEphThisSat` set, the position is the one of the range computation of the
ephemeris block when the receiver position is available (`inPS > -1`), and the one of
`getSatXvt` when it is not (`inPS = -1`). The hypotheses say that the run is defined,
that `DoSVX` is the flag that `PrepareInput` sets for the requested types, that the
type is requested, that the requested types of another name have another observation
type, and that the record has a field for the type. -/
theorem SXYZ_value (cfg : Config) (f : EphFlags) (env : EphEnv)
    (ps : List (String × RinexObsType)) (DataStoreMap : List (RinexSatID × RCData))
    (inPS : Int) (prev : SatVars) (XRsol : Vec4) (st : OTState) (sat : RinexSatID)
    (d : RCData) (pr : PrepResult) (name : String) (comp : Position → ℚ)
    (ot : RinexObsType) (t1 t2 : Nat) (datum : RinexDatum)
    (hname : (name, comp) ∈ [("SX", Position.X), ("SY", Position.Y), ("SZ", Position.Z)])
    (hkt : mapFind DataStoreMap sat = some d)
    (hprep : ephPrep f env inPS sat prev = some pr)
    (hflag : f.DoSVX = DoSVX (ps.map Prod.fst))
    (h1 : phaseTest cfg.rhead cfg.inL1 cfg.otL1 = some t1)
    (h2 : phaseTest cfg.rhead cfg.inL2 cfg.otL2 = some t2)
    (hreq : (name, ot) ∈ ps)
    (hty : ∀ p ∈ ps, p.2.type = ot.type → p.1 = name)
    (hfield : mapFind st.otmap ot.type = some datum) :
    ∃ res datum1, computeSat cfg f env ps DataStoreMap inPS prev XRsol st sat = some res ∧
      mapFind res.otmap ot.type = some datum1 ∧
      datum1.data =
        (if (d.L1 ≠ 0 ∧ d.L2 ≠ 0) ∧ res.vars.HaveEphThisSat = true
          then comp res.vars.svPosVel else 0) ∧
      (res.vars.HaveEphThisSat = true → res.inPS > -1 →
        ∃ rho c, ephLookup env sat = some (rho, c) ∧ res.vars.svPosVel = c.svPosVel) ∧
      (res.vars.HaveEphThisSat = true → res.inPS = -1 →
        ∃ p, (if env.SP3size ≠ 0 then env.xvtSP3 sat else env.xvtBC sat) = some p ∧
          res.vars.svPosVel = p) := by
  obtain ⟨res, datum1, hres, hvars, hps, hf, hv⟩ :=
    computeSat_field_value cfg f env ps DataStoreMap inPS prev XRsol st sat d pr name ot.type
      (if (haveP (some d) && (svxStep f env pr.inPS sat pr.vars).HaveEphThisSat) = true
        then comp (svxStep f env pr.inPS sat pr.vars).svPosVel else 0) t1 t2 datum
      hkt hprep h1 h2
      (by
        intro ot2 reset B
        exact ⟨_, computeOT_SXYZ name comp hname ot2 sat (some d) _ _ _ _ reset B, rfl⟩)
      hty hfield ⟨(name, ot), hreq, rfl⟩
  obtain ⟨_, _, _, s4, s5, s6⟩ := svxStep_facts f env pr.inPS sat pr.vars
  obtain ⟨_, _, _, e4⟩ := ephPrep_facts f env inPS sat prev pr hprep
  refine ⟨res, datum1, hres, hf, ?_, ?_, ?_⟩
  · rw [hv, hvars]
    simp only [haveP, Bool.and_eq_true, decide_eq_true_eq]
  · intro ht hp
    rw [hvars] at ht ⊢
    rw [hps] at hp
    have hno : ¬ (f.DoSVX = true ∧ pr.vars.HaveEphThisSat = true ∧ pr.inPS = -1) := by
      intro hc
      rw [hc.2.2] at hp
      exact absurd hp (by decide)
    rw [s5 hno] at ht ⊢
    obtain ⟨rho, c, hl, hc, _⟩ := e4 ht hp
    exact ⟨rho, c, hl, hc⟩
  · intro ht hp
    rw [hvars] at ht ⊢
    rw [hps] at hp
    exact s6 (hflag.trans (DoSVX_of_mem ps name comp ot hname hreq)) (s4 ht) hp ht

theorem SXYZ_value_witness :
    ∃ res datum1,
      computeSat exConfig exFlags exEnvBC exTypesSR [(sat5, exData)] 1 exVars ⟨0, 0, 0, 0⟩
        exStateSR sat5 = some res ∧
      mapFind res.otmap "SX" = some datum1 ∧
      datum1.data =
        (if (exData.L1 ≠ 0 ∧ exData.L2 ≠ 0) ∧ res.vars.HaveEphThisSat = true
          then res.vars.svPosVel.X else 0) ∧
      (res.vars.HaveEphThisSat = true → res.inPS > -1 →
        ∃ rho c, ephLookup exEnvBC sat5 = some (rho, c) ∧ res.vars.svPosVel = c.svPosVel) ∧
      (res.vars.HaveEphThisSat = true → res.inPS = -1 →
        ∃ p, (if exEnvBC.SP3size ≠ 0 then exEnvBC.xvtSP3 sat5 else exEnvBC.xvtBC sat5)
            = some p ∧
          res.vars.svPosVel = p) :=
  SXYZ_value exConfig exFlags exEnvBC exTypesSR [(sat5, exData)] 1 exVars ⟨0, 0, 0, 0⟩
    exStateSR sat5 exData ⟨exVarsBC, 1, false⟩ "SX" Position.X ⟨"SX", 32⟩ 2 4 ⟨0, 0, 0⟩
    (by simp) (by decide) ephPrep_exEnvBC (by decide) phaseTest_exConfig.1
    phaseTest_exConfig.2 (by decide) (by decide) (by decide)

/-! ## The loss-of-lock indicators -/

theorem testBit_or_one (c : Bool) (x i : Nat) (h : x.testBit i = true) :
    (if c = true then x ||| 1 else x).testBit i = true := by
  split_ifs
  · rw [Nat.testBit_lor, h]
    rfl
  · exact h

theorem testBit_zero_or_one (x : Nat) : (x ||| 1).testBit 0 = true := by
  rw [Nat.testBit_lor]
  simp

/-- The loss-of-lock indicator that the loop body leaves in the field of its type. -/
theorem otStep_cases (cfg : Config) (sat : RinexSatID) (kt : Option RCData) (v : SatVars)
    (XRsol : Vec4) (st st1 : OTState) (p : String × RinexObsType)
    (h : otStep cfg sat kt v XRsol st p = some st1) :
    (mapFind st.otmap p.2.type = none ∧ st1 = st) ∨
    ∃ datum r, mapFind st.otmap p.2.type = some datum ∧
      computeOT p.1 p.2 sat kt (haveR kt) (haveP kt) v XRsol st.reset st.AllBiases = some r ∧
      ((r.ok = false ∧
        st1 = ⟨mapSet strLt st.otmap p.2.type
          ⟨r.data, if r.lliReset = true then datum.lli ||| 1 else datum.lli, datum.ssi⟩,
          r.reset, r.AllBiases⟩) ∨
       (r.ok = true ∧ ∃ t1 t2 s1 s2,
        phaseTest cfg.rhead cfg.inL1 cfg.otL1 = some t1 ∧
        phaseSlip p.2 t1 (kt.map fun c => c.LL1) = some s1 ∧
        phaseTest cfg.rhead cfg.inL2 cfg.otL2 = some t2 ∧
        phaseSlip p.2 t2 (kt.map fun c => c.LL2) = some s2 ∧
        st1 = ⟨mapSet strLt st.otmap p.2.type
          ⟨r.data,
            if s2 = true then
              (if s1 = true then
                (if r.lliReset = true then datum.lli ||| 1 else datum.lli) ||| 1
               else (if r.lliReset = true then datum.lli ||| 1 else datum.lli)) ||| 1
            else
              (if s1 = true then
                (if r.lliReset = true then datum.lli ||| 1 else datum.lli) ||| 1
               else (if r.lliReset = true then datum.lli ||| 1 else datum.lli)),
            datum.ssi⟩,
          r.reset, r.AllBiases⟩)) := by
  unfold otStep at h
  cases hf : mapFind st.otmap p.2.type with
  | none =>
    rw [hf] at h
    simp only [Option.some.injEq] at h
    exact Or.inl ⟨rfl, h.symm⟩
  | some datum =>
    rw [hf] at h
    simp only at h
    cases hr : computeOT p.1 p.2 sat kt (haveR kt) (haveP kt) v XRsol st.reset st.AllBiases with
    | none =>
      rw [hr] at h
      exact Option.noConfusion h
    | some r =>
      rw [hr] at h
      simp only at h
      right
      by_cases hok : r.ok = false
      · rw [if_pos hok] at h
        simp only [Option.some.injEq] at h
        exact ⟨datum, r, rfl, rfl, Or.inl ⟨hok, h.symm⟩⟩
      · rw [if_neg hok] at h
        cases ht1 : phaseTest cfg.rhead cfg.inL1 cfg.otL1 with
        | none =>
          rw [ht1] at h
          exact Option.noConfusion h
        | some t1 =>
          rw [ht1] at h
          simp only at h
          cases hs1 : phaseSlip p.2 t1 (kt.map fun c => c.LL1) with
          | none =>
            rw [hs1] at h
            exact Option.noConfusion h
          | some s1 =>
            rw [hs1] at h
            simp only at h
            cases ht2 : phaseTest cfg.rhead cfg.inL2 cfg.otL2 with
            | none =>
              rw [ht2] at h
              exact Option.noConfusion h
            | some t2 =>
              rw [ht2] at h
              simp only at h
              cases hs2 : phaseSlip p.2 t2 (kt.map fun c => c.LL2) with
              | none =>
                rw [hs2] at h
                exact Option.noConfusion h
              | some s2 =>
                rw [hs2] at h
                simp only [Option.some.injEq] at h
                simp only [Bool.not_eq_false] at hok
                exact ⟨datum, r, rfl, rfl, Or.inr ⟨hok, t1, t2, s1, s2, rfl, hs1, rfl, hs2,
                  h.symm⟩⟩

theorem otStep_lli_mono (cfg : Config) (sat : RinexSatID) (kt : Option RCData) (v : SatVars)
    (XRsol : Vec4) (st st1 : OTState) (p : String × RinexObsType)
    (h : otStep cfg sat kt v XRsol st p = some st1) (key : String) (dat : RinexDatum)
    (hf : mapFind st.otmap key = some dat) :
    ∃ dat2, mapFind st1.otmap key = some dat2 ∧
      ∀ i, dat.lli.testBit i = true → dat2.lli.testBit i = true := by
  rcases otStep_cases cfg sat kt v XRsol st st1 p h with
    ⟨_, he⟩ | ⟨datum, r, hd, _, ⟨_, he⟩ | ⟨_, t1, t2, s1, s2, _, _, _, _, he⟩⟩
  · rw [he]
    exact ⟨dat, hf, fun _ hi => hi⟩
  · rw [he]
    simp only
    rw [mapFind_mapSet]
    by_cases hk : key = p.2.type
    · rw [if_pos hk]
      rw [hk, hd] at hf
      cases hf
      exact ⟨_, rfl, fun i hi => testBit_or_one _ _ i hi⟩
    · rw [if_neg hk]
      exact ⟨dat, hf, fun _ hi => hi⟩
  · rw [he]
    simp only
    rw [mapFind_mapSet]
    by_cases hk : key = p.2.type
    · rw [if_pos hk]
      rw [hk, hd] at hf
      cases hf
      exact ⟨_, rfl, fun i hi =>
        testBit_or_one s2 _ i (testBit_or_one s1 _ i (testBit_or_one _ _ i hi))⟩
    · rw [if_neg hk]
      exact ⟨dat, hf, fun _ hi => hi⟩

theorem otLoop_lli_mono (cfg : Config) (sat : RinexSatID) (kt : Option RCData) (v : SatVars)
    (XRsol : Vec4) (key : String) :
    ∀ (ps : List (String × RinexObsType)) (st st1 : OTState) (dat : RinexDatum),
      otLoop cfg sat kt v XRsol ps st = some st1 →
      mapFind st.otmap key = some dat →
      ∃ dat2, mapFind st1.otmap key = some dat2 ∧
        ∀ i, dat.lli.testBit i = true → dat2.lli.testBit i = true := by
  intro ps
  induction ps with
  | nil =>
    intro st st1 dat h hf
    rw [otLoop] at h
    cases h
    exact ⟨dat, hf, fun _ hi => hi⟩
  | cons p ps ih =>
    intro st st1 dat h hf
    rw [otLoop] at h
    cases hs : otStep cfg sat kt v XRsol st p with
    | none =>
      rw [hs] at h
      exact Option.noConfusion h
    | some stm =>
      rw [hs] at h
      simp only at h
      obtain ⟨dm, hdm, hmono⟩ := otStep_lli_mono cfg sat kt v XRsol st stm p hs key dat hf
      obtain ⟨d2, hd2, hmono2⟩ := ih stm st1 dm h hdm
      exact ⟨d2, hd2, fun i hi => hmono2 i (hmono i hi)⟩

theorem otLoop_append (cfg : Config) (sat : RinexSatID) (kt : Option RCData) (v : SatVars)
    (XRsol : Vec4) (rest : List (String × RinexObsType)) :
    ∀ (pre : List (String × RinexObsType)) (st stm : OTState),
      otLoop cfg sat kt v XRsol pre st = some stm →
      otLoop cfg sat kt v XRsol (pre ++ rest) st = otLoop cfg sat kt v XRsol rest stm := by
  intro pre
  induction pre with
  | nil =>
    intro st stm h
    rw [otLoop] at h
    cases h
    rfl
  | cons p pre ih =>
    intro st stm h
    rw [otLoop] at h
    rw [List.cons_append, otLoop]
    cases hs : otStep cfg sat kt v XRsol st p with
    | none =>
      rw [hs] at h
      exact Option.noConfusion h
    | some st1 =>
      rw [hs] at h
      simp only at h ⊢
      exact ih st1 stm h

theorem otLoop_total (cfg : Config) (sat : RinexSatID) (d : RCData) (v : SatVars)
    (XRsol : Vec4) (t1 t2 : Nat)
    (h1 : phaseTest cfg.rhead cfg.inL1 cfg.otL1 = some t1)
    (h2 : phaseTest cfg.rhead cfg.inL2 cfg.otL2 = some t2) :
    ∀ (ps : List (String × RinexObsType)) (st : OTState),
      ∃ st1, otLoop cfg sat (some d) v XRsol ps st = some st1 := by
  intro ps
  induction ps with
  | nil => exact fun st => ⟨st, rfl⟩
  | cons p ps ih =>
    intro st
    obtain ⟨stm, hs⟩ := otStep_total cfg sat d v XRsol st p t1 t2 h1 h2
    rw [otLoop, hs]
    exact ih stm

theorem phaseSlip_true (ot : RinexObsType) (t l : Nat) (b : Bool)
    (h : phaseSlip ot t (some l) = some b) (hc : ot.depend &&& t ≠ 0 ∧ l &&& 1 ≠ 0) :
    b = true := by
  unfold phaseSlip at h
  rw [if_pos hc.1] at h
  simp only [Option.map_some', Option.some.injEq] at h
  rw [← h]
  exact decide_eq_true hc.2

/-- The loop body sets bit 0 of the loss-of-lock indicator of the field of a type that
it computes (`ok` set) when the type depends on a phase whose cached loss-of-lock
indicator has bit 0 set. -/
theorem otStep_slip (cfg : Config) (sat : RinexSatID) (d : RCData) (v : SatVars)
    (XRsol : Vec4) (st st1 : OTState) (p : String × RinexObsType) (r : OTResult)
    (t1 t2 : Nat)
    (h : otStep cfg sat (some d) v XRsol st p = some st1)
    (h1 : phaseTest cfg.rhead cfg.inL1 cfg.otL1 = some t1)
    (h2 : phaseTest cfg.rhead cfg.inL2 cfg.otL2 = some t2)
    (hr : computeOT p.1 p.2 sat (some d) (haveR (some d)) (haveP (some d)) v XRsol
      st.reset st.AllBiases = some r)
    (hok : r.ok = true)
    (hslip : (p.2.depend &&& t1 ≠ 0 ∧ d.LL1 &&& 1 ≠ 0) ∨
      (p.2.depend &&& t2 ≠ 0 ∧ d.LL2 &&& 1 ≠ 0))
    (hfield : ∃ datum, mapFind st.otmap p.2.type = some datum) :
    ∃ dat, mapFind st1.otmap p.2.type = some dat ∧ dat.lli.testBit 0 = true := by
  obtain ⟨datum0, hfield⟩ := hfield
  rcases otStep_cases cfg sat (some d) v XRsol st st1 p h with
    ⟨hn, _⟩ | ⟨datum, r2, _, hr2, ⟨hno, _⟩ | ⟨_, u1, u2, s1, s2, hu1, hs1, hu2, hs2, he⟩⟩
  · rw [hfield] at hn
    exact Option.noConfusion hn
  · rw [hr] at hr2
    cases hr2
    rw [hok] at hno
    exact Bool.noConfusion hno
  · rw [h1] at hu1
    cases hu1
    rw [h2] at hu2
    cases hu2
    rw [he]
    simp only
    rw [mapFind_mapSet, if_pos rfl]
    refine ⟨_, rfl, ?_⟩
    simp only
    rcases hslip with hc | hc
    · have e1 : s1 = true := phaseSlip_true p.2 t1 d.LL1 s1 hs1 hc
      rw [e1, if_pos rfl]
      exact testBit_or_one s2 _ 0 (testBit_zero_or_one _)
    · have e2 : s2 = true := phaseSlip_true p.2 t2 d.LL2 s2 hs2 hc
      rw [e2, if_pos rfl]
      exact testBit_zero_or_one _

/-! ## Claim on the loss-of-lock indicators -/

/-- C17: in the loop of `ComputeNewOTs` over the requested types `pre ++ p :: post` for
a satellite with the cache entry `d`, if the branch of the requested type `p` computes
it (`ok` is set) and the dependency mask of `p` has a bit in common with the mask `t1`
of the L1 phase while bit 0 of the cached `LL1` is set, or a bit in common with the
mask `t2` of the L2 phase while bit 0 of the cached `LL2` is set, then the loop ends
and bit 0 of the loss-of-lock indicator of the field of `p` is set after it. The loop
never clears a bit of a loss-of-lock indicator: a bit that is set in a field before a
run of the loop, for any list of types and any satellite, is set in that field after
it. The hypotheses say that the run is defined (the indexes of the phase types lie in
the header list; `t1` and `t2` are the masks read there), that `stm` is the state in
which the loop reaches `p`, and that the record has a field for `p`. -/
theorem lli_propagation (cfg : Config) (sat : RinexSatID) (d : RCData) (v : SatVars)
    (XRsol : Vec4) (pre post : List (String × RinexObsType)) (p : String × RinexObsType)
    (st stm : OTState) (r : OTResult) (t1 t2 : Nat) (datum : RinexDatum)
    (h1 : phaseTest cfg.rhead cfg.inL1 cfg.otL1 = some t1)
    (h2 : phaseTest cfg.rhead cfg.inL2 cfg.otL2 = some t2)
    (hpre : otLoop cfg sat (some d) v XRsol pre st = some stm)
    (hfield : mapFind stm.otmap p.2.type = some datum)
    (hr : computeOT p.1 p.2 sat (some d) (haveR (some d)) (haveP (some d)) v XRsol
      stm.reset stm.AllBiases = some r)
    (hok : r.ok = true)
    (hslip : (p.2.depend &&& t1 ≠ 0 ∧ d.LL1 &&& 1 ≠ 0) ∨
      (p.2.depend &&& t2 ≠ 0 ∧ d.LL2 &&& 1 ≠ 0)) :
    (∃ st2 dat2, otLoop cfg sat (some d) v XRsol (pre ++ p :: post) st = some st2 ∧
      mapFind st2.otmap p.2.type = some dat2 ∧ dat2.lli.testBit 0 = true) ∧
    (∀ (sat2 : RinexSatID) (kt : Option RCData) (v2 : SatVars) (X2 : Vec4)
      (ps : List (String × RinexObsType)) (s s2 : OTState) (key : String) (dat : RinexDatum),
      otLoop cfg sat2 kt v2 X2 ps s = some s2 → mapFind s.otmap key = some dat →
      ∃ dat3, mapFind s2.otmap key = some dat3 ∧
        ∀ i, dat.lli.testBit i = true → dat3.lli.testBit i = true) := by
  refine ⟨?_, ?_⟩
  · obtain ⟨st1, hs⟩ := otStep_total cfg sat d v XRsol stm p t1 t2 h1 h2
    obtain ⟨st2, hpost⟩ := otLoop_total cfg sat d v XRsol t1 t2 h1 h2 post st1
    obtain ⟨dat1, hd1, hb1⟩ :=
      otStep_slip cfg sat d v XRsol stm st1 p r t1 t2 hs h1 h2 hr hok hslip ⟨datum, hfield⟩
    obtain ⟨dat2, hd2, hmono⟩ :=
      otLoop_lli_mono cfg sat (some d) v XRsol p.2.type post st1 st2 dat1 hpost hd1
    refine ⟨st2, dat2, ?_, hd2, hmono 0 hb1⟩
    rw [otLoop_append cfg sat (some d) v XRsol (p :: post) pre st stm hpre, otLoop, hs]
    exact hpost
  · intro sat2 kt v2 X2 ps s s2 key dat hrun hf
    exact otLoop_lli_mono cfg sat2 kt v2 X2 key ps s s2 dat hrun hf

theorem lli_propagation_witness :
    (∃ st2 dat2, otLoop exConfig sat5 (some exDataSlip) exVarsBC ⟨0, 0, 0, 0⟩
        ([("SX", ⟨"SX", 32⟩)] ++ ("VP", ⟨"VP", 102⟩) :: []) exStateSR = some st2 ∧
      mapFind st2.otmap "VP" = some dat2 ∧ dat2.lli.testBit 0 = true) ∧
    (∀ (sat2 : RinexSatID) (kt : Option RCData) (v2 : SatVars) (X2 : Vec4)
      (ps : List (String × RinexObsType)) (s s2 : OTState) (key : String) (dat : RinexDatum),
      otLoop exConfig sat2 kt v2 X2 ps s = some s2 → mapFind s.otmap key = some dat →
      ∃ dat3, mapFind s2.otmap key = some dat3 ∧
        ∀ i, dat.lli.testBit i = true → dat3.lli.testBit i = true) :=
  lli_propagation exConfig sat5 exDataSlip exVarsBC ⟨0, 0, 0, 0⟩ [("SX", ⟨"SX", 32⟩)] []
    ("VP", ⟨"VP", 102⟩) exStateSR
    ⟨[("SR", ⟨0, 0, 0⟩), ("SX", ⟨15000000, 0, 0⟩), ("VP", ⟨0, 0, 0⟩)], false, []⟩
    (debiasedOT true ⟨"VP", 102⟩ sat5
      (((wl1 * exDataSlip.L1 - wl2 * exDataSlip.L2) * TECUperM / alpha - exVarsBC.Tgd)
        * exVarsBC.Obliq) false [])
    2 4 ⟨0, 0, 0⟩ phaseTest_exConfig.1 phaseTest_exConfig.2
    (by
      have e1 : (32 &&& 2 : Nat) = 0 := by decide
      have e2 : ¬ (['S', 'X'] < ['S', 'R']) := by decide
      simp [otLoop, otStep, exStateSR, mapFind, mapSet, computeOT, plainOT, haveR, haveP,
        exDataSlip, cached, exVarsBC, phaseTest, phaseSlip, exConfig, strLt, e1, e2])
    (by decide)
    (by
      rw [computeOT_VP]
      rfl)
    rfl
    (Or.inl ⟨by decide, by decide⟩)

/-! ## The check of the reference position options -/

theorem readPosOptions_flags (o : CmdOptions) :
    ((readPosOptions o defaultPosFlags).KnownPosInput = true ↔
      (o.dashRx1.isSome = true ∨ o.dashRx2.isSome = true)) ∧
    (readPosOptions o defaultPosFlags).RefPosFile = specFileName o ∧
    (readPosOptions o defaultPosFlags).RefPosInput = o.dashRx3 ∧
    (readPosOptions o defaultPosFlags).doRAIM = o.dashRx6 := by
  obtain ⟨r1, r2, r3, r4, r5, r6⟩ := o
  cases r1 <;> cases r2 <;> cases r3 <;> cases r4 <;> cases r5 <;> cases r6 <;>
    simp [readPosOptions, defaultPosFlags, specFileName]

theorem countInputs_eq (o : CmdOptions) :
    countInputs (readPosOptions o defaultPosFlags) = specSelectedSources o := by
  obtain ⟨h1, h2, h3, h4⟩ := readPosOptions_flags o
  unfold countInputs specSelectedSources
  simp only [h2, h3, h4]
  by_cases hk : (readPosOptions o defaultPosFlags).KnownPosInput = true
  · rw [if_pos hk, if_pos (h1.mp hk)]
    split_ifs <;> omega
  · rw [if_neg hk, if_neg (fun h => hk (h1.mpr h))]
    split_ifs <;> omega

theorem checkInputs_iff (f : PosFlags) : checkInputs f = true ↔ 1 < countInputs f := by
  unfold checkInputs
  split_ifs with h
  · simp
  · simp only [not_or] at h
    obtain ⟨a, b, c, d⟩ := h
    simp [countInputs, a, b, c, d]

/-- C18: the check for multiple inputs of `GetCommandLine` fails exactly when the
options select more than one of the four sources of the reference position: explicit
static position (`--RxLLH`, `--RxXYZ`), positions file (`--RxRinex`, `--RxFlat`, with
the file name that they leave in `RefPosFile` not empty), in-line header (`--Rxhere`),
RAIM (`--RAIM`). In a run that reaches the check (the editing commands parse,
`iret ≥ 0`, and the log file opens) `GetCommandLine` returns -1 exactly in that case;
with no source or one source selected it returns 0, or 1 when help is shown. -/
theorem GetCommandLine_multiple_inputs (iret : Int) (dashh dashRxhelp hasErrors : Bool)
    (o : CmdOptions) (hparse : 0 ≤ iret) :
    (checkInputs (readPosOptions o defaultPosFlags) = true ↔ 1 < specSelectedSources o) ∧
    (GetCommandLine iret dashh dashRxhelp hasErrors o true = -1 ↔
      1 < specSelectedSources o) ∧
    (specSelectedSources o ≤ 1 →
      GetCommandLine iret dashh dashRxhelp hasErrors o true =
        if (dashh || dashRxhelp || hasErrors) = true then 1 else 0) := by
  have hc : checkInputs (readPosOptions o defaultPosFlags) = true ↔
      1 < specSelectedSources o := by
    rw [checkInputs_iff, countInputs_eq]
  have hneg : ¬ iret < 0 := not_lt.mpr hparse
  have hval : GetCommandLine iret dashh dashRxhelp hasErrors o true =
      if checkInputs (readPosOptions o defaultPosFlags) = true then -1
      else if (dashh || dashRxhelp || hasErrors) = true then 1 else 0 := by
    unfold GetCommandLine
    simp only [hneg, and_false, if_false, decide_False, Bool.false_or]
    cases dashh <;> cases dashRxhelp <;> cases hasErrors <;> simp
  refine ⟨hc, ?_, ?_⟩
  · rw [hval, ← hc]
    by_cases hk : checkInputs (readPosOptions o defaultPosFlags) = true
    · rw [if_pos hk]
      exact ⟨fun _ => hk, fun _ => rfl⟩
    · rw [if_neg hk]
      constructor
      · intro h
        split_ifs at h
      · intro h
        exact absurd h hk
  · intro hle
    have hk : ¬ checkInputs (readPosOptions o defaultPosFlags) = true :=
      fun h => absurd (hc.mp h) (not_lt.mpr hle)
    rw [hval, if_neg hk]

theorem GetCommandLine_multiple_inputs_witness :
    (checkInputs (readPosOptions exOptionsTwo defaultPosFlags) = true ↔
      1 < specSelectedSources exOptionsTwo) ∧
    (GetCommandLine 0 false false false exOptionsTwo true = -1 ↔
      1 < specSelectedSources exOptionsTwo) ∧
    (specSelectedSources exOptionsTwo ≤ 1 →
      GetCommandLine 0 false false false exOptionsTwo true =
        if (false || false || false) = true then 1 else 0) :=
  GetCommandLine_multiple_inputs 0 false false false exOptionsTwo (by decide)

/-! ## The lookup of the reference position -/

/-- On a table in ascending order of time, `lower_bound` finds no entry exactly when
every entry is earlier than `t`, and it finds the entry `e` exactly when `e` has the
least time among the entries that are not earlier than `t`. -/
theorem lower_bound_spec (t : ℚ) :
    ∀ (m : List (ℚ × RefPosData)), (m.map Prod.fst).Pairwise (fun a b => a < b) →
      (lower_bound m t = none ↔ ∀ e ∈ m, e.1 < t) ∧
      (∀ e, lower_bound m t = some e ↔
        e ∈ m ∧ t ≤ e.1 ∧ ∀ e2 ∈ m, t ≤ e2.1 → e.1 ≤ e2.1) := by
  intro m
  induction m with
  | nil =>
    intro _
    refine ⟨⟨fun _ e he => absurd he (List.not_mem_nil e), fun _ => rfl⟩, ?_⟩
    intro e
    constructor
    · intro h
      exact Option.noConfusion h
    · rintro ⟨he, _⟩
      exact absurd he (List.not_mem_nil e)
  | cons a m ih =>
    intro hs
    rw [List.map_cons, List.pairwise_cons] at hs
    obtain ⟨ha, hs2⟩ := hs
    obtain ⟨ihn, ihs⟩ := ih hs2
    have hlt : ∀ e ∈ m, a.1 < e.1 := fun e he => ha e.1 (List.mem_map_of_mem Prod.fst he)
    by_cases hc : a.1 < t
    · have hlb : lower_bound (a :: m) t = lower_bound m t := by
        unfold lower_bound
        rw [List.find?_cons]
        simp [hc]
      rw [hlb]
      refine ⟨?_, ?_⟩
      · rw [ihn]
        constructor
        · intro h e he
          rcases List.mem_cons.mp he with e1 | e1
          · rw [e1]
            exact hc
          · exact h e e1
        · intro h e he
          exact h e (List.mem_cons_of_mem a he)
      · intro e
        rw [ihs e]
        constructor
        · rintro ⟨he, hte, hmin⟩
          refine ⟨List.mem_cons_of_mem a he, hte, ?_⟩
          intro e2 he2 hte2
          rcases List.mem_cons.mp he2 with e1 | e1
          · rw [e1] at hte2
            exact absurd hc (not_lt.mpr hte2)
          · exact hmin e2 e1 hte2
        · rintro ⟨he, hte, hmin⟩
          rcases List.mem_cons.mp he with e1 | e1
          · rw [e1] at hte
            exact absurd hc (not_lt.mpr hte)
          · exact ⟨e1, hte, fun e2 he2 => hmin e2 (List.mem_cons_of_mem a he2)⟩
    · have hlb : lower_bound (a :: m) t = some a := by
        unfold lower_bound
        rw [List.find?_cons]
        simp [hc]
      rw [hlb]
      have hta : t ≤ a.1 := not_lt.mp hc
      refine ⟨?_, ?_⟩
      · constructor
        · intro h
          exact Option.noConfusion h
        · intro h
          exact absurd (h a (List.mem_cons_self a m)) hc
      · intro e
        constructor
        · intro h
          simp only [Option.some.injEq] at h
          subst h
          refine ⟨List.mem_cons_self _ _, hta, ?_⟩
          intro e2 he2 _
          rcases List.mem_cons.mp he2 with e1 | e1
          · rw [e1]
          · exact le_of_lt (hlt e2 e1)
        · rintro ⟨he, _, hmin⟩
          rcases List.mem_cons.mp he with e1 | e1
          · rw [e1]
          · exact absurd (hlt e e1) (not_lt.mpr (hmin a (List.mem_cons_self a m) hta))

/-- The branch of `UpdateRxPosition` that looks the position up in the table. -/
theorem UpdateRxPosition_lookup_eq (f : RxFlags) (env : RaimEnv)
    (DataStoreMap : List (RinexSatID × RCData)) (m : List (ℚ × RefPosData)) (DT t : ℚ)
    (s : RxState) (hmode : f.doRAIM = false) (hfile : f.RefPosFile ≠ "") :
    UpdateRxPosition f env DataStoreMap m DT t s =
      match lower_bound m t with
      | none =>
        (0, { s with HaveRAIM := false, CurrRef := { s.CurrRef with valid := false },
                     inPS := -1 })
      | some ite =>
        if |ite.1 - t| > (1 / 10) * DT then
          (0, { s with HaveRAIM := false, CurrRef := { s.CurrRef with valid := false },
                       inPS := -1 })
        else
          (0, { s with
            HaveRAIM := false,
            CurrRef := { s.CurrRef with RxPos := ite.2.RxPos, clk := ite.2.clk,
                                        NPRN := ite.2.NPRN, PDOP := ite.2.PDOP,
                                        GDOP := ite.2.GDOP, RMS := ite.2.RMS, valid := true },
            inPS := 1 }) := by
  unfold UpdateRxPosition
  simp only [hmode, Bool.false_eq_true, if_false, hfile, ne_eq, not_false_eq_true, if_true]

/-- C19: in the mode that looks the reference position up in the table (no RAIM, a
positions file is named), for every table `m` in ascending order of time, every
dominant interval `DT` and every time `t` of the record, `UpdateRxPosition` returns 0
and leaves `CurrRef.valid` set exactly when the table has an entry that is not earlier
than `t` and the first such entry `e` (the one with the least time) satisfies
`|time(e) - t| ≤ 0.1*DT`, the boundary included. Then the position, the clock, the
number of satellites, PDOP, GDOP and RMS of `CurrRef` are those of `e`, `valid` is
true and `inPS` is 1; otherwise `valid` is false, the other fields of `CurrRef` stay
as they were, and `inPS` is -1 (no position for the record). -/
theorem UpdateRxPosition_lookup (f : RxFlags) (env : RaimEnv)
    (DataStoreMap : List (RinexSatID × RCData)) (m : List (ℚ × RefPosData)) (DT t : ℚ)
    (s : RxState) (hmode : f.doRAIM = false) (hfile : f.RefPosFile ≠ "")
    (hsorted : (m.map Prod.fst).Pairwise (fun a b => a < b)) :
    (UpdateRxPosition f env DataStoreMap m DT t s).1 = 0 ∧
    ((UpdateRxPosition f env DataStoreMap m DT t s).2.CurrRef.valid = true ↔
      ∃ e ∈ m, t ≤ e.1 ∧ (∀ e2 ∈ m, t ≤ e2.1 → e.1 ≤ e2.1) ∧ |e.1 - t| ≤ (1 / 10) * DT) ∧
    (∀ e ∈ m, t ≤ e.1 → (∀ e2 ∈ m, t ≤ e2.1 → e.1 ≤ e2.1) → |e.1 - t| ≤ (1 / 10) * DT →
      (UpdateRxPosition f env DataStoreMap m DT t s).2.CurrRef =
        ⟨e.2.RxPos, true, e.2.NPRN, e.2.clk, e.2.PDOP, e.2.GDOP, e.2.RMS⟩ ∧
      (UpdateRxPosition f env DataStoreMap m DT t s).2.inPS = 1) ∧
    ((UpdateRxPosition f env DataStoreMap m DT t s).2.CurrRef.valid = false →
      (UpdateRxPosition f env DataStoreMap m DT t s).2.CurrRef =
        { s.CurrRef with valid := false } ∧
      (UpdateRxPosition f env DataStoreMap m DT t s).2.inPS = -1) := by
  rw [UpdateRxPosition_lookup_eq f env DataStoreMap m DT t s hmode hfile]
  obtain ⟨hn, hs⟩ := lower_bound_spec t m hsorted
  cases hlb : lower_bound m t with
  | none =>
    have hall := hn.mp hlb
    refine ⟨rfl, ⟨fun h => Bool.noConfusion h, ?_⟩, ?_, fun _ => ⟨rfl, rfl⟩⟩
    · rintro ⟨e, he, hte, _⟩
      exact absurd (hall e he) (not_lt.mpr hte)
    · intro e he hte _ _
      exact absurd (hall e he) (not_lt.mpr hte)
  | some ite =>
    obtain ⟨hm, hti, hmin⟩ := (hs ite).mp hlb
    have huniq : ∀ e ∈ m, t ≤ e.1 → (∀ e2 ∈ m, t ≤ e2.1 → e.1 ≤ e2.1) → e = ite := by
      intro e he hte hmine
      have h2 := (hs e).mpr ⟨he, hte, hmine⟩
      rw [hlb] at h2
      exact (Option.some.inj h2).symm
    simp only
    by_cases hgt : |ite.1 - t| > (1 / 10) * DT
    · rw [if_pos hgt]
      refine ⟨rfl, ⟨fun h => Bool.noConfusion h, ?_⟩, ?_, fun _ => ⟨rfl, rfl⟩⟩
      · rintro ⟨e, he, hte, hmine, hle⟩
        rw [huniq e he hte hmine] at hle
        exact absurd hgt (not_lt.mpr hle)
      · intro e he hte hmine hle
        rw [huniq e he hte hmine] at hle
        exact absurd hgt (not_lt.mpr hle)
    · rw [if_neg hgt]
      refine ⟨rfl, ⟨fun _ => ⟨ite, hm, hti, hmin, not_lt.mp hgt⟩, fun _ => rfl⟩, ?_, ?_⟩
      · intro e he hte hmine _
        rw [huniq e he hte hmine]
        exact ⟨rfl, rfl⟩
      · intro h
        exact Bool.noConfusion h

theorem UpdateRxPosition_lookup_witness :
    (UpdateRxPosition exRxFlags exRaimEnv [(sat5, exData)] exTable 30 27 exRxState).1 = 0 ∧
    ((UpdateRxPosition exRxFlags exRaimEnv [(sat5, exData)] exTable 30 27
        exRxState).2.CurrRef.valid = true ↔
      ∃ e ∈ exTable, (27 : ℚ) ≤ e.1 ∧ (∀ e2 ∈ exTable, (27 : ℚ) ≤ e2.1 → e.1 ≤ e2.1) ∧
        |e.1 - 27| ≤ (1 / 10) * 30) ∧
    (∀ e ∈ exTable, (27 : ℚ) ≤ e.1 → (∀ e2 ∈ exTable, (27 : ℚ) ≤ e2.1 → e.1 ≤ e2.1) →
      |e.1 - 27| ≤ (1 / 10) * 30 →
      (UpdateRxPosition exRxFlags exRaimEnv [(sat5, exData)] exTable 30 27 exRxState).2.CurrRef =
        ⟨e.2.RxPos, true, e.2.NPRN, e.2.clk, e.2.PDOP, e.2.GDOP, e.2.RMS⟩ ∧
      (UpdateRxPosition exRxFlags exRaimEnv [(sat5, exData)] exTable 30 27 exRxState).2.inPS
        = 1) ∧
    ((UpdateRxPosition exRxFlags exRaimEnv [(sat5, exData)] exTable 30 27
        exRxState).2.CurrRef.valid = false →
      (UpdateRxPosition exRxFlags exRaimEnv [(sat5, exData)] exTable 30 27 exRxState).2.CurrRef =
        { exRxState.CurrRef with valid := false } ∧
      (UpdateRxPosition exRxFlags exRaimEnv [(sat5, exData)] exTable 30 27 exRxState).2.inPS
        = -1) :=
  UpdateRxPosition_lookup exRxFlags exRaimEnv [(sat5, exData)] exTable 30 27 exRxState rfl
    (by decide) (by simp [exTable]; norm_num)

theorem lower_bound_some (m : List (ℚ × RefPosData)) (t : ℚ) (e : ℚ × RefPosData)
    (h : lower_bound m t = some e) : e ∈ m ∧ t ≤ e.1 := by
  unfold lower_bound at h
  refine ⟨List.mem_of_find?_eq_some h, ?_⟩
  have hp := List.find?_some h
  simp only [decide_eq_true_eq, not_lt] at hp
  exact hp

theorem lower_bound_exTable_33 :
    lower_bound exTable 33 = some (60, ⟨⟨7, 8, 9⟩, false, 8, 2, 2, 3, 1⟩) := by
  unfold lower_bound exTable
  rw [List.find?_cons_of_neg _ (by norm_num), List.find?_cons_of_neg _ (by norm_num),
    List.find?_cons_of_pos _ (by norm_num)]

theorem lower_bound_exTable_50 :
    lower_bound exTable 50 = some (60, ⟨⟨7, 8, 9⟩, false, 8, 2, 2, 3, 1⟩) := by
  unfold lower_bound exTable
  rw [List.find?_cons_of_neg _ (by norm_num), List.find?_cons_of_neg _ (by norm_num),
    List.find?_cons_of_pos _ (by norm_num)]

theorem lower_bound_exTable_27 :
    lower_bound exTable 27 = some (30, ⟨⟨4, 5, 6⟩, true, 7, 1, 2, 3, 1⟩) := by
  unfold lower_bound exTable
  rw [List.find?_cons_of_neg _ (by norm_num), List.find?_cons_of_pos _ (by norm_num)]

/-- C20, as stated, fails: with entries at the times 0, 30 and 60 and the dominant
interval 30, the record of time 33 lies within 0.1*30 = 3 of the entry of time 30, and
`UpdateRxPosition` leaves the position unresolved (`valid` false, `inPS` -1):
`lower_bound` gives the entry of time 60, which is 27 away. -/
theorem lookup_earlier_entry_unresolved :
    |(30 : ℚ) - 33| ≤ (1 / 10) * 30 ∧
    (UpdateRxPosition exRxFlags exRaimEnv [(sat5, exData)] exTable 30 33
      exRxState).2.CurrRef.valid = false ∧
    (UpdateRxPosition exRxFlags exRaimEnv [(sat5, exData)] exTable 30 33 exRxState).2.inPS
      = -1 := by
  have h : (UpdateRxPosition exRxFlags exRaimEnv [(sat5, exData)] exTable 30 33 exRxState) =
      (0, { exRxState with HaveRAIM := false,
                           CurrRef := { exRxState.CurrRef with valid := false },
                           inPS := -1 }) := by
    rw [UpdateRxPosition_lookup_eq _ _ _ _ _ _ _ rfl (by decide), lower_bound_exTable_33]
    simp only
    rw [if_pos (by norm_num [abs_of_pos])]
  rw [h]
  refine ⟨?_, rfl, rfl⟩
  norm_num [abs_le]

/-- C20 (amended): in the mode that looks the reference position up in the table,
`UpdateRxPosition` resolves a record only to an entry that is not earlier than the
record: when `CurrRef.valid` is set after the call, an entry `e` of the table with
`t ≤ time(e)` and `time(e) - t ≤ 0.1*DT` gave the position, the clock, the number of
satellites, PDOP, GDOP and RMS; and when every entry within `0.1*DT` of `t` is earlier
than `t`, the record is unresolved. With entries at the times 0, 30 and 60 and the
dominant interval 30, the records of time 33 and of time 50 are unresolved, and the
record of time 27 resolves to the entry of time 30. -/
theorem lookup_entry_not_earlier (f : RxFlags) (env : RaimEnv)
    (DataStoreMap : List (RinexSatID × RCData)) (m : List (ℚ × RefPosData)) (DT t : ℚ)
    (s : RxState) (hmode : f.doRAIM = false) (hfile : f.RefPosFile ≠ "") :
    ((UpdateRxPosition f env DataStoreMap m DT t s).2.CurrRef.valid = true →
      ∃ e ∈ m, t ≤ e.1 ∧ e.1 - t ≤ (1 / 10) * DT ∧
        (UpdateRxPosition f env DataStoreMap m DT t s).2.CurrRef =
          ⟨e.2.RxPos, true, e.2.NPRN, e.2.clk, e.2.PDOP, e.2.GDOP, e.2.RMS⟩) ∧
    ((∀ e ∈ m, |e.1 - t| ≤ (1 / 10) * DT → e.1 < t) →
      (UpdateRxPosition f env DataStoreMap m DT t s).2.CurrRef.valid = false ∧
      (UpdateRxPosition f env DataStoreMap m DT t s).2.inPS = -1) ∧
    (UpdateRxPosition f env DataStoreMap exTable 30 33 s).2.CurrRef.valid = false ∧
    (UpdateRxPosition f env DataStoreMap exTable 30 50 s).2.CurrRef.valid = false ∧
    (UpdateRxPosition f env DataStoreMap exTable 30 27 s).2.CurrRef =
      ⟨⟨4, 5, 6⟩, true, 7, 1, 2, 3, 1⟩ := by
  refine ⟨?_, ?_, ?_, ?_, ?_⟩
  · rw [UpdateRxPosition_lookup_eq f env DataStoreMap m DT t s hmode hfile]
    cases hlb : lower_bound m t with
    | none =>
      intro h
      exact Bool.noConfusion h
    | some ite =>
      obtain ⟨hm, hti⟩ := lower_bound_some m t ite hlb
      simp only
      by_cases hgt : |ite.1 - t| > (1 / 10) * DT
      · rw [if_pos hgt]
        intro h
        exact Bool.noConfusion h
      · rw [if_neg hgt]
        intro _
        refine ⟨ite, hm, hti, ?_, rfl⟩
        exact le_trans (le_abs_self _) (not_lt.mp hgt)
  · rw [UpdateRxPosition_lookup_eq f env DataStoreMap m DT t s hmode hfile]
    intro hall
    cases hlb : lower_bound m t with
    | none => exact ⟨rfl, rfl⟩
    | some ite =>
      obtain ⟨hm, hti⟩ := lower_bound_some m t ite hlb
      simp only
      by_cases hgt : |ite.1 - t| > (1 / 10) * DT
      · rw [if_pos hgt]
        exact ⟨rfl, rfl⟩
      · exact absurd (hall ite hm (not_lt.mp hgt)) (not_lt.mpr hti)
  · rw [UpdateRxPosition_lookup_eq f env DataStoreMap exTable 30 33 s hmode hfile,
      lower_bound_exTable_33]
    simp only
    rw [if_pos (by norm_num [abs_of_pos])]
  · rw [UpdateRxPosition_lookup_eq f env DataStoreMap exTable 30 50 s hmode hfile,
      lower_bound_exTable_50]
    simp only
    rw [if_pos (by norm_num [abs_of_pos])]
  · rw [UpdateRxPosition_lookup_eq f env DataStoreMap exTable 30 27 s hmode hfile,
      lower_bound_exTable_27]
    simp only
    rw [if_neg (by norm_num [abs_of_pos])]

theorem lookup_entry_not_earlier_witness :
    ((UpdateRxPosition exRxFlags exRaimEnv [(sat5, exData)] exTable 30 33
        exRxState).2.CurrRef.valid = true →
      ∃ e ∈ exTable, (33 : ℚ) ≤ e.1 ∧ e.1 - 33 ≤ (1 / 10) * 30 ∧
        (UpdateRxPosition exRxFlags exRaimEnv [(sat5, exData)] exTable 30 33
            exRxState).2.CurrRef =
          ⟨e.2.RxPos, true, e.2.NPRN, e.2.clk, e.2.PDOP, e.2.GDOP, e.2.RMS⟩) ∧
    ((∀ e ∈ exTable, |e.1 - 33| ≤ (1 / 10) * 30 → e.1 < 33) →
      (UpdateRxPosition exRxFlags exRaimEnv [(sat5, exData)] exTable 30 33
        exRxState).2.CurrRef.valid = false ∧
      (UpdateRxPosition exRxFlags exRaimEnv [(sat5, exData)] exTable 30 33 exRxState).2.inPS
        = -1) ∧
    (UpdateRxPosition exRxFlags exRaimEnv [(sat5, exData)] exTable 30 33
      exRxState).2.CurrRef.valid = false ∧
    (UpdateRxPosition exRxFlags exRaimEnv [(sat5, exData)] exTable 30 50
      exRxState).2.CurrRef.valid = false ∧
    (UpdateRxPosition exRxFlags exRaimEnv [(sat5, exData)] exTable 30 27 exRxState).2.CurrRef =
      ⟨⟨4, 5, 6⟩, true, 7, 1, 2, 3, 1⟩ :=
  lookup_entry_not_earlier exRxFlags exRaimEnv [(sat5, exData)] exTable 30 33 exRxState rfl
    (by decide)

/-! ## The nominal time spacing -/

theorem foldl_dtStep (B : ℚ) :
    ∀ (m : List (ℚ × RefPosData)) (a : ℚ × RefPosData) (h : List (Int × ℚ)),
      (∀ e ∈ a :: m, e.1 ≠ B) →
      (m.foldl (dtStep B) (a.1, h)).2 =
        (specDeltas (a :: m)).foldl (fun h d => dtAdd d h) h := by
  intro m
  induction m with
  | nil =>
    intro a h _
    rfl
  | cons b m ih =>
    intro a h hne
    have ha : a.1 ≠ B := hne a (List.mem_cons_self a _)
    rw [List.foldl_cons, specDeltas, List.foldl_cons]
    have hstep : dtStep B (a.1, h) b = (b.1, dtAdd (b.1 - a.1) h) := by
      unfold dtStep
      rw [if_pos ha]
    rw [hstep]
    exact ih b _ (fun e he => hne e (List.mem_cons_of_mem a he))

theorem dtScan_hit (dt : ℚ) (c : ℚ → Int) (tail : List (Int × ℚ)) :
    ∀ vals : List ℚ, vals.Nodup → dt ∈ vals → (∀ v ∈ vals, 0 < c v) →
      (∀ v ∈ vals, v ≠ dt → 1 / 10000 ≤ |dt - v|) →
      dtScan dt (vals.map (fun v => (c v, v)) ++ tail) =
        some (vals.map (fun v => (c v + (if v = dt then 1 else 0), v)) ++ tail) := by
  intro vals
  induction vals with
  | nil =>
    intro _ hm _ _
    exact absurd hm (List.not_mem_nil dt)
  | cons v vs ih =>
    intro hnd hm hpos hsep
    rw [List.nodup_cons] at hnd
    have hv : ¬ c v ≤ 0 := not_le.mpr (hpos v (List.mem_cons_self v vs))
    rw [List.map_cons, List.cons_append, dtScan, if_neg hv]
    by_cases hvd : v = dt
    · subst hvd
      have h0 : |v - v| < (1 : ℚ) / 10000 := by
        rw [sub_self, abs_zero]
        norm_num
      rw [if_pos h0, List.map_cons, List.cons_append, if_pos rfl]
      have hmap : vs.map (fun w => (c w + (if w = v then 1 else 0), w)) =
          vs.map (fun w => (c w, w)) := by
        apply List.map_congr_left
        intro w hw
        have hwv : w ≠ v := fun e => hnd.1 (e ▸ hw)
        simp [hwv]
      rw [hmap]
    · have hfar : ¬ |dt - v| < 1 / 10000 :=
        not_lt.mpr (hsep v (List.mem_cons_self v vs) hvd)
      have hmem : dt ∈ vs := by
        rcases List.mem_cons.mp hm with e | e
        · exact absurd e.symm hvd
        · exact e
      rw [if_neg hfar, ih hnd.2 hmem (fun w hw => hpos w (List.mem_cons_of_mem v hw))
        (fun w hw => hsep w (List.mem_cons_of_mem v hw))]
      simp [hvd]

theorem dtScan_miss (dt : ℚ) (c : ℚ → Int) (n : Int) (x : ℚ) (tail : List (Int × ℚ))
    (hn : n ≤ 0) :
    ∀ vals : List ℚ, dt ∉ vals → (∀ v ∈ vals, 0 < c v) →
      (∀ v ∈ vals, v ≠ dt → 1 / 10000 ≤ |dt - v|) →
      dtScan dt (vals.map (fun v => (c v, v)) ++ (n, x) :: tail) =
        some (vals.map (fun v => (c v, v)) ++ (1, dt) :: tail) := by
  intro vals
  induction vals with
  | nil =>
    intro _ _ _
    rw [List.map_nil, List.nil_append, dtScan, if_pos hn]
    rfl
  | cons v vs ih =>
    intro hm hpos hsep
    have hv : ¬ c v ≤ 0 := not_le.mpr (hpos v (List.mem_cons_self v vs))
    have hvd : v ≠ dt := fun e => hm (e ▸ List.mem_cons_self v vs)
    have hfar : ¬ |dt - v| < 1 / 10000 :=
      not_lt.mpr (hsep v (List.mem_cons_self v vs) hvd)
    rw [List.map_cons, List.cons_append, dtScan, if_neg hv, if_neg hfar,
      ih (fun h => hm (List.mem_cons_of_mem v h))
        (fun w hw => hpos w (List.mem_cons_of_mem v hw))
        (fun w hw => hsep w (List.mem_cons_of_mem v hw))]
    rfl

theorem count_snoc (p : List ℚ) (dt v : ℚ) :
    (((p ++ [dt]).count v : Nat) : Int) = (p.count v : Int) + (if v = dt then 1 else 0) := by
  rw [List.count_append]
  by_cases h : v = dt
  · subst h
    simp
  · have h2 : dt ≠ v := fun e => h e.symm
    simp [h, h2, List.count_cons]

theorem histInv_step (h : List (Int × ℚ)) (p : List ℚ) (dt : ℚ) (hinv : HistInv h p)
    (hsep : ∀ a ∈ p ++ [dt], ∀ b ∈ p ++ [dt], a ≠ b → 1 / 10000 ≤ |a - b|)
    (hcard : ∀ l : List ℚ, l.Nodup → (∀ v ∈ l, v ∈ p ++ [dt]) → l.length ≤ ndtmax) :
    HistInv (dtAdd dt h) (p ++ [dt]) := by
  obtain ⟨vals, hnd, hmem, hlen, rfl⟩ := hinv
  have hdt : dt ∈ p ++ [dt] := List.mem_append_right p (List.mem_singleton_self dt)
  have hpos : ∀ v ∈ vals, (0 : Int) < (p.count v : Int) := by
    intro v hv
    exact Int.ofNat_lt.mpr (List.count_pos_iff.mpr ((hmem v).mp hv))
  have hfar : ∀ v ∈ vals, v ≠ dt → 1 / 10000 ≤ |dt - v| := by
    intro v hv hne
    exact hsep dt hdt v (List.mem_append_left _ ((hmem v).mp hv)) (fun e => hne e.symm)
  by_cases hin : dt ∈ vals
  · have hs := dtScan_hit dt (fun v => (p.count v : Int))
      (List.replicate (ndtmax - vals.length) (-1, 0)) vals hnd hin hpos hfar
    refine ⟨vals, hnd, ?_, hlen, ?_⟩
    · intro v
      constructor
      · intro hv
        exact List.mem_append_left _ ((hmem v).mp hv)
      · intro hv
        rcases List.mem_append.mp hv with e | e
        · exact (hmem v).mpr e
        · rw [List.mem_singleton.mp e]
          exact hin
    · unfold dtAdd
      rw [hs]
      simp only
      congr 1
      apply List.map_congr_left
      intro v _
      rw [count_snoc]
  · have hnd2 : (vals ++ [dt]).Nodup := by
      rw [List.nodup_append]
      refine ⟨hnd, List.nodup_singleton dt, ?_⟩
      intro a ha hb
      rw [List.mem_singleton.mp hb] at ha
      exact hin ha
    have hlen2 : (vals ++ [dt]).length ≤ ndtmax := by
      apply hcard _ hnd2
      intro v hv
      rcases List.mem_append.mp hv with e | e
      · exact List.mem_append_left _ ((hmem v).mp e)
      · exact List.mem_append_right _ e
    rw [List.length_append, List.length_singleton] at hlen2
    have hrep : List.replicate (ndtmax - vals.length) ((-1 : Int), (0 : ℚ)) =
        (-1, 0) :: List.replicate (ndtmax - (vals.length + 1)) (-1, 0) := by
      have e : ndtmax - vals.length = (ndtmax - (vals.length + 1)) + 1 := by omega
      rw [e, List.replicate_succ]
    have hs := dtScan_miss dt (fun v => (p.count v : Int)) (-1) 0
      (List.replicate (ndtmax - (vals.length + 1)) (-1, 0)) (by decide) vals hin hpos hfar
    refine ⟨vals ++ [dt], hnd2, ?_, ?_, ?_⟩
    · intro v
      constructor
      · intro hv
        rcases List.mem_append.mp hv with e | e
        · exact List.mem_append_left _ ((hmem v).mp e)
        · exact List.mem_append_right _ e
      · intro hv
        rcases List.mem_append.mp hv with e | e
        · exact List.mem_append_left _ ((hmem v).mpr e)
        · exact List.mem_append_right _ e
    · rw [List.length_append, List.length_singleton]
      exact hlen2
    · unfold dtAdd
      rw [hrep, hs]
      simp only
      rw [List.map_append, List.append_assoc, List.length_append, List.length_singleton]
      congr 1
      · apply List.map_congr_left
        intro v hv
        have hne : v ≠ dt := fun e => hin (e ▸ hv)
        rw [count_snoc, if_neg hne, add_zero]
      · have hp : dt ∉ p := fun e => hin ((hmem dt).mpr e)
        rw [List.map_singleton, count_snoc, if_pos rfl, List.count_eq_zero_of_not_mem hp]
        rfl

theorem histInv_foldl :
    ∀ (ds p : List ℚ) (h : List (Int × ℚ)), HistInv h p →
      (∀ a ∈ p ++ ds, ∀ b ∈ p ++ ds, a ≠ b → 1 / 10000 ≤ |a - b|) →
      (∀ l : List ℚ, l.Nodup → (∀ v ∈ l, v ∈ p ++ ds) → l.length ≤ ndtmax) →
      HistInv (ds.foldl (fun h d => dtAdd d h) h) (p ++ ds) := by
  intro ds
  induction ds with
  | nil =>
    intro p h hinv _ _
    rw [List.append_nil]
    exact hinv
  | cons d ds ih =>
    intro p h hinv hsep hcard
    have hsub : ∀ v ∈ p ++ [d], v ∈ p ++ d :: ds := by
      intro v hv
      rcases List.mem_append.mp hv with e | e
      · exact List.mem_append_left _ e
      · rw [List.mem_singleton.mp e]
        exact List.mem_append_right _ (List.mem_cons_self d ds)
    have hstep := histInv_step h p d hinv
      (fun a ha b hb => hsep a (hsub a ha) b (hsub b hb))
      (fun l hl hv => hcard l hl (fun v hvl => hsub v (hv v hvl)))
    have e : p ++ d :: ds = (p ++ [d]) ++ ds := by
      rw [List.append_assoc]
      rfl
    rw [List.foldl_cons, e]
    apply ih (p ++ [d]) _ hstep
    · rw [← e]
      exact hsep
    · rw [← e]
      exact hcard

theorem argmax_foldl (f : Nat → Int) :
    ∀ (is : List Nat) (j0 : Nat),
      (is.foldl (fun j i => if f i > f j then i else j) j0 = j0 ∨
        is.foldl (fun j i => if f i > f j then i else j) j0 ∈ is) ∧
      f j0 ≤ f (is.foldl (fun j i => if f i > f j then i else j) j0) ∧
      ∀ i ∈ is, f i ≤ f (is.foldl (fun j i => if f i > f j then i else j) j0) := by
  intro is
  induction is with
  | nil =>
    intro j0
    exact ⟨Or.inl rfl, le_refl _, fun i hi => absurd hi (List.not_mem_nil i)⟩
  | cons a is ih =>
    intro j0
    rw [List.foldl_cons]
    obtain ⟨h1, h2, h3⟩ := ih (if f a > f j0 then a else j0)
    have hj0 : f j0 ≤ f (if f a > f j0 then a else j0) := by
      split_ifs with hc
      · exact le_of_lt hc
      · exact le_refl _
    have ha : f a ≤ f (if f a > f j0 then a else j0) := by
      split_ifs with hc
      · exact le_refl _
      · exact not_lt.mp hc
    refine ⟨?_, le_trans hj0 h2, ?_⟩
    · rcases h1 with e | e
      · rw [e]
        split_ifs
        · exact Or.inr (List.mem_cons_self a is)
        · exact Or.inl rfl
      · exact Or.inr (List.mem_cons_of_mem a e)
    · intro i hi
      rcases List.mem_cons.mp hi with e | e
      · rw [e]
        exact le_trans ha h2
      · exact h3 i e

theorem bestIndex_spec (h : List (Int × ℚ)) :
    ∀ i < ndtmax, (h.getD i (0, 0)).1 ≤ (h.getD (bestIndex h) (0, 0)).1 := by
  obtain ⟨_, h2, h3⟩ := argmax_foldl (fun i => (h.getD i (0, 0)).1)
    (List.range' 1 (ndtmax - 1)) 0
  intro i hi
  by_cases h0 : i = 0
  · rw [h0]
    exact h2
  · apply h3 i
    rw [List.mem_range'_1]
    unfold ndtmax at hi ⊢
    omega

theorem hist_getD_used (vals : List ℚ) (c : ℚ → Int) (n i : Nat) (hi : i < vals.length) :
    ∃ v ∈ vals,
      (vals.map (fun v => (c v, v)) ++ List.replicate n ((-1 : Int), (0 : ℚ))).getD i (0, 0) =
        (c v, v) := by
  have hi2 : i < (vals.map (fun v => (c v, v))).length := by
    rw [List.length_map]
    exact hi
  refine ⟨vals.getD i 0, ?_, ?_⟩
  · rw [List.getD_eq_getElem _ _ hi]
    exact List.getElem_mem hi
  · rw [List.getD_append _ _ _ _ hi2, List.getD_eq_getElem _ _ hi2, List.getElem_map,
      List.getD_eq_getElem _ _ hi]

theorem hist_getD_free (vals : List ℚ) (c : ℚ → Int) (n i : Nat) (hi : vals.length ≤ i) :
    ((vals.map (fun v => (c v, v)) ++ List.replicate n ((-1 : Int), (0 : ℚ))).getD i
      (0, 0)).1 ≤ 0 := by
  have hi2 : (vals.map (fun v => (c v, v))).length ≤ i := by
    rw [List.length_map]
    exact hi
  rw [List.getD_append_right _ _ _ _ hi2, List.getD_eq_getElem?_getD, List.getElem?_replicate]
  split_ifs <;> simp

theorem hist_getD_of_mem (vals : List ℚ) (c : ℚ → Int) (n : Nat) (w : ℚ) (hw : w ∈ vals) :
    ∃ i < vals.length,
      (vals.map (fun v => (c v, v)) ++ List.replicate n ((-1 : Int), (0 : ℚ))).getD i (0, 0) =
        (c w, w) := by
  obtain ⟨i, hi, he⟩ := List.mem_iff_getElem.mp hw
  have hi2 : i < (vals.map (fun v => (c v, v))).length := by
    rw [List.length_map]
    exact hi
  refine ⟨i, hi, ?_⟩
  rw [List.getD_append _ _ _ _ hi2, List.getD_eq_getElem _ _ hi2, List.getElem_map, he]

/-- The value that the last statements of the block read from the bins, when the bins
hold the counts of a list of time steps that is not empty. -/
theorem hist_mode (h : List (Int × ℚ)) (ds : List ℚ) (hinv : HistInv h ds) (hne : ds ≠ []) :
    ∃ v, (if (h.getD (bestIndex h) (0, 0)).1 ≤ 0 then none
        else some (h.getD (bestIndex h) (0, 0)).2) = some v ∧
      v ∈ ds ∧ ∀ w ∈ ds, ds.count w ≤ ds.count v := by
  obtain ⟨vals, _, hmem, hlen, rfl⟩ := hinv
  obtain ⟨d, hd⟩ := List.exists_mem_of_ne_nil ds hne
  obtain ⟨i0, hi0, he0⟩ := hist_getD_of_mem vals (fun v => (ds.count v : Int))
    (ndtmax - vals.length) d ((hmem d).mpr hd)
  have hbest := bestIndex_spec
    (vals.map (fun v => ((ds.count v : Int), v)) ++ List.replicate (ndtmax - vals.length) (-1, 0))
  have hpos : (0 : Int) < ((vals.map (fun v => ((ds.count v : Int), v)) ++
      List.replicate (ndtmax - vals.length) (-1, 0)).getD
      (bestIndex (vals.map (fun v => ((ds.count v : Int), v)) ++
        List.replicate (ndtmax - vals.length) (-1, 0))) (0, 0)).1 := by
    have h1 := hbest i0 (lt_of_lt_of_le hi0 hlen)
    rw [he0] at h1
    have h2 : (0 : Int) < (ds.count d : Int) := Int.ofNat_lt.mpr (List.count_pos_iff.mpr hd)
    exact lt_of_lt_of_le h2 h1
  have hj : bestIndex (vals.map (fun v => ((ds.count v : Int), v)) ++
      List.replicate (ndtmax - vals.length) (-1, 0)) < vals.length := by
    by_contra hc
    exact absurd (hist_getD_free vals (fun v => (ds.count v : Int)) (ndtmax - vals.length) _
      (not_lt.mp hc)) (not_le.mpr hpos)
  obtain ⟨v, hv, hev⟩ := hist_getD_used vals (fun v => (ds.count v : Int))
    (ndtmax - vals.length) _ hj
  refine ⟨v, ?_, (hmem v).mp hv, ?_⟩
  · rw [if_neg (not_le.mpr hpos), hev]
  · intro w hw
    obtain ⟨i, hi, hei⟩ := hist_getD_of_mem vals (fun v => (ds.count v : Int))
      (ndtmax - vals.length) w ((hmem w).mpr hw)
    have h1 := hbest i (lt_of_lt_of_le hi hlen)
    rw [hei, hev] at h1
    exact Int.ofNat_le.mp h1

theorem histInv_init : HistInv initHist [] :=
  ⟨[], List.nodup_nil, fun _ => Iff.rfl, Nat.zero_le _, rfl⟩

/-! ## Claim on the dominant interval -/

/-- C21: for every table of positions with at least two entries whose consecutive time
steps take at most 15 distinct values, any two distinct values at least 0.0001 apart,
the block of `PrepareInput` that computes the nominal time spacing sets `RefPosMapDT`
to a time step whose number of occurrences is the greatest among all consecutive time
steps of the table. The hypothesis on `BEGINNING_OF_TIME` says that no entry of the
table carries the time that the program uses as the mark of the start of the loop. -/
theorem RefPosMapDT_is_mode (BEGINNING_OF_TIME : ℚ) (m : List (ℚ × RefPosData))
    (hlen : 2 ≤ m.length) (hB : ∀ e ∈ m, e.1 ≠ BEGINNING_OF_TIME)
    (hcard : (specDeltas m).dedup.length ≤ 15)
    (hsep : ∀ a ∈ specDeltas m, ∀ b ∈ specDeltas m, a ≠ b → 1 / 10000 ≤ |a - b|) :
    ∃ v, computeRefPosMapDT BEGINNING_OF_TIME m = some v ∧ v ∈ specDeltas m ∧
      ∀ w ∈ specDeltas m, (specDeltas m).count w ≤ (specDeltas m).count v := by
  match m, hlen with
  | a :: b :: rest, _ =>
    have hfold : ((a :: b :: rest).foldl (dtStep BEGINNING_OF_TIME)
        (BEGINNING_OF_TIME, initHist)).2 =
        (specDeltas (a :: b :: rest)).foldl (fun h d => dtAdd d h) initHist := by
      rw [List.foldl_cons]
      have hstep : dtStep BEGINNING_OF_TIME (BEGINNING_OF_TIME, initHist) a = (a.1, initHist) := by
        unfold dtStep
        rw [if_neg (fun hc => hc rfl)]
      rw [hstep]
      exact foldl_dtStep BEGINNING_OF_TIME (b :: rest) a initHist hB
    have hinv : HistInv ((specDeltas (a :: b :: rest)).foldl (fun h d => dtAdd d h) initHist)
        (specDeltas (a :: b :: rest)) := by
      have h0 := histInv_foldl (specDeltas (a :: b :: rest)) [] initHist histInv_init
        (by
          rw [List.nil_append]
          exact hsep)
        (by
          rw [List.nil_append]
          intro l hl hsub
          have hsp : List.Subperm l (specDeltas (a :: b :: rest)).dedup :=
            List.Nodup.subperm hl (fun v hv => List.mem_dedup.mpr (hsub v hv))
          exact le_trans hsp.length_le hcard)
      rw [List.nil_append] at h0
      exact h0
    have hne : specDeltas (a :: b :: rest) ≠ [] := by
      rw [specDeltas]
      exact List.cons_ne_nil _ _
    unfold computeRefPosMapDT
    simp only
    rw [hfold]
    exact hist_mode _ _ hinv hne

theorem specDeltas_exTable : specDeltas exTable = [30, 30] := by
  unfold exTable
  rw [specDeltas, specDeltas, specDeltas]
  norm_num

theorem RefPosMapDT_is_mode_witness : computeRefPosMapDT (-1) exTable = some 30 := by
  obtain ⟨v, hv, hmem, _⟩ := RefPosMapDT_is_mode (-1) exTable (by decide)
    (by
      intro e he
      simp only [exTable, List.mem_cons, List.mem_singleton, List.not_mem_nil, or_false] at he
      rcases he with rfl | rfl | rfl <;> norm_num)
    (by
      rw [specDeltas_exTable]
      exact le_trans (List.Sublist.length_le (List.dedup_sublist _)) (by decide))
    (by
      rw [specDeltas_exTable]
      intro a ha b hb hab
      simp only [List.mem_cons, List.mem_singleton, List.not_mem_nil, or_false, or_self] at ha hb
      rw [ha, hb] at hab
      exact absurd rfl hab)
  rw [specDeltas_exTable] at hmem
  simp only [List.mem_cons, List.mem_singleton, List.not_mem_nil, or_false, or_self] at hmem
  rw [hv, hmem]

/-! ## The lists handed to the position solver -/

theorem raimPush_eq (minElev : ℚ) (valid : Bool) (env : RaimEnv)
    (acc : List RinexSatID × List ℚ) (kt : RinexSatID × RCData) :
    raimPush minElev valid env acc kt =
      if raimKeeps minElev valid env kt = true then
        (acc.1 ++ [kt.1], acc.2 ++ [if1r * kt.2.P1 + if2r * kt.2.P2])
      else acc := by
  unfold raimPush raimKeeps
  by_cases hP : kt.2.P1 = 0 ∨ kt.2.P2 = 0
  · have hn : ¬ (kt.2.P1 ≠ 0 ∧ kt.2.P2 ≠ 0) := by
      rintro ⟨h1, h2⟩
      rcases hP with h | h
      · exact h1 h
      · exact h2 h
    simp [hP, hn]
  · have hy : kt.2.P1 ≠ 0 ∧ kt.2.P2 ≠ 0 := by
      constructor
      · exact fun h => hP (Or.inl h)
      · exact fun h => hP (Or.inr h)
    rw [if_neg hP]
    by_cases hm : minElev > 0 ∧ valid = true
    · rw [if_pos hm]
      by_cases h3 : env.SP3size > 0
      · cases hr : env.rangeSP3 kt.1 <;> simp [hy, hm.1, hm.2, h3, hr]
      · by_cases hb : env.BCsize > 0
        · cases hr : env.rangeBC kt.1 <;> simp [hy, hm.1, hm.2, h3, hb, hr]
        · simp [hy, hm.1, hm.2, h3, hb]
    · rw [if_neg hm]
      have hk : (!(decide (minElev > 0) && valid)) = true := by
        cases valid
        · simp
        · simp only [Bool.and_true, Bool.not_eq_true', decide_eq_false_iff_not]
          exact fun h => hm ⟨h, rfl⟩
      simp [hy, hk]

theorem raimPush_foldl (minElev : ℚ) (valid : Bool) (env : RaimEnv) :
    ∀ (DataStoreMap : List (RinexSatID × RCData)) (acc : List RinexSatID × List ℚ),
      DataStoreMap.foldl (raimPush minElev valid env) acc =
        (acc.1 ++ (DataStoreMap.filter (raimKeeps minElev valid env)).map Prod.fst,
         acc.2 ++ (DataStoreMap.filter (raimKeeps minElev valid env)).map
          fun kt => if1r * kt.2.P1 + if2r * kt.2.P2) := by
  intro m
  induction m with
  | nil =>
    intro acc
    simp
  | cons kt m ih =>
    intro acc
    rw [List.foldl_cons, ih, raimPush_eq]
    by_cases hk : raimKeeps minElev valid env kt = true
    · rw [if_pos hk, List.filter_cons_of_pos hk]
      simp
    · rw [if_neg hk, List.filter_cons_of_neg hk]

theorem raimSolve_ok (env : RaimEnv) (f : RxFlags) (DataStoreMap : List (RinexSatID × RCData))
    (m : List (ℚ × RefPosData)) (DT t : ℚ) (s : RxState) (hmode : f.doRAIM = true)
    (lists : List RinexSatID × List ℚ)
    (hl : DataStoreMap.foldl (raimPush f.minElev s.CurrRef.valid env) ([], []) = lists) :
    (UpdateRxPosition f env DataStoreMap m DT t s).2.PRange = lists.2 ∧
    (UpdateRxPosition f env DataStoreMap m DT t s).2.HaveRAIM =
      decide ((raimSolve env lists.1 lists.2).iret = 0 ∨
        (raimSolve env lists.1 lists.2).iret = 1) ∧
    (UpdateRxPosition f env DataStoreMap m DT t s).2.Sats =
      (if (raimSolve env lists.1 lists.2).iret = 0 ∨ (raimSolve env lists.1 lists.2).iret = 1
        then (raimSolve env lists.1 lists.2).Sats
       else if f.Verbose = true ∧ (raimSolve env lists.1 lists.2).iret = -4
        then (raimSolve env lists.1 lists.2).Sats.map unmarkSat
       else (raimSolve env lists.1 lists.2).Sats) := by
  unfold UpdateRxPosition
  simp only [hmode, if_true, hl]
  by_cases hok : (raimSolve env lists.1 lists.2).iret = 0 ∨
      (raimSolve env lists.1 lists.2).iret = 1
  · rw [if_pos hok, if_pos hok]
    exact ⟨rfl, (decide_eq_true hok).symm, rfl⟩
  · rw [if_neg hok, if_neg hok]
    exact ⟨rfl, (decide_eq_false hok).symm, rfl⟩

/-- C22 (what the program does): with RAIM, the lists `Sats` and `PRange` that
`UpdateRxPosition` hands to `RAIMCompute` are parallel and hold, in the order of the
cache, exactly the satellites of the cache with P1 and P2 both nonzero for which, when
the elevation limit is positive and the current position is valid, the range
computation finds an ephemeris; the range paired with a satellite is
`if1r*P1 + if2r*P2`. No satellite is left out for its elevation: the loop computes the
range and does not compare the elevation with the limit. After the call `PRange` is
that list of ranges, `HaveRAIM` says whether the solver, called with these lists, gave
the status 0 or 1, and `Sats` is the list as the solver left it, except that after the
status -4 the block under `if(Verbose)` has taken the marks off it. -/
theorem raim_lists (f : RxFlags) (env : RaimEnv) (DataStoreMap : List (RinexSatID × RCData))
    (m : List (ℚ × RefPosData)) (DT t : ℚ) (s : RxState) (hmode : f.doRAIM = true) :
    DataStoreMap.foldl (raimPush f.minElev s.CurrRef.valid env) ([], []) =
      ((DataStoreMap.filter (raimKeeps f.minElev s.CurrRef.valid env)).map Prod.fst,
       (DataStoreMap.filter (raimKeeps f.minElev s.CurrRef.valid env)).map
        (fun kt => if1r * kt.2.P1 + if2r * kt.2.P2)) ∧
    (∀ out : RAIMOutcome,
      out = raimSolve env
        ((DataStoreMap.filter (raimKeeps f.minElev s.CurrRef.valid env)).map Prod.fst)
        ((DataStoreMap.filter (raimKeeps f.minElev s.CurrRef.valid env)).map
          (fun kt => if1r * kt.2.P1 + if2r * kt.2.P2)) →
      (UpdateRxPosition f env DataStoreMap m DT t s).2.PRange =
        (DataStoreMap.filter (raimKeeps f.minElev s.CurrRef.valid env)).map
          (fun kt => if1r * kt.2.P1 + if2r * kt.2.P2) ∧
      (UpdateRxPosition f env DataStoreMap m DT t s).2.HaveRAIM =
        decide (out.iret = 0 ∨ out.iret = 1) ∧
      (UpdateRxPosition f env DataStoreMap m DT t s).2.Sats =
        (if out.iret = 0 ∨ out.iret = 1 then out.Sats
         else if f.Verbose = true ∧ out.iret = -4 then out.Sats.map unmarkSat
         else out.Sats)) ∧
    ((DataStoreMap.filter (raimKeeps f.minElev s.CurrRef.valid env)).map Prod.fst).length =
      ((DataStoreMap.filter (raimKeeps f.minElev s.CurrRef.valid env)).map
        (fun kt => if1r * kt.2.P1 + if2r * kt.2.P2)).length ∧
    (∀ kt ∈ DataStoreMap,
      kt ∈ DataStoreMap.filter (raimKeeps f.minElev s.CurrRef.valid env) ↔
        kt.2.P1 ≠ 0 ∧ kt.2.P2 ≠ 0 ∧
        ((f.minElev > 0 ∧ s.CurrRef.valid = true) →
          (if env.SP3size > 0 then env.rangeSP3 kt.1
           else if env.BCsize > 0 then env.rangeBC kt.1 else false) = true)) := by
  have hfold := raimPush_foldl f.minElev s.CurrRef.valid env DataStoreMap ([], [])
  simp only [List.nil_append] at hfold
  refine ⟨hfold, ?_, ?_, ?_⟩
  · intro out hout
    rw [hout]
    exact raimSolve_ok env f DataStoreMap m DT t s hmode _ hfold
  · rw [List.length_map, List.length_map]
  · intro kt hkt
    rw [List.mem_filter]
    unfold raimKeeps
    simp only [hkt, true_and, Bool.and_eq_true, decide_eq_true_eq, Bool.or_eq_true,
      Bool.not_eq_true', Bool.and_eq_false_imp]
    constructor
    · rintro ⟨⟨h1, h2⟩, h3⟩
      refine ⟨h1, h2, ?_⟩
      rintro ⟨hm, hv⟩
      rcases h3 with h | h
      · have := h hm
        rw [hv] at this
        exact Bool.noConfusion this
      · exact h
    · rintro ⟨h1, h2, h3⟩
      refine ⟨⟨h1, h2⟩, ?_⟩
      by_cases hc : f.minElev > 0 ∧ s.CurrRef.valid = true
      · exact Or.inr (h3 hc)
      · left
        intro hm
        cases hv : s.CurrRef.valid
        · rfl
        · exact absurd ⟨hm, hv⟩ hc

theorem raimKeeps_example :
    [(sat5, exData)].filter (raimKeeps exRxFlagsRAIM.minElev exRxStateValid.CurrRef.valid
      exRaimEnvBC) = [(sat5, exData)] := by
  rw [List.filter_cons_of_pos]
  · rfl
  · simp [raimKeeps, exData, exRxFlagsRAIM, exRxStateValid, exRaimEnvBC]

/-- With the elevation limit 10 and a valid position, the satellite 5 of the cache is
handed to the solver with its range, whatever its elevation is. -/
theorem raim_lists_witness :
    [(sat5, exData)].foldl
        (raimPush exRxFlagsRAIM.minElev exRxStateValid.CurrRef.valid exRaimEnvBC) ([], []) =
      ([sat5], [if1r * exData.P1 + if2r * exData.P2]) ∧
    (UpdateRxPosition exRxFlagsRAIM exRaimEnvBC [(sat5, exData)] exTable 30 27
      exRxStateValid).2.PRange = [if1r * exData.P1 + if2r * exData.P2] ∧
    (UpdateRxPosition exRxFlagsRAIM exRaimEnvBC [(sat5, exData)] exTable 30 27
      exRxStateValid).2.Sats = [sat5] := by
  obtain ⟨h1, h2, _, _⟩ := raim_lists exRxFlagsRAIM exRaimEnvBC [(sat5, exData)] exTable 30 27
    exRxStateValid rfl
  obtain ⟨h3, _, h4⟩ := h2 _ rfl
  rw [raimKeeps_example] at h1 h3 h4
  exact ⟨h1, h3, h4⟩

/-- The block under `if(Verbose)` of the failed RAIM solution: the solver gives the
status -4 and marks the satellite 5 by the sign of its id; with `--verbose` the list
`Sats` holds the satellite without the mark after the call, without it the mark
stays. -/
theorem UpdateRxPosition_verbose_unmarks :
    (UpdateRxPosition ⟨true, "", 0, false, true⟩ exRaimEnvLost [(sat5, exData)] exTable 30 27
      exRxState).2.Sats = [sat5] ∧
    (UpdateRxPosition ⟨true, "", 0, false, false⟩ exRaimEnvLost [(sat5, exData)] exTable 30 27
      exRxState).2.Sats = [⟨-5, .systemGPS⟩] := by
  constructor <;> rfl

/-! ## A record without a reference position -/

theorem UpdateRxPosition_returns (f : RxFlags) (env : RaimEnv)
    (DataStoreMap : List (RinexSatID × RCData)) (m : List (ℚ × RefPosData)) (DT t : ℚ)
    (s : RxState) : (UpdateRxPosition f env DataStoreMap m DT t s).1 = 0 := by
  by_cases hm : f.doRAIM = true
  · unfold UpdateRxPosition
    simp only [hm, if_true]
    split_ifs <;> rfl
  · by_cases hf : f.RefPosFile ≠ ""
    · rw [UpdateRxPosition_lookup_eq f env DataStoreMap m DT t s (Bool.eq_false_iff.mpr hm) hf]
      cases lower_bound m t with
      | none => rfl
      | some ite =>
        simp only
        split_ifs <;> rfl
    · unfold UpdateRxPosition
      rw [if_neg hm, if_neg hf]

theorem UpdateRxPosition_raim_failed (f : RxFlags) (env : RaimEnv)
    (DataStoreMap : List (RinexSatID × RCData)) (m : List (ℚ × RefPosData)) (DT t : ℚ)
    (s : RxState) (hmode : f.doRAIM = true) (h0 : raimIret f env DataStoreMap s ≠ 0)
    (h1 : raimIret f env DataStoreMap s ≠ 1) :
    (UpdateRxPosition f env DataStoreMap m DT t s).2.inPS = -1 ∧
    (UpdateRxPosition f env DataStoreMap m DT t s).2.HaveRAIM = false := by
  unfold raimIret at h0 h1
  unfold UpdateRxPosition
  simp only [hmode, if_true]
  rw [if_neg (fun h => h.elim h0 h1)]
  exact ⟨rfl, rfl⟩

theorem UpdateRxPosition_lookup_failed (f : RxFlags) (env : RaimEnv)
    (DataStoreMap : List (RinexSatID × RCData)) (m : List (ℚ × RefPosData)) (DT t : ℚ)
    (s : RxState) (hmode : f.doRAIM = false) (hfile : f.RefPosFile ≠ "")
    (hfar : ∀ e, lower_bound m t = some e → |e.1 - t| > (1 / 10) * DT) :
    (UpdateRxPosition f env DataStoreMap m DT t s).2.inPS = -1 ∧
    (UpdateRxPosition f env DataStoreMap m DT t s).2.CurrRef.valid = false := by
  rw [UpdateRxPosition_lookup_eq f env DataStoreMap m DT t s hmode hfile]
  cases hlb : lower_bound m t with
  | none => exact ⟨rfl, rfl⟩
  | some ite =>
    simp only
    rw [if_pos (hfar ite hlb)]
    exact ⟨rfl, rfl⟩

theorem ephPrep_no_position (f : EphFlags) (env : EphEnv) (sat : RinexSatID)
    (prev : SatVars) :
    ∃ pr, ephPrep f env (-1) sat prev = some pr ∧ pr.inPS = -1 ∧
      pr.vars.HaveEphRange = false ∧ pr.lowElev = false ∧
      pr.vars.relativity = prev.relativity ∧ pr.vars.svclkbias = prev.svclkbias ∧
      pr.vars.HaveEphThisSat = (if f.inEP > -1 then true else prev.HaveEphThisSat) := by
  unfold ephPrep
  have e : (if f.doRAIM = true ∧ f.HaveRAIM = false then (-1 : Int) else -1) = -1 := by
    split_ifs <;> rfl
  simp only [e]
  have hd : decide ((-1 : Int) > -1) = false := by decide
  simp only [hd, Bool.and_false, Bool.false_eq_true, if_false]
  exact ⟨_, rfl, rfl, rfl, rfl, rfl, rfl, rfl⟩

theorem lookup_far_exTable_33 :
    ∀ e, lower_bound exTable 33 = some e → |e.1 - 33| > (1 / 10) * 30 := by
  intro e he
  rw [lower_bound_exTable_33] at he
  cases he
  norm_num [abs_of_pos]

theorem svxStep_cer (f : EphFlags) (env : EphEnv) (inPS : Int) (sat : RinexSatID)
    (v : SatVars) :
    (svxStep f env inPS sat v).relativity = v.relativity ∧
    (svxStep f env inPS sat v).svclkbias = v.svclkbias ∧
    (v.HaveEphThisSat = true →
      (f.DoSVX = true → inPS = -1 →
        ∃ p, (if env.SP3size ≠ 0 then env.xvtSP3 sat else env.xvtBC sat) = some p) →
      (svxStep f env inPS sat v).HaveEphThisSat = true) := by
  unfold svxStep
  by_cases hc : f.DoSVX = true ∧ v.HaveEphThisSat = true ∧ inPS = -1
  · rw [if_pos hc]
    cases hx : (if env.SP3size ≠ 0 then env.xvtSP3 sat else env.xvtBC sat) with
    | none =>
      refine ⟨rfl, rfl, ?_⟩
      intro _ hp
      obtain ⟨p, hp1⟩ := hp hc.1 hc.2.2
      exact Option.noConfusion hp1
    | some p => exact ⟨rfl, rfl, fun hh _ => hh⟩
  · rw [if_neg hc]
    exact ⟨rfl, rfl, fun hh _ => hh⟩

/-- The branches of the ten types of the claim when `HaveEphRange` is not set: the eight
branches that test `HaveEphRange` store 0; the branches of RL and SC test
`HaveEphThisSat` and store the members `relativity` and `svclkbias` of `CER`. -/
theorem computeOT_unresolved (name : String)
    (hname : name ∈ ["ER", "TR", "RL", "SC", "EL", "AZ", "VR", "VP", "LA", "LO"])
    (ot : RinexObsType) (sat : RinexSatID) (kt : Option RCData) (HaveR HaveP : Bool)
    (v : SatVars) (X : Vec4) (reset : Bool) (B : BiasState) (hv : v.HaveEphRange = false) :
    ∃ r, computeOT name ot sat kt HaveR HaveP v X reset B = some r ∧
      r.data =
        (if name = "RL" then (if v.HaveEphThisSat = true then v.relativity else 0)
         else if name = "SC" then (if v.HaveEphThisSat = true then v.svclkbias else 0)
         else 0) := by
  simp only [List.mem_cons, List.mem_singleton, List.not_mem_nil, or_false] at hname
  rcases hname with rfl | rfl | rfl | rfl | rfl | rfl | rfl | rfl | rfl | rfl <;>
    refine ⟨_, rfl, ?_⟩ <;> simp [plainOT, debiasedOT, hv]

/-- C23 (what the program does): when the reference position is unresolved for a record
(with RAIM the status `iret` of the solver is neither 0 nor 1; with the table of
positions no entry at or after the time of the record lies within `0.1*DT`),
`UpdateRxPosition` returns 0 and leaves `inPS` at -1, and for a satellite with a cache
entry the blocks of `ComputeNewOTs` leave `HaveEphRange` unset. The field of a requested
type among ER, TR, EL, AZ, VR, VP, LA and LO then holds 0. The branches of RL and SC test
`HaveEphThisSat`, which is set when there is ephemeris input (and the satellite
position, if it is asked for, is found): the field then gets the member `relativity` or
`svclkbias` of the local object `CER`. No statement writes these members while `inPS`
is -1, since the range is not computed; `prev` holds what they hold when the blocks are
entered, and they hold the same after the blocks, so the field gets a value that the
call never computed. The hypotheses say that the run is defined, that the type is
requested, that the requested types of another name have another observation type, and
that the record has a field for the type. -/
theorem unresolved_position_fields (rf : RxFlags) (renv : RaimEnv)
    (DataStoreMap : List (RinexSatID × RCData)) (m : List (ℚ × RefPosData)) (DT t : ℚ)
    (s : RxState) (cfg : Config) (f : EphFlags) (env : EphEnv)
    (ps : List (String × RinexObsType)) (prev : SatVars) (XRsol : Vec4) (st : OTState)
    (sat : RinexSatID) (d : RCData) (name : String) (ot : RinexObsType) (t1 t2 : Nat)
    (datum : RinexDatum)
    (hun : (rf.doRAIM = true ∧ raimIret rf renv DataStoreMap s ≠ 0 ∧
        raimIret rf renv DataStoreMap s ≠ 1) ∨
      (rf.doRAIM = false ∧ rf.RefPosFile ≠ "" ∧
        ∀ e, lower_bound m t = some e → |e.1 - t| > (1 / 10) * DT))
    (hname : name ∈ ["ER", "TR", "RL", "SC", "EL", "AZ", "VR", "VP", "LA", "LO"])
    (hkt : mapFind DataStoreMap sat = some d)
    (h1 : phaseTest cfg.rhead cfg.inL1 cfg.otL1 = some t1)
    (h2 : phaseTest cfg.rhead cfg.inL2 cfg.otL2 = some t2)
    (hreq : (name, ot) ∈ ps)
    (hty : ∀ p ∈ ps, p.2.type = ot.type → p.1 = name)
    (hfield : mapFind st.otmap ot.type = some datum) :
    (UpdateRxPosition rf renv DataStoreMap m DT t s).1 = 0 ∧
    (UpdateRxPosition rf renv DataStoreMap m DT t s).2.inPS = -1 ∧
    ∃ res datum1,
      computeSat cfg f env ps DataStoreMap
        (UpdateRxPosition rf renv DataStoreMap m DT t s).2.inPS prev XRsol st sat = some res ∧
      res.vars.HaveEphRange = false ∧
      res.vars.relativity = prev.relativity ∧ res.vars.svclkbias = prev.svclkbias ∧
      (f.inEP > -1 →
        (f.DoSVX = true →
          ∃ p, (if env.SP3size ≠ 0 then env.xvtSP3 sat else env.xvtBC sat) = some p) →
        res.vars.HaveEphThisSat = true) ∧
      mapFind res.otmap ot.type = some datum1 ∧
      datum1.data =
        (if name = "RL" then (if res.vars.HaveEphThisSat = true then prev.relativity else 0)
         else if name = "SC" then
          (if res.vars.HaveEphThisSat = true then prev.svclkbias else 0)
         else 0) := by
  have hps : (UpdateRxPosition rf renv DataStoreMap m DT t s).2.inPS = -1 := by
    rcases hun with ⟨hm, h0, h1⟩ | ⟨hm, hf, hfar⟩
    · exact (UpdateRxPosition_raim_failed rf renv DataStoreMap m DT t s hm h0 h1).1
    · exact (UpdateRxPosition_lookup_failed rf renv DataStoreMap m DT t s hm hf hfar).1
  refine ⟨UpdateRxPosition_returns _ _ _ _ _ _ _, hps, ?_⟩
  rw [hps]
  obtain ⟨pr, hpr, hpi, hpv, _, hrel, hclk, hhes⟩ := ephPrep_no_position f env sat prev
  obtain ⟨c1, c2, c3⟩ := svxStep_cer f env pr.inPS sat pr.vars
  have hv : (svxStep f env pr.inPS sat pr.vars).HaveEphRange = false := by
    rw [(svxStep_facts f env pr.inPS sat pr.vars).1]
    exact hpv
  obtain ⟨res, datum1, hres, hvars, _, hf, hval⟩ :=
    computeSat_field_value cfg f env ps DataStoreMap (-1) prev XRsol st sat d pr name ot.type
      _ t1 t2 datum hkt hpr h1 h2
      (fun ot2 reset B => computeOT_unresolved name hname ot2 sat (some d)
        (haveR (some d)) (haveP (some d)) _ (computeXRsol f.DoXR (some d) XRsol) reset B hv)
      hty hfield ⟨(name, ot), hreq, rfl⟩
  refine ⟨res, datum1, hres, ?_, ?_, ?_, ?_, hf, ?_⟩
  · rw [hvars]
    exact hv
  · rw [hvars, c1, hrel]
  · rw [hvars, c2, hclk]
  · intro hEP hx
    rw [hvars]
    apply c3
    · rw [hhes, if_pos hEP]
    · exact fun hd _ => hx hd
  · rw [hval, hvars, c1, c2, hrel, hclk]

/-- The failing input of C23: in the mode that looks the position up in the table with
entries at the times 0, 30 and 60, the record of time 33 is unresolved; with ephemeris
input the field of RL gets the member `relativity` as `CER` holds it on entry (1 in
`exVarsStale`), though the range was not computed. -/
theorem unresolved_position_fields_witness :
    (UpdateRxPosition exRxFlags exRaimEnv [(sat5, exData)] exTable 30 33 exRxState).2.inPS
      = -1 ∧
    ∃ res datum1,
      computeSat exConfig exFlags exEnvBC exTypesRL [(sat5, exData)]
        (UpdateRxPosition exRxFlags exRaimEnv [(sat5, exData)] exTable 30 33 exRxState).2.inPS
        exVarsStale ⟨0, 0, 0, 0⟩ exStateRL sat5 = some res ∧
      res.vars.HaveEphRange = false ∧
      mapFind res.otmap "RL" = some datum1 ∧ datum1.data = exVarsStale.relativity ∧
      datum1.data ≠ 0 := by
  obtain ⟨_, hps, res, datum1, hres, hr, _, _, hes, hf, hv⟩ :=
    unresolved_position_fields exRxFlags exRaimEnv [(sat5, exData)] exTable 30 33 exRxState
      exConfig exFlags exEnvBC exTypesRL exVarsStale ⟨0, 0, 0, 0⟩ exStateRL sat5 exData "RL"
      ⟨"RL", 32⟩ 2 4 ⟨0, 0, 0⟩ (Or.inr ⟨rfl, by decide, lookup_far_exTable_33⟩) (by simp)
      (by decide) phaseTest_exConfig.1 phaseTest_exConfig.2 (by decide) (by decide) (by decide)
  have hes1 : res.vars.HaveEphThisSat = true := hes (by decide) (fun _ => ⟨_, rfl⟩)
  rw [if_pos rfl, if_pos hes1] at hv
  refine ⟨hps, res, datum1, hres, hr, hf, hv, ?_⟩
  rw [hv]
  decide

/-! ## The loss-of-lock indicator of XR -/

theorem phaseSlip_iff (ot : RinexObsType) (t l : Nat) (b : Bool)
    (h : phaseSlip ot t (some l) = some b) :
    b = true ↔ (ot.depend &&& t ≠ 0 ∧ l &&& 1 ≠ 0) := by
  unfold phaseSlip at h
  by_cases hc : ot.depend &&& t ≠ 0
  · rw [if_pos hc] at h
    simp only [Option.map_some', Option.some.injEq] at h
    rw [← h, decide_eq_true_eq]
    exact ⟨fun hl => ⟨hc, hl⟩, fun hl => hl.2⟩
  · rw [if_neg hc] at h
    simp only [Option.some.injEq] at h
    rw [← h]
    exact ⟨fun hf => Bool.noConfusion hf, fun hl => absurd hl.1 hc⟩

theorem lli_bit (a : Nat) (r s1 s2 : Bool) :
    (if s2 = true then
        (if s1 = true then (if r = true then a ||| 1 else a) ||| 1
         else (if r = true then a ||| 1 else a)) ||| 1
      else
        (if s1 = true then (if r = true then a ||| 1 else a) ||| 1
         else (if r = true then a ||| 1 else a))).testBit 0 = true ↔
      (a.testBit 0 = true ∨ r = true ∨ s1 = true ∨ s2 = true) := by
  cases r <;> cases s1 <;> cases s2 <;> simp [testBit_zero_or_one]

/-- C30 (what the program does): the branch of XR executes `if(reset) lli |= 1` with the
flag `reset` as the last call of `removeBias` left it (for a type requested before XR,
or for a satellite before this one; the branch of XR does not call `removeBias`). For a
satellite with nonzero cached L1, L2, P1 and P2, bit 0 of the loss-of-lock indicator of
the field of XR is set after the pass of the loop body for XR exactly when it was set
before, or `reset` is set when the pass starts, or XR depends on a phase whose cached
loss-of-lock indicator has bit 0 set. -/
theorem XR_lli_takes_reset_flag (cfg : Config) (sat : RinexSatID) (d : RCData) (v : SatVars)
    (X : Vec4) (st : OTState) (ot : RinexObsType) (t1 t2 : Nat) (datum : RinexDatum)
    (hL1 : d.L1 ≠ 0) (hL2 : d.L2 ≠ 0) (hP1 : d.P1 ≠ 0) (hP2 : d.P2 ≠ 0)
    (h1 : phaseTest cfg.rhead cfg.inL1 cfg.otL1 = some t1)
    (h2 : phaseTest cfg.rhead cfg.inL2 cfg.otL2 = some t2)
    (hfield : mapFind st.otmap ot.type = some datum) :
    ∃ st1 datum1, otStep cfg sat (some d) v X st ("XR", ot) = some st1 ∧
      st1.reset = st.reset ∧ st1.AllBiases = st.AllBiases ∧
      mapFind st1.otmap ot.type = some datum1 ∧
      (datum1.lli.testBit 0 = true ↔
        (datum.lli.testBit 0 = true ∨ st.reset = true ∨
          (ot.depend &&& t1 ≠ 0 ∧ d.LL1 &&& 1 ≠ 0) ∨
          (ot.depend &&& t2 ≠ 0 ∧ d.LL2 &&& 1 ≠ 0))) := by
  obtain ⟨st1, hs⟩ := otStep_total cfg sat d v X st ("XR", ot) t1 t2 h1 h2
  have hr0 : computeOT "XR" ot sat (some d) (haveR (some d)) (haveP (some d)) v X st.reset
      st.AllBiases = some ⟨true, X.x0, st.reset, st.reset, st.AllBiases⟩ := by
    rw [computeOT_XR, haveR_some d hP1 hP2, haveP_some d hL1 hL2]
    simp
  rcases otStep_cases cfg sat (some d) v X st st1 ("XR", ot) hs with
    ⟨hn, _⟩ | ⟨dat, r, hd, hr, ⟨hno, _⟩ | ⟨_, u1, u2, s1, s2, hu1, hs1, hu2, hs2, he⟩⟩
  · rw [hfield] at hn
    exact Option.noConfusion hn
  · rw [hr0] at hr
    cases hr
    exact Bool.noConfusion hno
  · rw [hr0] at hr
    cases hr
    rw [hfield] at hd
    cases hd
    rw [h1] at hu1
    cases hu1
    rw [h2] at hu2
    cases hu2
    subst he
    have e1 := phaseSlip_iff ot t1 d.LL1 s1 hs1
    have e2 := phaseSlip_iff ot t2 d.LL2 s2 hs2
    refine ⟨_, ⟨X.x0,
      if s2 = true then
        (if s1 = true then (if st.reset = true then datum.lli ||| 1 else datum.lli) ||| 1
         else (if st.reset = true then datum.lli ||| 1 else datum.lli)) ||| 1
      else
        (if s1 = true then (if st.reset = true then datum.lli ||| 1 else datum.lli) ||| 1
         else (if st.reset = true then datum.lli ||| 1 else datum.lli)),
      datum.ssi⟩, hs, rfl, rfl, ?_, ?_⟩
    · simp only
      rw [mapFind_mapSet, if_pos rfl]
    · simp only
      rw [lli_bit, e1, e2]

theorem removeBias_exStateXR :
    (removeBias exStateXR.AllBiases ⟨"XI", 30⟩ sat5 5).rset = true := by
  simp [removeBias, exStateXR, setBiasLimit, mapFind, mapSet, convertObsType, sat5,
    RinexSatID.invalid, RinexSatID.lt]

/-- After the pass of the loop body for XI, the first value submitted for XI and the
satellite, the flag `reset` is set and the field of XR is as before. -/
theorem otStep_XI_example (stm : OTState)
    (h : otStep exConfig sat5 (some exData) exVars ⟨0, 5, 0, 0⟩ exStateXR ("XI", ⟨"XI", 30⟩)
      = some stm) :
    stm.reset = true ∧ mapFind stm.otmap "XR" = some ⟨0, 0, 0⟩ := by
  rcases otStep_shape exConfig sat5 (some exData) exVars ⟨0, 5, 0, 0⟩ exStateXR stm
    ("XI", ⟨"XI", 30⟩) h with ⟨hn, _⟩ | ⟨dat, r, lli, _, hr, he⟩
  · simp [mapFind, exStateXR] at hn
  · have hr0 : computeOT "XI" ⟨"XI", 30⟩ sat5 (some exData) (haveR (some exData))
        (haveP (some exData)) exVars ⟨0, 5, 0, 0⟩ exStateXR.reset exStateXR.AllBiases =
        some (debiasedOT true ⟨"XI", 30⟩ sat5 5 exStateXR.reset exStateXR.AllBiases) := by
      rw [haveR_some exData (by decide) (by decide), haveP_some exData (by decide) (by decide)]
      rfl
    rw [hr0] at hr
    cases hr
    rw [he]
    constructor
    · exact removeBias_exStateXR
    · simp only
      rw [mapFind_mapSet, if_neg (by decide)]
      rfl

theorem XR_lli_takes_reset_flag_witness :
    exData.LL1 = 0 ∧ exData.LL2 = 0 ∧
    (∃ stA dA, otLoop exConfig sat5 (some exData) exVars ⟨0, 5, 0, 0⟩ [("XR", ⟨"XR", 30⟩)]
        exStateXR = some stA ∧
      mapFind stA.otmap "XR" = some dA ∧ dA.lli.testBit 0 = false) ∧
    (∃ stB dB, otLoop exConfig sat5 (some exData) exVars ⟨0, 5, 0, 0⟩
        [("XI", ⟨"XI", 30⟩), ("XR", ⟨"XR", 30⟩)] exStateXR = some stB ∧
      mapFind stB.otmap "XR" = some dB ∧ dB.lli.testBit 0 = true) := by
  refine ⟨rfl, rfl, ?_, ?_⟩
  · obtain ⟨st1, d1, hs, _, _, hf, hbit⟩ :=
      XR_lli_takes_reset_flag exConfig sat5 exData exVars ⟨0, 5, 0, 0⟩ exStateXR ⟨"XR", 30⟩ 2 4
        ⟨0, 0, 0⟩ (by decide) (by decide) (by decide) (by decide) phaseTest_exConfig.1
        phaseTest_exConfig.2 (by simp [mapFind, exStateXR])
    refine ⟨st1, d1, ?_, hf, ?_⟩
    · rw [otLoop, hs]
      rfl
    · cases hb : d1.lli.testBit 0
      · rfl
      · have hor := hbit.mp hb
        simp [exStateXR, exData] at hor
  · obtain ⟨stm, hm⟩ := otStep_total exConfig sat5 exData exVars ⟨0, 5, 0, 0⟩ exStateXR
      ("XI", ⟨"XI", 30⟩) 2 4 phaseTest_exConfig.1 phaseTest_exConfig.2
    obtain ⟨hreset, hfm⟩ := otStep_XI_example stm hm
    obtain ⟨st1, d1, hs, _, _, hf, hbit⟩ :=
      XR_lli_takes_reset_flag exConfig sat5 exData exVars ⟨0, 5, 0, 0⟩ stm ⟨"XR", 30⟩ 2 4
        ⟨0, 0, 0⟩ (by decide) (by decide) (by decide) (by decide) phaseTest_exConfig.1
        phaseTest_exConfig.2 hfm
    refine ⟨st1, d1, ?_, hf, hbit.mpr (Or.inr (Or.inl hreset))⟩
    rw [otLoop, hm]
    simp only
    rw [otLoop, hs]
    rfl

/-! ## The cache of raw data -/

/-- C28 (what the program does): when `SaveData` meets a satellite that has no entry in
the cache, it starts from the program variable `DataStore` as the satellite saved
before left it (a satellite of this record, or the last one of an earlier record: the
cache is cleared for a record, `DataStore` is not). The entry stored for the satellite
has, for each of L1, L2, P1, P2 (and the loss-of-lock indicators of L1 and L2), the
value of the record when the record has the field, and else the value that `DataStore`
held: a field that the record does not supply is inherited. -/
theorem saveSat_inherits (obsTypeList : List RinexObsType) (xL1 xL2 xP1 xP2 : Int)
    (st : RCData × List (RinexSatID × RCData)) (entry : RinexSatID × RinexObsTypeMap)
    (hnew : mapFind st.2 ⟨entry.1.id, .systemGPS⟩ = none) :
    ∃ c, mapFind (saveSat obsTypeList xL1 xL2 xP1 xP2 st entry).2 ⟨entry.1.id, .systemGPS⟩
        = some c ∧
      (saveSat obsTypeList xL1 xL2 xP1 xP2 st entry).1 = c ∧
      c.L1 = (match findObs entry.2 obsTypeList xL1 with
        | some x => x.data
        | none => st.1.L1) ∧
      c.LL1 = (match findObs entry.2 obsTypeList xL1 with
        | some x => x.lli
        | none => st.1.LL1) ∧
      c.L2 = (match findObs entry.2 obsTypeList xL2 with
        | some x => x.data
        | none => st.1.L2) ∧
      c.LL2 = (match findObs entry.2 obsTypeList xL2 with
        | some x => x.lli
        | none => st.1.LL2) ∧
      c.P1 = (match findObs entry.2 obsTypeList xP1 with
        | some x => x.data
        | none => st.1.P1) ∧
      c.P2 = (match findObs entry.2 obsTypeList xP2 with
        | some x => x.data
        | none => st.1.P2) := by
  refine ⟨(saveSat obsTypeList xL1 xL2 xP1 xP2 st entry).1, ?_, rfl, ?_⟩
  · unfold saveSat
    simp only
    rw [mapFind_mapSet, if_pos rfl]
  · unfold saveSat
    simp only [hnew]
    cases findObs entry.2 obsTypeList xL1 <;> cases findObs entry.2 obsTypeList xL2 <;>
      cases findObs entry.2 obsTypeList xP1 <;> cases findObs entry.2 obsTypeList xP2 <;>
      exact ⟨rfl, rfl, rfl, rfl, rfl, rfl⟩

theorem saveSat_exObs5 :
    saveSat exConfig.rhead 0 1 2 3 (⟨0, 0, 0, 0, 0, 0⟩, []) exObs5 =
      (⟨105000000, 82000000, 20000000, 20000005, 0, 0⟩,
        [(sat5, ⟨105000000, 82000000, 20000000, 20000005, 0, 0⟩)]) := by
  simp [saveSat, findObs, mapFind, mapSet, exConfig, exObs5, sat5]

theorem saveSat_inherits_witness :
    ∃ c, mapFind (SaveData ⟨0, ⟨0, 0, 0, 0, 0, 0⟩, [], ⟨⟨0, 0, 0⟩, false, 0, 0, 0, 0, 0⟩, []⟩
        ⟨0, 0, 2, [exObs5, exObs7], []⟩ exConfig.rhead 0 1 2 3).DataStoreMap ⟨7, .systemGPS⟩
        = some c ∧
      c.L1 = 99 ∧ c.L2 = 82000000 ∧ c.P1 = 20000000 ∧ c.P2 = 20000005 := by
  obtain ⟨c, hc, _, h1, _, h2, _, h3, h4⟩ :=
    saveSat_inherits exConfig.rhead 0 1 2 3
      (saveSat exConfig.rhead 0 1 2 3 (⟨0, 0, 0, 0, 0, 0⟩, []) exObs5) exObs7
      (by
        rw [saveSat_exObs5]
        simp [mapFind, exObs7, sat5])
  refine ⟨c, hc, ?_, ?_, ?_, ?_⟩
  · rw [h1]
    simp [findObs, mapFind, exConfig, exObs7]
  · rw [h2, saveSat_exObs5]
    simp [findObs, mapFind, exConfig, exObs7]
  · rw [h3, saveSat_exObs5]
    simp [findObs, mapFind, exConfig, exObs7]
  · rw [h4, saveSat_exObs5]
    simp [findObs, mapFind, exConfig, exObs7]

/-! ## The satellites put on `SVDelete` -/

theorem ephGeometry_low (f : EphFlags) (env : EphEnv) (sat : RinexSatID) (inPS1 : Int)
    (base : SatVars) (r : Option (ℚ × CERData)) (pr : PrepResult)
    (h : ephGeometry f env sat inPS1 base r = some pr) :
    pr.inPS = inPS1 ∧
    (pr.lowElev = true ↔
      ∃ rho c, r = some (rho, c) ∧ f.minElev > 0 ∧ c.elevation < f.minElev) := by
  unfold ephGeometry at h
  cases r with
  | none =>
    simp only [Option.some.injEq] at h
    subst h
    refine ⟨rfl, fun hf => Bool.noConfusion hf, ?_⟩
    rintro ⟨_, _, hc, _⟩
    exact Option.noConfusion hc
  | some rc =>
    obtain ⟨rho, c⟩ := rc
    simp only at h
    by_cases hel : f.minElev > 0 ∧ c.elevation < f.minElev
    · rw [if_pos hel] at h
      simp only [Option.some.injEq] at h
      subst h
      exact ⟨rfl, fun _ => ⟨rho, c, rfl, hel.1, hel.2⟩, fun _ => rfl⟩
    · have hno : ¬ ∃ rho2 c2, some (rho, c) = some (rho2, c2) ∧ f.minElev > 0 ∧
          c2.elevation < f.minElev := by
        rintro ⟨rho2, c2, he, h1, h2⟩
        simp only [Option.some.injEq, Prod.mk.injEq] at he
        rw [← he.2] at h2
        exact hel ⟨h1, h2⟩
      rw [if_neg hel] at h
      by_cases hbc : env.BCsize > 0
      · rw [if_pos hbc] at h
        cases hg : env.getTgd sat with
        | none =>
          rw [hg] at h
          exact Option.noConfusion h
        | some g =>
          rw [hg] at h
          simp only [Option.some.injEq] at h
          subst h
          exact ⟨rfl, fun hf => Bool.noConfusion hf, fun hx => absurd hx hno⟩
      · rw [if_neg hbc] at h
        simp only [Option.some.injEq] at h
        subst h
        exact ⟨rfl, fun hf => Bool.noConfusion hf, fun hx => absurd hx hno⟩

theorem ephPrep_low (f : EphFlags) (env : EphEnv) (inPS : Int) (sat : RinexSatID)
    (prev : SatVars) (pr : PrepResult) (h : ephPrep f env inPS sat prev = some pr) :
    pr.inPS = inPSAfter f inPS ∧
    (pr.lowElev = true →
      f.minElev > 0 ∧ ∃ rho c, ephLookup env sat = some (rho, c) ∧ c.elevation < f.minElev) ∧
    (f.inEP > -1 → inPSAfter f inPS > -1 → f.minElev > 0 →
      ∀ rho c, ephLookup env sat = some (rho, c) → c.elevation < f.minElev →
        pr.lowElev = true) := by
  unfold ephPrep at h
  unfold inPSAfter
  simp only at h
  generalize (if f.doRAIM = true ∧ f.HaveRAIM = false then (-1 : Int) else inPS) = inPS1 at h ⊢
  by_cases hher : ((if f.inEP > -1 then true else prev.HaveEphThisSat) &&
      decide (inPS1 > -1)) = true
  · rw [if_pos hher] at h
    obtain ⟨e1, e2⟩ := ephGeometry_low f env sat inPS1 _ _ pr h
    refine ⟨e1, ?_, ?_⟩
    · intro hl
      obtain ⟨rho, c, hc, hm, hlt⟩ := e2.mp hl
      exact ⟨hm, rho, c, hc, hlt⟩
    · intro _ _ hm rho c hc hlt
      exact e2.mpr ⟨rho, c, hc, hm, hlt⟩
  · rw [if_neg hher] at h
    simp only [Option.some.injEq] at h
    subst h
    refine ⟨rfl, fun hf => Bool.noConfusion hf, ?_⟩
    intro hEP hps _ _ _ _ _
    exfalso
    apply hher
    rw [if_pos hEP]
    simp only [Bool.true_and, decide_eq_true_eq]
    exact hps

/-- The ephemeris block ends when `findEphemeris` finds the ephemeris of a satellite
whose range was computed (it is called only then, and only with a broadcast store that
is not empty). -/
theorem ephGeometry_total (f : EphFlags) (env : EphEnv) (sat : RinexSatID) (inPS1 : Int)
    (base : SatVars) (r : Option (ℚ × CERData))
    (htgd : env.BCsize > 0 → ∀ rho c, r = some (rho, c) → ∃ g, env.getTgd sat = some g) :
    ∃ pr, ephGeometry f env sat inPS1 base r = some pr := by
  unfold ephGeometry
  cases r with
  | none => exact ⟨_, rfl⟩
  | some rc =>
    obtain ⟨rho, c⟩ := rc
    simp only
    by_cases hel : f.minElev > 0 ∧ c.elevation < f.minElev
    · rw [if_pos hel]
      exact ⟨_, rfl⟩
    · rw [if_neg hel]
      by_cases hbc : env.BCsize > 0
      · rw [if_pos hbc]
        obtain ⟨g, hg⟩ := htgd hbc rho c rfl
        rw [hg]
        exact ⟨_, rfl⟩
      · rw [if_neg hbc]
        exact ⟨_, rfl⟩

theorem ephPrep_total (f : EphFlags) (env : EphEnv) (inPS : Int) (sat : RinexSatID)
    (prev : SatVars)
    (htgd : env.BCsize > 0 → ∀ rho c, ephLookup env sat = some (rho, c) →
      ∃ g, env.getTgd sat = some g) :
    ∃ pr, ephPrep f env inPS sat prev = some pr := by
  unfold ephPrep
  simp only
  generalize (if f.doRAIM = true ∧ f.HaveRAIM = false then (-1 : Int) else inPS) = inPS1
  by_cases hher : ((if f.inEP > -1 then true else prev.HaveEphThisSat) &&
      decide (inPS1 > -1)) = true
  · rw [if_pos hher]
    exact ephGeometry_total f env sat inPS1 _ _ htgd
  · rw [if_neg hher]
    exact ⟨_, rfl⟩

theorem computeSat_some (cfg : Config) (f : EphFlags) (env : EphEnv)
    (ps : List (String × RinexObsType)) (DataStoreMap : List (RinexSatID × RCData))
    (inPS : Int) (prev : SatVars) (XRsol : Vec4) (st : OTState) (sat : RinexSatID)
    (r : SatResult)
    (h : computeSat cfg f env ps DataStoreMap inPS prev XRsol st sat = some r) :
    ∃ pr, ephPrep f env inPS sat prev = some pr ∧ r.lowElev = pr.lowElev ∧
      r.inPS = pr.inPS := by
  unfold computeSat at h
  simp only at h
  cases hp : ephPrep f env inPS sat prev with
  | none =>
    rw [hp] at h
    exact Option.noConfusion h
  | some pr =>
    rw [hp] at h
    simp only at h
    cases hl : otLoop cfg sat (mapFind DataStoreMap sat) (svxStep f env pr.inPS sat pr.vars)
        (computeXRsol f.DoXR (mapFind DataStoreMap sat) XRsol) ps st with
    | none =>
      rw [hl] at h
      exact Option.noConfusion h
    | some st1 =>
      rw [hl] at h
      simp only [Option.some.injEq] at h
      subst h
      exact ⟨pr, rfl, rfl, rfl⟩

theorem computeSat_total (cfg : Config) (f : EphFlags) (env : EphEnv)
    (ps : List (String × RinexObsType)) (DataStoreMap : List (RinexSatID × RCData))
    (inPS : Int) (prev : SatVars) (XRsol : Vec4) (st : OTState) (sat : RinexSatID)
    (d : RCData) (t1 t2 : Nat)
    (hkt : mapFind DataStoreMap sat = some d)
    (h1 : phaseTest cfg.rhead cfg.inL1 cfg.otL1 = some t1)
    (h2 : phaseTest cfg.rhead cfg.inL2 cfg.otL2 = some t2)
    (htgd : env.BCsize > 0 → ∀ rho c, ephLookup env sat = some (rho, c) →
      ∃ g, env.getTgd sat = some g) :
    ∃ r, computeSat cfg f env ps DataStoreMap inPS prev XRsol st sat = some r := by
  obtain ⟨pr, hp⟩ := ephPrep_total f env inPS sat prev htgd
  obtain ⟨st1, hl⟩ := otLoop_total cfg sat d (svxStep f env pr.inPS sat pr.vars)
    (computeXRsol f.DoXR (some d) XRsol) t1 t2 h1 h2 ps st
  exact ⟨_, computeSat_eq cfg f env ps DataStoreMap inPS prev XRsol st st1 sat (some d) pr hkt
    hp hl⟩

theorem inPSAfter_idem (f : EphFlags) (x : Int) :
    inPSAfter f (inPSAfter f x) = inPSAfter f x := by
  unfold inPSAfter
  split_ifs <;> rfl

theorem lowFacts_congr (f : EphFlags) (env : EphEnv) (e : EditFlags) (a b : Int)
    (x : (RinexSatID × RinexObsTypeMap) × Bool) (hab : inPSAfter f a = inPSAfter f b)
    (h : LowFacts f env e a x) : LowFacts f env e b x := by
  unfold LowFacts at h ⊢
  rw [← hab]
  exact h

theorem satBody_spec (cfg : Config) (f : EphFlags) (env : EphEnv) (e : EditFlags)
    (ps : List (String × RinexObsType)) (DataStoreMap : List (RinexSatID × RCData))
    (s s1 : CNOState) (it : RinexSatID × RinexObsTypeMap)
    (h : satBody cfg f env e ps DataStoreMap s it = some s1) :
    ∃ om low, s1.obs = s.obs ++ [(it.1, om)] ∧
      s1.SVDelete = s.SVDelete ++ pushesOf e f.HaveRAIM ((it.1, om), low) ∧
      inPSAfter f s1.inPS = inPSAfter f s.inPS ∧
      LowFacts f env e s.inPS ((it.1, om), low) := by
  unfold satBody at h
  simp only at h
  by_cases hex : satExcluded e f.HaveRAIM ⟨it.1.id, .systemGPS⟩ = true
  · rw [if_pos hex] at h
    simp only [Option.some.injEq] at h
    subst h
    refine ⟨it.2, false, rfl, ?_, rfl, ?_⟩
    · unfold pushesOf
      simp only [hex, if_true]
    · unfold LowFacts
      refine ⟨fun hf => Bool.noConfusion hf, ?_⟩
      intro hne
      simp only at hne
      rw [hex] at hne
      exact Bool.noConfusion hne
  · rw [if_neg hex] at h
    cases hc : computeSat cfg f env ps DataStoreMap s.inPS s.vars s.XRsol
        ⟨it.2, s.reset, s.AllBiases⟩ ⟨it.1.id, .systemGPS⟩ with
    | none =>
      rw [hc] at h
      exact Option.noConfusion h
    | some r =>
      rw [hc] at h
      simp only [Option.some.injEq] at h
      subst h
      obtain ⟨pr, hp, hlow, hps⟩ := computeSat_some cfg f env ps DataStoreMap s.inPS s.vars
        s.XRsol _ _ r hc
      obtain ⟨p1, p2, p3⟩ := ephPrep_low f env s.inPS _ s.vars pr hp
      have hexf : satExcluded e f.HaveRAIM ⟨it.1.id, .systemGPS⟩ = false :=
        Bool.eq_false_iff.mpr hex
      refine ⟨r.otmap, r.lowElev, rfl, ?_, ?_, ?_⟩
      · unfold pushesOf
        simp only [hexf, Bool.false_eq_true, if_false]
        cases r.lowElev <;> cases allZero r.otmap <;> simp
      · simp only
        rw [hps, p1, inPSAfter_idem]
      · unfold LowFacts
        simp only
        rw [hlow]
        exact ⟨fun hl => ⟨hexf, p2 hl⟩, fun _ hEP hpos hm rho c hc2 hlt =>
          p3 hEP hpos hm rho c hc2 hlt⟩

theorem satLoop_spec (cfg : Config) (f : EphFlags) (env : EphEnv) (e : EditFlags)
    (ps : List (String × RinexObsType)) (DataStoreMap : List (RinexSatID × RCData)) :
    ∀ (es : List (RinexSatID × RinexObsTypeMap)) (s s1 : CNOState),
      satLoop cfg f env e ps DataStoreMap es s = some s1 →
      ∃ recs : List ((RinexSatID × RinexObsTypeMap) × Bool),
        s1.obs = s.obs ++ recs.map Prod.fst ∧
        recs.map (fun x => x.1.1) = es.map Prod.fst ∧
        s1.SVDelete = s.SVDelete ++ recs.flatMap (pushesOf e f.HaveRAIM) ∧
        ∀ x ∈ recs, LowFacts f env e s.inPS x := by
  intro es
  induction es with
  | nil =>
    intro s s1 h
    rw [satLoop] at h
    cases h
    exact ⟨[], by simp, rfl, by simp, fun x hx => absurd hx (List.not_mem_nil x)⟩
  | cons it rest ih =>
    intro s s1 h
    rw [satLoop] at h
    cases hb : satBody cfg f env e ps DataStoreMap s it with
    | none =>
      rw [hb] at h
      exact Option.noConfusion h
    | some sm =>
      rw [hb] at h
      simp only at h
      obtain ⟨om, low, b1, b2, b3, b4⟩ := satBody_spec cfg f env e ps DataStoreMap s sm it hb
      obtain ⟨recs, r1, r2, r3, r4⟩ := ih sm s1 h
      refine ⟨((it.1, om), low) :: recs, ?_, ?_, ?_, ?_⟩
      · rw [r1, b1, List.map_cons, List.append_assoc]
        rfl
      · rw [List.map_cons, List.map_cons, r2]
      · rw [r3, b2, List.flatMap_cons, List.append_assoc]
      · intro x hx
        rcases List.mem_cons.mp hx with hx1 | hx1
        · rw [hx1]
          exact b4
        · exact lowFacts_congr f env e sm.inPS s.inPS x b3 (r4 x hx1)

theorem satLoop_total (cfg : Config) (f : EphFlags) (env : EphEnv) (e : EditFlags)
    (ps : List (String × RinexObsType)) (DataStoreMap : List (RinexSatID × RCData))
    (t1 t2 : Nat)
    (h1 : phaseTest cfg.rhead cfg.inL1 cfg.otL1 = some t1)
    (h2 : phaseTest cfg.rhead cfg.inL2 cfg.otL2 = some t2) :
    ∀ (es : List (RinexSatID × RinexObsTypeMap)) (s : CNOState),
      (∀ it ∈ es, ∃ d, mapFind DataStoreMap ⟨it.1.id, .systemGPS⟩ = some d) →
      (∀ it ∈ es, env.BCsize > 0 →
        ∀ rho c, ephLookup env ⟨it.1.id, .systemGPS⟩ = some (rho, c) →
          ∃ g, env.getTgd ⟨it.1.id, .systemGPS⟩ = some g) →
      ∃ s1, satLoop cfg f env e ps DataStoreMap es s = some s1 := by
  intro es
  induction es with
  | nil => exact fun s _ _ => ⟨s, rfl⟩
  | cons it rest ih =>
    intro s hkt htgd
    obtain ⟨d, hd⟩ := hkt it (List.mem_cons_self it rest)
    have hbody : ∃ sm, satBody cfg f env e ps DataStoreMap s it = some sm := by
      unfold satBody
      simp only
      by_cases hex : satExcluded e f.HaveRAIM ⟨it.1.id, .systemGPS⟩ = true
      · rw [if_pos hex]
        exact ⟨_, rfl⟩
      · rw [if_neg hex]
        obtain ⟨r, hr⟩ := computeSat_total cfg f env ps DataStoreMap s.inPS s.vars s.XRsol
          ⟨it.2, s.reset, s.AllBiases⟩ ⟨it.1.id, .systemGPS⟩ d t1 t2 hd h1 h2
          (htgd it (List.mem_cons_self it rest))
        rw [hr]
        exact ⟨_, rfl⟩
    obtain ⟨sm, hsm⟩ := hbody
    rw [satLoop, hsm]
    exact ih sm (fun x hx => hkt x (List.mem_cons_of_mem it hx))
      (fun x hx => htgd x (List.mem_cons_of_mem it hx))

theorem eraseSats_spec :
    ∀ (del : List RinexSatID) (rod : RinexObsData),
      (∀ it, it ∈ (eraseSats rod del).obs ↔
        it ∈ rod.obs ∧ ∀ sv ∈ del, it.1 ≠ ⟨sv.id, .systemGPS⟩) ∧
      (eraseSats rod del).numSvs = rod.numSvs - del.length := by
  intro del
  induction del with
  | nil =>
    intro rod
    refine ⟨fun it => ⟨fun h => ⟨h, fun sv hsv => absurd hsv (List.not_mem_nil sv)⟩,
      fun h => h.1⟩, ?_⟩
    simp [eraseSats]
  | cons sv del ih =>
    intro rod
    have hstep : eraseSats rod (sv :: del) = eraseSats (eraseOne rod sv) del := rfl
    rw [hstep]
    obtain ⟨i1, i2⟩ := ih (eraseOne rod sv)
    have eo : (eraseOne rod sv).obs =
        rod.obs.filter fun it => decide (it.1 ≠ ⟨sv.id, .systemGPS⟩) := rfl
    have en : (eraseOne rod sv).numSvs = rod.numSvs - 1 := rfl
    rw [eo] at i1
    rw [en] at i2
    refine ⟨?_, ?_⟩
    · intro it
      rw [i1 it]
      simp only [List.mem_filter, decide_eq_true_eq, List.mem_cons]
      constructor
      · rintro ⟨⟨hm, hne⟩, hall⟩
        refine ⟨hm, ?_⟩
        intro x hx
        rcases hx with hx1 | hx1
        · rw [hx1]
          exact hne
        · exact hall x hx1
      · rintro ⟨hm, hall⟩
        exact ⟨⟨hm, hall sv (Or.inl rfl)⟩, fun x hx => hall x (Or.inr hx)⟩
    · rw [i2]
      simp only [List.length_cons, Nat.cast_add, Nat.cast_one]
      ring

/-- What `ComputeNewOTs` leaves, in terms of the satellites of the record after the
loop (`recs`, each with the flag of the elevation test): the list `SVDelete` holds the
satellites that the loop body put there, in order; the record keeps the entries whose
key is not `(id, GPS)` for an element of `SVDelete`; `numSvs` is counted down once for
every element of `SVDelete`. -/
theorem ComputeNewOTs_spec (cfg : Config) (f : EphFlags) (env : EphEnv) (e : EditFlags)
    (ps : List (String × RinexObsType)) (DataStoreMap : List (RinexSatID × RCData))
    (init : CNOState) (rod : RinexObsData) (out : RinexObsData × CNOState)
    (h : ComputeNewOTs cfg f env e ps DataStoreMap init rod = some out) :
    ∃ recs : List ((RinexSatID × RinexObsTypeMap) × Bool),
      out.2.obs = recs.map Prod.fst ∧
      recs.map (fun x => x.1.1) = rod.obs.map Prod.fst ∧
      out.2.SVDelete = recs.flatMap (pushesOf e f.HaveRAIM) ∧
      (∀ x ∈ recs, LowFacts f env e init.inPS x) ∧
      (∀ it, it ∈ out.1.obs ↔
        it ∈ out.2.obs ∧ ∀ sv ∈ out.2.SVDelete, it.1 ≠ ⟨sv.id, .systemGPS⟩) ∧
      out.1.numSvs = rod.numSvs - out.2.SVDelete.length := by
  unfold ComputeNewOTs at h
  cases hl : satLoop cfg f env e ps DataStoreMap rod.obs
      { init with obs := [], SVDelete := [] } with
  | none =>
    rw [hl] at h
    exact Option.noConfusion h
  | some s =>
    rw [hl] at h
    simp only [Option.some.injEq] at h
    subst h
    obtain ⟨recs, r1, r2, r3, r4⟩ := satLoop_spec cfg f env e ps DataStoreMap rod.obs _ s hl
    obtain ⟨e1, e2⟩ := eraseSats_spec s.SVDelete { rod with obs := s.obs }
    simp only [List.nil_append] at r1 r3
    exact ⟨recs, r1, r2, r3, r4, e1, e2⟩

/-- The conditions under which a call of `ComputeNewOTs` runs to its end: the header
has the types of the cached phases (`phaseTest`), every satellite of the record has an
entry in the cache (`SaveData` was called with the record), and `findEphemeris` finds
the ephemeris of every satellite of the record whose range was computed. -/
theorem ComputeNewOTs_total (cfg : Config) (f : EphFlags) (env : EphEnv) (e : EditFlags)
    (ps : List (String × RinexObsType)) (DataStoreMap : List (RinexSatID × RCData))
    (init : CNOState) (rod : RinexObsData) (t1 t2 : Nat)
    (h1 : phaseTest cfg.rhead cfg.inL1 cfg.otL1 = some t1)
    (h2 : phaseTest cfg.rhead cfg.inL2 cfg.otL2 = some t2)
    (hkt : ∀ it ∈ rod.obs, ∃ d, mapFind DataStoreMap ⟨it.1.id, .systemGPS⟩ = some d)
    (htgd : ∀ it ∈ rod.obs, env.BCsize > 0 →
      ∀ rho c, ephLookup env ⟨it.1.id, .systemGPS⟩ = some (rho, c) →
        ∃ g, env.getTgd ⟨it.1.id, .systemGPS⟩ = some g) :
    ∃ out, ComputeNewOTs cfg f env e ps DataStoreMap init rod = some out := by
  obtain ⟨s, hs⟩ := satLoop_total cfg f env e ps DataStoreMap t1 t2 h1 h2 rod.obs
    { init with obs := [], SVDelete := [] } hkt htgd
  unfold ComputeNewOTs
  rw [hs]
  exact ⟨_, rfl⟩

theorem pushed_of_flag (e : EditFlags) (HaveRAIM : Bool)
    (recs : List ((RinexSatID × RinexObsTypeMap) × Bool))
    (x : (RinexSatID × RinexObsTypeMap) × Bool) (hx : x ∈ recs)
    (hflag : satExcluded e HaveRAIM ⟨x.1.1.id, .systemGPS⟩ = true ∨ x.2 = true ∨
      allZero x.1.2 = true) :
    (⟨x.1.1.id, .systemGPS⟩ : RinexSatID) ∈ recs.flatMap (pushesOf e HaveRAIM) := by
  rw [List.mem_flatMap]
  refine ⟨x, hx, ?_⟩
  unfold pushesOf
  by_cases hex : satExcluded e HaveRAIM ⟨x.1.1.id, .systemGPS⟩ = true
  · rw [if_pos hex]
    exact List.mem_singleton_self _
  · rw [if_neg hex]
    rcases hflag with h | h | h
    · exact absurd h hex
    · rw [if_pos h]
      exact List.mem_append_left _ (List.mem_singleton_self _)
    · rw [if_pos h]
      exact List.mem_append_right _ (List.mem_singleton_self _)

theorem flag_of_pushed (e : EditFlags) (HaveRAIM : Bool)
    (recs : List ((RinexSatID × RinexObsTypeMap) × Bool)) (sv : RinexSatID)
    (h : sv ∈ recs.flatMap (pushesOf e HaveRAIM)) :
    ∃ x ∈ recs, sv = ⟨x.1.1.id, .systemGPS⟩ ∧
      (satExcluded e HaveRAIM ⟨x.1.1.id, .systemGPS⟩ = true ∨ x.2 = true ∨
        allZero x.1.2 = true) := by
  rw [List.mem_flatMap] at h
  obtain ⟨x, hx, hm⟩ := h
  refine ⟨x, hx, ?_⟩
  unfold pushesOf at hm
  by_cases hex : satExcluded e HaveRAIM ⟨x.1.1.id, .systemGPS⟩ = true
  · rw [if_pos hex] at hm
    exact ⟨List.mem_singleton.mp hm, Or.inl hex⟩
  · rw [if_neg hex] at hm
    rcases List.mem_append.mp hm with hm1 | hm1
    · by_cases hl : x.2 = true
      · rw [if_pos hl] at hm1
        exact ⟨List.mem_singleton.mp hm1, Or.inr (Or.inl hl)⟩
      · rw [if_neg hl] at hm1
        exact absurd hm1 (List.not_mem_nil sv)
    · by_cases hz : allZero x.1.2 = true
      · rw [if_pos hz] at hm1
        exact ⟨List.mem_singleton.mp hm1, Or.inr (Or.inr hz)⟩
      · rw [if_neg hz] at hm1
        exact absurd hm1 (List.not_mem_nil sv)

theorem gps_eta (k : RinexSatID) (hk : k.system = .systemGPS) :
    (⟨k.id, .systemGPS⟩ : RinexSatID) = k := by
  cases k
  simp only at hk
  rw [hk]

/-- An excluded satellite whose key in the record has the system GPS is not in the
record after `ComputeNewOTs`. -/
theorem ComputeNewOTs_excluded_removed (cfg : Config) (f : EphFlags) (env : EphEnv)
    (e : EditFlags) (ps : List (String × RinexObsType))
    (DataStoreMap : List (RinexSatID × RCData)) (init : CNOState) (rod : RinexObsData)
    (out : RinexObsData × CNOState)
    (h : ComputeNewOTs cfg f env e ps DataStoreMap init rod = some out)
    (k : RinexSatID) (hk : k ∈ rod.obs.map Prod.fst) (hgps : k.system = .systemGPS)
    (hex : satExcluded e f.HaveRAIM ⟨k.id, .systemGPS⟩ = true) :
    ∀ y ∈ out.1.obs, y.1 ≠ k := by
  obtain ⟨recs, _, r2, r3, _, r5, _⟩ := ComputeNewOTs_spec cfg f env e ps DataStoreMap init rod
    out h
  rw [← r2, List.mem_map] at hk
  obtain ⟨x, hx, hxk⟩ := hk
  have hpush : (⟨k.id, .systemGPS⟩ : RinexSatID) ∈ out.2.SVDelete := by
    rw [r3, ← hxk]
    apply pushed_of_flag e f.HaveRAIM recs x hx
    left
    rw [hxk]
    exact hex
  intro y hy
  have hne := ((r5 y).mp hy).2 ⟨k.id, .systemGPS⟩ hpush
  rw [gps_eta k hgps] at hne
  exact hne

/-- A satellite of the record whose key has the system GPS has a flag `low` of the
elevation test. It is not in the record after `ComputeNewOTs` when it is excluded, the
elevation test put it on `SVDelete`, or its fields are all 0.0 after the pass; it stays
in the record when none of the three holds and no other entry of the record has its id
(an entry of another system with the same id puts the same key on `SVDelete`). -/
theorem ComputeNewOTs_record (cfg : Config) (f : EphFlags) (env : EphEnv)
    (e : EditFlags) (ps : List (String × RinexObsType))
    (DataStoreMap : List (RinexSatID × RCData)) (init : CNOState) (rod : RinexObsData)
    (out : RinexObsData × CNOState)
    (h : ComputeNewOTs cfg f env e ps DataStoreMap init rod = some out)
    (hnd : (rod.obs.map Prod.fst).Nodup)
    (it : RinexSatID × RinexObsTypeMap) (hit : it ∈ out.2.obs)
    (hg : it.1.system = .systemGPS) :
    ∃ low : Bool, LowFacts f env e init.inPS (it, low) ∧
      ((satExcluded e f.HaveRAIM ⟨it.1.id, .systemGPS⟩ = true ∨ low = true ∨
          allZero it.2 = true) → ∀ y ∈ out.1.obs, y.1 ≠ it.1) ∧
      ((∀ o ∈ rod.obs, o.1.id = it.1.id → o.1 = it.1) →
        satExcluded e f.HaveRAIM ⟨it.1.id, .systemGPS⟩ = false → low = false →
        allZero it.2 = false → it ∈ out.1.obs) := by
  obtain ⟨recs, r1, r2, r3, r4, r5, _⟩ := ComputeNewOTs_spec cfg f env e ps DataStoreMap init
    rod out h
  have hnd2 : (recs.map (fun x => x.1.1)).Nodup := by
    rw [r2]
    exact hnd
  rw [r1, List.mem_map] at hit
  obtain ⟨x, hx, hxi⟩ := hit
  subst hxi
  refine ⟨x.2, r4 x hx, ?_, ?_⟩
  · intro hflag y hy
    have hpush := pushed_of_flag e f.HaveRAIM recs x hx hflag
    rw [← r3] at hpush
    have hne := ((r5 y).mp hy).2 _ hpush
    simp only at hne
    rw [gps_eta x.1.1 hg] at hne
    exact hne
  · intro huniq n1 n2 n3
    rw [r5]
    refine ⟨?_, ?_⟩
    · rw [r1]
      exact List.mem_map_of_mem Prod.fst hx
    · intro sv hsv heq
      rw [r3] at hsv
      obtain ⟨y, hy, hsy, hflag⟩ := flag_of_pushed e f.HaveRAIM recs sv hsv
      have hym : y.1.1 ∈ rod.obs.map Prod.fst := by
        rw [← r2]
        exact List.mem_map_of_mem (fun x => x.1.1) hy
      obtain ⟨o, ho, hoy⟩ := List.mem_map.mp hym
      have hid : o.1.id = x.1.1.id := by
        rw [hoy, heq, hsy]
      have hxy : x.1.1 = y.1.1 := by
        rw [← hoy]
        exact (huniq o ho hid).symm
      have hxe : x = y := List.inj_on_of_nodup_map hnd2 hx hy hxy
      rw [← hxe] at hflag
      rcases hflag with hf | hf | hf
      · rw [n1] at hf
        exact Bool.noConfusion hf
      · rw [n2] at hf
        exact Bool.noConfusion hf
      · rw [n3] at hf
        exact Bool.noConfusion hf

/-- An entry of the record whose key has another system than GPS is never erased: the
loop `delete satellites` erases keys of the system GPS only. -/
theorem ComputeNewOTs_other_system (cfg : Config) (f : EphFlags) (env : EphEnv)
    (e : EditFlags) (ps : List (String × RinexObsType))
    (DataStoreMap : List (RinexSatID × RCData)) (init : CNOState) (rod : RinexObsData)
    (out : RinexObsData × CNOState)
    (h : ComputeNewOTs cfg f env e ps DataStoreMap init rod = some out)
    (it : RinexSatID × RinexObsTypeMap) (hit : it ∈ out.2.obs)
    (hg : it.1.system ≠ .systemGPS) : it ∈ out.1.obs := by
  obtain ⟨recs, _, _, _, _, r5, _⟩ := ComputeNewOTs_spec cfg f env e ps DataStoreMap init
    rod out h
  rw [r5]
  refine ⟨hit, ?_⟩
  intro sv _ heq
  apply hg
  rw [heq]

/-- Every satellite of the record that is excluded at the start of the loop body is put
on `SVDelete`, with the system GPS. -/
theorem ComputeNewOTs_excluded_pushed (cfg : Config) (f : EphFlags) (env : EphEnv)
    (e : EditFlags) (ps : List (String × RinexObsType))
    (DataStoreMap : List (RinexSatID × RCData)) (init : CNOState) (rod : RinexObsData)
    (out : RinexObsData × CNOState)
    (h : ComputeNewOTs cfg f env e ps DataStoreMap init rod = some out)
    (k : RinexSatID) (hk : k ∈ rod.obs.map Prod.fst)
    (hex : satExcluded e f.HaveRAIM ⟨k.id, .systemGPS⟩ = true) :
    (⟨k.id, .systemGPS⟩ : RinexSatID) ∈ out.2.SVDelete := by
  obtain ⟨recs, _, r2, r3, _, _, _⟩ := ComputeNewOTs_spec cfg f env e ps DataStoreMap init rod
    out h
  rw [← r2, List.mem_map] at hk
  obtain ⟨x, hx, hxk⟩ := hk
  rw [r3, ← hxk]
  apply pushed_of_flag e f.HaveRAIM recs x hx
  left
  rw [hxk]
  exact hex

/-! ## Claims on the satellites removed from a record -/

theorem ComputeNewOTs_keys (cfg : Config) (f : EphFlags) (env : EphEnv)
    (e : EditFlags) (ps : List (String × RinexObsType))
    (DataStoreMap : List (RinexSatID × RCData)) (init : CNOState) (rod : RinexObsData)
    (out : RinexObsData × CNOState)
    (h : ComputeNewOTs cfg f env e ps DataStoreMap init rod = some out) :
    out.2.obs.map Prod.fst = rod.obs.map Prod.fst ∧ ∀ it ∈ out.1.obs, it ∈ out.2.obs := by
  obtain ⟨recs, r1, r2, _, _, r5, _⟩ := ComputeNewOTs_spec cfg f env e ps DataStoreMap init rod
    out h
  refine ⟨?_, fun it hit => ((r5 it).mp hit).1⟩
  rw [r1, List.map_map, ← r2]
  rfl

/-- The failing input of C24 in its least form: with `--SVonly G07` and a record that
holds the GLONASS satellite 5 only, the loop puts `(5, GPS)` on `SVDelete`, the record
has no entry of that key, and the entry of the GLONASS satellite stays in the record,
while `numSvs` is counted down from 1 to 0. -/
theorem SVonly_keeps_other_system :
    ∃ out, ComputeNewOTs exConfig exFlags exEnvBC exEditOnly7 [] [] exInit
        ⟨0, 0, 1, [exObsR5], []⟩ = some out ∧
      out.2.SVDelete = [⟨5, .systemGPS⟩] ∧
      out.1.obs = [exObsR5] ∧ exObsR5.1 ≠ exEditOnly7.SVonly ∧ out.1.numSvs = 0 :=
  ⟨_, rfl, rfl, rfl, by decide, rfl⟩

/-- C24 (what the program does): with a satellite selected by `--SVonly`
(`SVonly.id > 0`), after a call of `ComputeNewOTs` that runs to its end every entry
left in the record whose key has the system GPS is the selected satellite's. Every
satellite of the record whose id, taken with the system GPS, is not the selected
satellite is put on `SVDelete` and counted off `numSvs`; but an entry whose key has
another system is never erased, so such a satellite stays in the record though it is
not the selected one. The last part gives conditions under which the call runs to its
end: the header has the types of the cached phases, every satellite of the record has a
cache entry, and `findEphemeris` finds the ephemeris of a satellite whose range was
computed. -/
theorem SVonly_keeps_selected (cfg : Config) (f : EphFlags) (env : EphEnv)
    (e : EditFlags) (ps : List (String × RinexObsType))
    (DataStoreMap : List (RinexSatID × RCData)) (init : CNOState) (rod : RinexObsData)
    (hsel : e.SVonly.id > 0) :
    (∀ out, ComputeNewOTs cfg f env e ps DataStoreMap init rod = some out →
      (∀ it ∈ out.1.obs, it.1.system = .systemGPS → it.1 = e.SVonly) ∧
      (∀ it ∈ rod.obs, (⟨it.1.id, .systemGPS⟩ : RinexSatID) ≠ e.SVonly →
        (⟨it.1.id, .systemGPS⟩ : RinexSatID) ∈ out.2.SVDelete) ∧
      (∀ it ∈ out.2.obs, it.1.system ≠ .systemGPS → it ∈ out.1.obs) ∧
      out.2.obs.map Prod.fst = rod.obs.map Prod.fst ∧
      out.1.numSvs = rod.numSvs - out.2.SVDelete.length) ∧
    (∀ t1 t2, phaseTest cfg.rhead cfg.inL1 cfg.otL1 = some t1 →
      phaseTest cfg.rhead cfg.inL2 cfg.otL2 = some t2 →
      (∀ it ∈ rod.obs, ∃ d, mapFind DataStoreMap ⟨it.1.id, .systemGPS⟩ = some d) →
      (∀ it ∈ rod.obs, env.BCsize > 0 →
        ∀ rho c, ephLookup env ⟨it.1.id, .systemGPS⟩ = some (rho, c) →
          ∃ g, env.getTgd ⟨it.1.id, .systemGPS⟩ = some g) →
      ∃ out, ComputeNewOTs cfg f env e ps DataStoreMap init rod = some out) := by
  refine ⟨?_, fun t1 t2 h1 h2 hkt htgd =>
    ComputeNewOTs_total cfg f env e ps DataStoreMap init rod t1 t2 h1 h2 hkt htgd⟩
  intro out hout
  obtain ⟨hkeys, hsub⟩ := ComputeNewOTs_keys cfg f env e ps DataStoreMap init rod out hout
  have hexc : ∀ k : RinexSatID, (⟨k.id, .systemGPS⟩ : RinexSatID) ≠ e.SVonly →
      satExcluded e f.HaveRAIM ⟨k.id, .systemGPS⟩ = true := by
    intro k hne
    unfold satExcluded
    simp only [Bool.or_eq_true, decide_eq_true_eq]
    exact Or.inl ⟨hsel, hne⟩
  refine ⟨?_, ?_, ?_, hkeys, ?_⟩
  · intro it hit hg
    by_contra hne
    have hk : it.1 ∈ rod.obs.map Prod.fst := by
      rw [← hkeys]
      exact List.mem_map_of_mem Prod.fst (hsub it hit)
    have hne2 : (⟨it.1.id, .systemGPS⟩ : RinexSatID) ≠ e.SVonly := by
      rw [gps_eta it.1 hg]
      exact hne
    exact ComputeNewOTs_excluded_removed cfg f env e ps DataStoreMap init rod out hout it.1 hk
      hg (hexc it.1 hne2) it hit rfl
  · intro it hit hne
    exact ComputeNewOTs_excluded_pushed cfg f env e ps DataStoreMap init rod out hout it.1
      (List.mem_map_of_mem Prod.fst hit) (hexc it.1 hne)
  · intro it hit hg
    exact ComputeNewOTs_other_system cfg f env e ps DataStoreMap init rod out hout it hit hg
  · obtain ⟨recs, _, _, _, _, _, hn⟩ :=
      ComputeNewOTs_spec cfg f env e ps DataStoreMap init rod out hout
    exact hn

/-- The failing input of C24: with `--SVonly G07` and a record of the satellites G05,
G07 and R09 (`numSvs = 3`), the entry of G05 is erased, the entries of G07 and of the
GLONASS satellite 9 are left, and `numSvs` is 1. -/
theorem SVonly_keeps_selected_witness :
    ∃ out, ComputeNewOTs exConfig exFlags exEnvBC exEditOnly7 exTypes exCache9 exInit
        exRodMixed = some out ∧
      (∀ it ∈ out.1.obs, it.1.system = .systemGPS → it.1 = exEditOnly7.SVonly) ∧
      out.2.SVDelete = [⟨5, .systemGPS⟩, ⟨9, .systemGPS⟩] ∧
      out.1.obs = [exObs7, exObsR9] ∧ out.1.numSvs = 1 :=
  ⟨_, rfl,
    ((SVonly_keeps_selected exConfig exFlags exEnvBC exEditOnly7 exTypes exCache9 exInit
      exRodMixed (by decide)).1 _ rfl).1, rfl, rfl, rfl⟩

/-- C25, as stated, fails with the option `--noRAIMedit` (`editRAIM` not set): the RAIM
solution is accepted, `Sats` holds the identifier of satellite 5 with the id negated,
and the record of satellite 5 stays in the record. -/
theorem RAIM_outlier_kept_without_edit :
    exFlagsRAIM.HaveRAIM = true ∧
    (⟨-5, .systemGPS⟩ : RinexSatID) ∈ exEditNoRAIM.Sats ∧
    ∃ out, ComputeNewOTs exConfig exFlagsRAIM exEnvBC exEditNoRAIM exTypes exCache exInit
        ⟨0, 0, 1, [exObs5], []⟩ = some out ∧
      out.2.SVDelete = [] ∧ out.1.obs = [exObs5] :=
  ⟨rfl, by decide, _, rfl, rfl, rfl⟩

/-- C25 (amended): when the RAIM solution is accepted (`HaveRAIM`), the data are edited
on it (`editRAIM`, the default, not turned off by `--noRAIMedit`) and `Sats` holds the
identifier of a satellite with the id negated, then for a satellite of the record whose
key has the system GPS the record has no entry of that satellite after a call of
`ComputeNewOTs` that runs to its end. The last part gives conditions under which the
call runs to its end: the header has the types of the cached phases, every satellite of
the record has a cache entry, and `findEphemeris` finds the ephemeris of a satellite
whose range was computed. -/
theorem RAIM_outlier_removed (cfg : Config) (f : EphFlags) (env : EphEnv)
    (e : EditFlags) (ps : List (String × RinexObsType))
    (DataStoreMap : List (RinexSatID × RCData)) (init : CNOState) (rod : RinexObsData)
    (it : RinexSatID × RinexObsTypeMap)
    (hedit : e.editRAIM = true) (hraim : f.HaveRAIM = true)
    (hit : it ∈ rod.obs) (hg : it.1.system = .systemGPS)
    (hflag : (⟨-it.1.id, .systemGPS⟩ : RinexSatID) ∈ e.Sats) :
    (∀ out, ComputeNewOTs cfg f env e ps DataStoreMap init rod = some out →
      ∀ y ∈ out.1.obs, y.1 ≠ it.1) ∧
    (∀ t1 t2, phaseTest cfg.rhead cfg.inL1 cfg.otL1 = some t1 →
      phaseTest cfg.rhead cfg.inL2 cfg.otL2 = some t2 →
      (∀ it ∈ rod.obs, ∃ d, mapFind DataStoreMap ⟨it.1.id, .systemGPS⟩ = some d) →
      (∀ it ∈ rod.obs, env.BCsize > 0 →
        ∀ rho c, ephLookup env ⟨it.1.id, .systemGPS⟩ = some (rho, c) →
          ∃ g, env.getTgd ⟨it.1.id, .systemGPS⟩ = some g) →
      ∃ out, ComputeNewOTs cfg f env e ps DataStoreMap init rod = some out) := by
  refine ⟨?_, fun t1 t2 h1 h2 hkt htgd =>
    ComputeNewOTs_total cfg f env e ps DataStoreMap init rod t1 t2 h1 h2 hkt htgd⟩
  intro out hout
  have hex : satExcluded e f.HaveRAIM ⟨it.1.id, .systemGPS⟩ = true := by
    unfold satExcluded
    simp only [hedit, hraim, Bool.true_and, Bool.or_eq_true, decide_eq_true_eq]
    exact Or.inr hflag
  exact ComputeNewOTs_excluded_removed cfg f env e ps DataStoreMap init rod out hout it.1
    (List.mem_map_of_mem Prod.fst hit) hg hex

theorem RAIM_outlier_removed_witness :
    ∃ out, ComputeNewOTs exConfig exFlagsRAIM exEnvBC exEditRAIM exTypes exCache exInit exRod
        = some out ∧
      (∀ y ∈ out.1.obs, y.1 ≠ exObs5.1) ∧ out.1.obs = [exObs7] :=
  ⟨_, rfl,
    (RAIM_outlier_removed exConfig exFlagsRAIM exEnvBC exEditRAIM exTypes exCache exInit exRod
      exObs5 rfl rfl (by simp [exRod]) rfl (by decide)).1 _ rfl, rfl⟩

/-- The failing input of C26 in its least form: with the mask 50 the elevation 45 is
resolved for the satellite 5 and the satellite is put on the list of the satellites to
delete, but the erasure looks for the key `(5, GPS)` and the record of the GLONASS
satellite 5 stays. -/
theorem low_elevation_other_system_kept :
    ephLookup exEnvBC ⟨5, .systemGPS⟩ = some (21000000, exCER) ∧
    exCER.elevation < exFlagsMask.minElev ∧
    ∃ out, ComputeNewOTs exConfig exFlagsMask exEnvBC exEdit exTypes exCache exInit
        ⟨0, 0, 1, [exObsR5], []⟩ = some out ∧
      out.2.SVDelete = [⟨5, .systemGPS⟩] ∧ out.1.obs = [exObsR5] :=
  ⟨rfl, by decide, _, rfl, rfl, rfl⟩

/-- C26 (what the program does): with ephemeris input, a receiver position and an
elevation mask `minElev > 0`, after a call of `ComputeNewOTs` that runs to its end, for
a satellite of the record whose key has the system GPS and whose geometry is resolved
(the ephemeris lookup gives the range data `c`): if `c.elevation < minElev` the record
has no entry of the satellite; if `minElev ≤ c.elevation` and no other entry of the
record has the id of the satellite, the entry stays exactly when the satellite is not
excluded by the selection or by RAIM and its fields are not all 0.0. An entry whose key
has another system is never erased, so a satellite of another system stays in the
record whatever its elevation is. `out.2.obs` is the record after the loop over the
satellites, before the erasures. The last part gives conditions under which the call
runs to its end. -/
theorem low_elevation_removed (cfg : Config) (f : EphFlags) (env : EphEnv)
    (e : EditFlags) (ps : List (String × RinexObsType))
    (DataStoreMap : List (RinexSatID × RCData)) (init : CNOState) (rod : RinexObsData)
    (hEP : f.inEP > -1) (hps : inPSAfter f init.inPS > -1) (hm : f.minElev > 0)
    (hnd : (rod.obs.map Prod.fst).Nodup) :
    (∀ out, ComputeNewOTs cfg f env e ps DataStoreMap init rod = some out →
      out.2.obs.map Prod.fst = rod.obs.map Prod.fst ∧
      (∀ it ∈ out.2.obs, it.1.system ≠ .systemGPS → it ∈ out.1.obs) ∧
      ∀ it ∈ out.2.obs, it.1.system = .systemGPS →
        ∀ rho c, ephLookup env ⟨it.1.id, .systemGPS⟩ = some (rho, c) →
          (c.elevation < f.minElev → ∀ y ∈ out.1.obs, y.1 ≠ it.1) ∧
          (f.minElev ≤ c.elevation →
            (∀ o ∈ rod.obs, o.1.id = it.1.id → o.1 = it.1) →
            (it ∈ out.1.obs ↔
              satExcluded e f.HaveRAIM ⟨it.1.id, .systemGPS⟩ = false ∧
                allZero it.2 = false))) ∧
    (∀ t1 t2, phaseTest cfg.rhead cfg.inL1 cfg.otL1 = some t1 →
      phaseTest cfg.rhead cfg.inL2 cfg.otL2 = some t2 →
      (∀ it ∈ rod.obs, ∃ d, mapFind DataStoreMap ⟨it.1.id, .systemGPS⟩ = some d) →
      (∀ it ∈ rod.obs, env.BCsize > 0 →
        ∀ rho c, ephLookup env ⟨it.1.id, .systemGPS⟩ = some (rho, c) →
          ∃ g, env.getTgd ⟨it.1.id, .systemGPS⟩ = some g) →
      ∃ out, ComputeNewOTs cfg f env e ps DataStoreMap init rod = some out) := by
  refine ⟨?_, fun t1 t2 h1 h2 hkt htgd =>
    ComputeNewOTs_total cfg f env e ps DataStoreMap init rod t1 t2 h1 h2 hkt htgd⟩
  intro out hout
  refine ⟨(ComputeNewOTs_keys cfg f env e ps DataStoreMap init rod out hout).1,
    fun it hit hg =>
      ComputeNewOTs_other_system cfg f env e ps DataStoreMap init rod out hout it hit hg, ?_⟩
  intro it hit hg rho c hl
  obtain ⟨low, hlow, hrem, hstay⟩ :=
    ComputeNewOTs_record cfg f env e ps DataStoreMap init rod out hout hnd it hit hg
  unfold LowFacts at hlow
  constructor
  · intro hlt
    by_cases hex : satExcluded e f.HaveRAIM ⟨it.1.id, .systemGPS⟩ = true
    · exact hrem (Or.inl hex)
    · have hl1 : low = true :=
        hlow.2 (Bool.eq_false_iff.mpr hex) hEP hps hm rho c hl hlt
      exact hrem (Or.inr (Or.inl hl1))
  · intro hge huniq
    have hl0 : low = false := by
      cases hlw : low with
      | false => rfl
      | true =>
        obtain ⟨_, _, rho1, c1, hl1, hlt⟩ := hlow.1 hlw
        rw [hl] at hl1
        cases hl1
        exact absurd hlt (not_lt.mpr hge)
    constructor
    · intro hin
      refine ⟨?_, ?_⟩
      · exact Bool.eq_false_iff.mpr (fun hc => hrem (Or.inl hc) it hin rfl)
      · exact Bool.eq_false_iff.mpr (fun hc => hrem (Or.inr (Or.inr hc)) it hin rfl)
    · rintro ⟨n1, n3⟩
      exact hstay huniq n1 hl0 n3

/-- The failing input of C26: with the mask 50 and the elevation 45 of both satellites,
a record of G07 and of the GLONASS satellite 5 (`numSvs = 2`): both are put on
`SVDelete`, the entry of G07 is erased, the entry of the GLONASS satellite stays, and
`numSvs` is 0. -/
theorem low_elevation_removed_witness :
    ∃ out, ComputeNewOTs exConfig exFlagsMask exEnvBC exEdit exTypes exCache exInit
        ⟨0, 0, 2, [exObs7, exObsR5], []⟩ = some out ∧
      (∀ it ∈ out.2.obs, it.1.system ≠ .systemGPS → it ∈ out.1.obs) ∧
      out.2.SVDelete = [⟨7, .systemGPS⟩, ⟨5, .systemGPS⟩] ∧
      out.1.obs = [exObsR5] ∧ out.1.numSvs = 0 :=
  ⟨_, rfl,
    ((low_elevation_removed exConfig exFlagsMask exEnvBC exEdit exTypes exCache exInit
      ⟨0, 0, 2, [exObs7, exObsR5], []⟩ (by decide) (by decide) (by decide)
      (by decide)).1 _ rfl).2.1, rfl, rfl, rfl⟩

/-- The elevation test is strict: with the mask 45 and the elevation 45 of both
satellites of a record of G05 and G07, no satellite is put on `SVDelete` and both
entries stay. -/
theorem low_elevation_at_mask_kept :
    ∃ out, ComputeNewOTs exConfig exFlagsMask45 exEnvBC exEdit exTypes exCache exInit exRod
        = some out ∧
      out.2.SVDelete = [] ∧ out.1.obs = [exObs5, exObs7] ∧ out.1.numSvs = 2 :=
  ⟨_, rfl, rfl, rfl, rfl⟩

/-- The failing input of C27: the record holds G05 with fields that are not 0.0 and the
GLONASS satellite 5 with the only field 0.0. The GLONASS satellite is put on the list
of the satellites to delete as `(5, GPS)`, so the erasure takes the entry of G05, which
meets no exclusion condition, and the all-zero entry of the GLONASS satellite stays. -/
theorem all_zero_other_system_kept :
    allZero exObsR5Zero.2 = true ∧ allZero exObs5.2 = false ∧
    satExcluded exEdit exFlags.HaveRAIM exObs5.1 = false ∧ exFlags.minElev = 0 ∧
    ∃ out, ComputeNewOTs exConfig exFlags exEnvBC exEdit exTypes exCache exInit
        ⟨0, 0, 2, [exObs5, exObsR5Zero], []⟩ = some out ∧
      out.2.obs = [exObs5, exObsR5Zero] ∧
      out.2.SVDelete = [⟨5, .systemGPS⟩] ∧ out.1.obs = [exObsR5Zero] :=
  ⟨rfl, rfl, rfl, rfl, _, rfl, rfl, rfl, rfl⟩

/-- C27 (what the program does): after a call of `ComputeNewOTs` that runs to its end,
with `out.2.obs` the record after the loop over the satellites (the requested types
computed), before the erasures, for an entry whose key has the system GPS: when its
fields are all 0.0 it is not in the record afterwards; when a field is not 0.0, the
satellite is not excluded by the selection or by RAIM, the elevation test did not fail
for it (no mask, or no range data below the mask) and no other entry of the record has
its id, it stays. An entry whose key has another system is never erased, also when its
fields are all 0.0; it is put on `SVDelete` with the system GPS, and the entry of the
GPS satellite of the same id, if there is one, is erased for it. The last part gives
conditions under which the call runs to its end. -/
theorem all_zero_removed (cfg : Config) (f : EphFlags) (env : EphEnv)
    (e : EditFlags) (ps : List (String × RinexObsType))
    (DataStoreMap : List (RinexSatID × RCData)) (init : CNOState) (rod : RinexObsData)
    (hnd : (rod.obs.map Prod.fst).Nodup) :
    (∀ out, ComputeNewOTs cfg f env e ps DataStoreMap init rod = some out →
      out.2.obs.map Prod.fst = rod.obs.map Prod.fst ∧
      (∀ it ∈ out.2.obs, it.1.system ≠ .systemGPS → it ∈ out.1.obs) ∧
      (∀ it ∈ out.2.obs, allZero it.2 = true → ∀ y ∈ out.1.obs, y.1 ≠ ⟨it.1.id, .systemGPS⟩) ∧
      ∀ it ∈ out.2.obs, it.1.system = .systemGPS →
        (allZero it.2 = true → ∀ y ∈ out.1.obs, y.1 ≠ it.1) ∧
        (allZero it.2 = false →
          satExcluded e f.HaveRAIM ⟨it.1.id, .systemGPS⟩ = false →
          ¬ (f.minElev > 0 ∧ ∃ rho c, ephLookup env ⟨it.1.id, .systemGPS⟩ = some (rho, c) ∧
            c.elevation < f.minElev) →
          (∀ o ∈ rod.obs, o.1.id = it.1.id → o.1 = it.1) →
          it ∈ out.1.obs)) ∧
    (∀ t1 t2, phaseTest cfg.rhead cfg.inL1 cfg.otL1 = some t1 →
      phaseTest cfg.rhead cfg.inL2 cfg.otL2 = some t2 →
      (∀ it ∈ rod.obs, ∃ d, mapFind DataStoreMap ⟨it.1.id, .systemGPS⟩ = some d) →
      (∀ it ∈ rod.obs, env.BCsize > 0 →
        ∀ rho c, ephLookup env ⟨it.1.id, .systemGPS⟩ = some (rho, c) →
          ∃ g, env.getTgd ⟨it.1.id, .systemGPS⟩ = some g) →
      ∃ out, ComputeNewOTs cfg f env e ps DataStoreMap init rod = some out) := by
  refine ⟨?_, fun t1 t2 h1 h2 hkt htgd =>
    ComputeNewOTs_total cfg f env e ps DataStoreMap init rod t1 t2 h1 h2 hkt htgd⟩
  intro out hout
  refine ⟨(ComputeNewOTs_keys cfg f env e ps DataStoreMap init rod out hout).1,
    fun it hit hg =>
      ComputeNewOTs_other_system cfg f env e ps DataStoreMap init rod out hout it hit hg,
    ?_, ?_⟩
  · intro it hit hz y hy
    obtain ⟨recs, r1, _, r3, _, r5, _⟩ :=
      ComputeNewOTs_spec cfg f env e ps DataStoreMap init rod out hout
    rw [r1, List.mem_map] at hit
    obtain ⟨x, hx, hxi⟩ := hit
    subst hxi
    have hpush := pushed_of_flag e f.HaveRAIM recs x hx (Or.inr (Or.inr hz))
    rw [← r3] at hpush
    exact ((r5 y).mp hy).2 ⟨x.1.1.id, .systemGPS⟩ hpush
  · intro it hit hg
    obtain ⟨low, hlow, hrem, hstay⟩ :=
      ComputeNewOTs_record cfg f env e ps DataStoreMap init rod out hout hnd it hit hg
    unfold LowFacts at hlow
    constructor
    · intro hz
      exact hrem (Or.inr (Or.inr hz))
    · intro hz hex hel huniq
      have hl0 : low = false := by
        cases hlw : low with
        | false => rfl
        | true =>
          obtain ⟨_, hm, rho1, c1, hl1, hlt⟩ := hlow.1 hlw
          exact absurd ⟨hm, rho1, c1, hl1, hlt⟩ hel
      exact hstay huniq hex hl0 hz

/-- The failing input of C27: a record of G05, with fields that are not 0.0, and of the
GLONASS satellite 5, whose only field is 0.0 (`numSvs = 2`): no entry with the key
`(5, GPS)` is left, so the entry of G05 is erased, and the all-zero entry of the
GLONASS satellite stays. -/
theorem all_zero_removed_witness :
    ∃ out, ComputeNewOTs exConfig exFlags exEnvBC exEdit exTypes exCache exInit
        ⟨0, 0, 2, [exObs5, exObsR5Zero], []⟩ = some out ∧
      (∀ it ∈ out.2.obs, allZero it.2 = true →
        ∀ y ∈ out.1.obs, y.1 ≠ ⟨it.1.id, .systemGPS⟩) ∧
      out.2.obs = [exObs5, exObsR5Zero] ∧ out.1.obs = [exObsR5Zero] ∧ out.1.numSvs = 1 :=
  ⟨_, rfl,
    ((all_zero_removed exConfig exFlags exEnvBC exEdit exTypes exCache exInit
      ⟨0, 0, 2, [exObs5, exObsR5Zero], []⟩ (by decide)).1 _ rfl).2.2.1, rfl, rfl, rfl⟩

/-- A record of GPS satellites only: the entry of G07, whose only field is 0.0, is
erased, and the entry of G05 stays. -/
theorem all_zero_gps_removed :
    ∃ out, ComputeNewOTs exConfig exFlags exEnvBC exEdit exTypes exCache exInit exRodZero
        = some out ∧
      out.2.SVDelete = [⟨7, .systemGPS⟩] ∧ out.1.obs = [exObs5] ∧ out.1.numSvs = 1 :=
  ⟨_, rfl, rfl, rfl, rfl⟩

/-- C29 (what the program does): `numSvs` is counted down once for every
entry of the list `SVDelete` of the satellites to delete, and no record is left that has
the key of an entry of the list; the records left are records of the loop. An entry of
the list that is there twice, or that has no record, is counted all the same. -/
theorem numSvs_counts_pushes (cfg : Config) (f : EphFlags) (env : EphEnv)
    (e : EditFlags) (ps : List (String × RinexObsType))
    (DataStoreMap : List (RinexSatID × RCData)) (init : CNOState) (rod : RinexObsData)
    (out : RinexObsData × CNOState)
    (h : ComputeNewOTs cfg f env e ps DataStoreMap init rod = some out) :
    out.1.numSvs = rod.numSvs - out.2.SVDelete.length ∧
    out.2.obs.map Prod.fst = rod.obs.map Prod.fst ∧
    ∀ it, it ∈ out.1.obs ↔
      it ∈ out.2.obs ∧ ∀ sv ∈ out.2.SVDelete, it.1 ≠ ⟨sv.id, .systemGPS⟩ := by
  obtain ⟨recs, _, _, _, _, hmem, hn⟩ :=
    ComputeNewOTs_spec cfg f env e ps DataStoreMap init rod out h
  exact ⟨hn, (ComputeNewOTs_keys cfg f env e ps DataStoreMap init rod out h).1, hmem⟩

/-- A satellite below the elevation mask whose fields are all 0.0 is counted twice: the
record has one satellite and `numSvs = 1`; the satellite is put on `SVDelete` by the
elevation test and again by the test of the fields, so no record is left and
`numSvs = -1`. -/
theorem numSvs_counts_pushes_witness :
    ∃ out, ComputeNewOTs exConfig exFlagsMask exEnvBC exEdit exTypesER [(sat5, exDataZero)]
        exInit ⟨0, 0, 1, [exObs5Zero], []⟩ = some out ∧
      out.2.SVDelete = [sat5, sat5] ∧ out.1.obs = [] ∧ out.1.numSvs = -1 ∧
      out.1.numSvs = 1 - 2 :=
  ⟨_, rfl, rfl, rfl, rfl,
    (numSvs_counts_pushes exConfig exFlagsMask exEnvBC exEdit exTypesER [(sat5, exDataZero)]
      exInit ⟨0, 0, 1, [exObs5Zero], []⟩ _ rfl).1⟩

end ResCor
